import Mathlib

/-!
kops `update cluster`: a shallow embedding of `cmd/kops/update_cluster.go`

`RunUpdateCluster` is embedded as a total function from the options and an
environment (the answers of the collaborators the command calls: state store,
credential stores, file system, engine, kubectl configuration, kubeconfig
builder, output writer) to a `Run`: the final value of the options the caller
passed by pointer, the ordered trace of every call made on a collaborator, and
the returned pair `(results, err)` (or a run-time panic).

Go strings are Lean strings, Go errors are their messages, `time.Duration` is
an integer, a Go `map[string]V` is an association list with unique keys.
-/

namespace Kops

/-! ## Packages outside `cmd/kops` -/

/-- Characters of `strings.Split(s, sep)` for a separator of one character:
the segments between the occurrences of `sep`, always at least one segment. -/
def strings.splitChars (sep : Char) : List Char → List (List Char)
  | [] => [[]]
  | ch :: rest =>
    if ch = sep then [] :: strings.splitChars sep rest
    else
      match strings.splitChars sep rest with
      | [] => [[ch]]
      | seg :: segs => (ch :: seg) :: segs

/-- Go `strings.Split(s, sep)` with `sep` a single character (the command only
splits on "="). -/
def strings.Split (s : String) (sep : Char) : List String :=
  (strings.splitChars sep s.data).map String.mk

/-- Go `strings.Join(elems, sep)`. -/
def strings.Join (elems : List String) (sep : String) : String :=
  sep.intercalate elems

/-- Go `strings.Replace(s, old, new, -1)` with `old` and `new` single
characters (the command only replaces "." by "-"). -/
def strings.Replace (s : String) (old new : Char) : String :=
  String.mk (s.data.map (fun ch => if ch = old then new else ch))

/-- Modelled from the spec: `cloudup.TargetDirect`, the name of the backend that
mutates live infrastructure (package `upup/pkg/fi/cloudup` is not in the source
tree; the flag default in `InitDefaults` is the same literal). -/
def cloudup.TargetDirect : String := "direct"

/-- Modelled from the spec: `cloudup.TargetDryRun`, the change-preview backend. -/
def cloudup.TargetDryRun : String := "dryrun"

/-- Modelled from the spec: `cloudup.TargetTerraform`. -/
def cloudup.TargetTerraform : String := "terraform"

/-- Modelled from the spec: `cloudup.TargetCloudformation`. -/
def cloudup.TargetCloudformation : String := "cloudformation"

/-- A `cloudup.Phase` is a string; the zero value "" selects every phase. -/
abbrev cloudup.Phase := String

/-- Modelled from the spec: `cloudup.PhaseNetwork`. -/
def cloudup.PhaseNetwork : cloudup.Phase := "network"

/-- Modelled from the spec: `cloudup.PhaseSecurity`. -/
def cloudup.PhaseSecurity : cloudup.Phase := "security"

/-- Modelled from the spec: `cloudup.PhaseCluster`. -/
def cloudup.PhaseCluster : cloudup.Phase := "cluster"

/-- Modelled from the spec: `cloudup.Phases.List()`, the fixed phase set
(network, security, cluster) as the sorted list a string set gives. -/
def cloudup.Phases.List : List String :=
  [cloudup.PhaseCluster, cloudup.PhaseNetwork, cloudup.PhaseSecurity]

/-- A `fi.Lifecycle` is a string. -/
abbrev fi.Lifecycle := String

/-- Modelled from the spec: `fi.SecretNameSSHPrimary`, the fixed well-known slot
under which the legacy SSH key is stored. -/
def fi.SecretNameSSHPrimary : String := "admin"

/-- Modelled from the spec: `kops.InstanceGroupRoleBastion`. -/
def kops.InstanceGroupRoleBastion : String := "Bastion"

/-- A Go `map[string]V` with the keys kept unique. -/
abbrev GoMap (V : Type) := List (String × V)

/-- Go `m[k] = v`: the binding of `k` is replaced, or added. -/
def GoMap.set {V : Type} (m : GoMap V) (k : String) (v : V) : GoMap V :=
  (k, v) :: m.filter (fun p => p.1 != k)

/-- Go `v, ok := m[k]`. -/
def GoMap.get {V : Type} (m : GoMap V) (k : String) : Option V :=
  m.lookup k

/-- Keys of a Go map. -/
def GoMap.keys {V : Type} (m : GoMap V) : List String :=
  m.map Prod.fst

/-! ## Data model -/

structure kops.BastionSpec where
  BastionPublicName : String
  deriving DecidableEq, Repr

structure kops.TopologySpec where
  Bastion : Option kops.BastionSpec
  deriving DecidableEq, Repr

structure kops.ClusterSpec where
  MasterPublicName : String
  Topology : Option kops.TopologySpec
  deriving DecidableEq, Repr

structure kops.ObjectMeta where
  Name : String
  deriving DecidableEq, Repr

structure kops.Cluster where
  ObjectMeta : kops.ObjectMeta
  Spec : kops.ClusterSpec
  deriving DecidableEq, Repr

structure kops.InstanceGroupSpec where
  Role : String
  deriving DecidableEq, Repr

structure kops.InstanceGroup where
  Spec : kops.InstanceGroupSpec
  deriving DecidableEq, Repr

/-- Handle of the cloud client built by `cloudup.BuildCloud`. -/
structure fi.Cloud where
  id : Nat
  deriving DecidableEq, Repr

/-- Handle of the clientset of the factory. -/
structure simple.Clientset where
  id : Nat
  deriving DecidableEq, Repr

structure fi.CAStore where
  id : Nat
  deriving DecidableEq, Repr

structure fi.SSHCredentialStore where
  id : Nat
  deriving DecidableEq, Repr

structure fi.SecretStore where
  id : Nat
  deriving DecidableEq, Repr

/-- Contents of `fi.RunTasksOptions`, carried to the engine uninterpreted. -/
structure fi.RunTasksOptions where
  MaxTaskDuration : Int
  deriving DecidableEq, Repr

/-- The dynamic type of a non-nil `fi.Target`: a `*fi.DryRunTarget`, with the
answer of its `HasChanges()`, or a target of another type. -/
inductive fi.Target where
  | DryRunTarget (HasChanges : Bool)
  | Other (name : String)
  deriving DecidableEq, Repr

structure UpdateClusterOptions where
  Yes : Bool
  Target : String
  OutDir : String
  SSHPublicKey : String
  RunTasksOptions : fi.RunTasksOptions
  AllowKopsDowngrade : Bool
  GetAssets : Bool
  ClusterName : String
  CreateKubecfg : Bool
  admin : Int
  user : String
  internal : Bool
  Phase : String
  LifecycleOverrides : List String
  deriving DecidableEq, Repr

structure UpdateClusterResults where
  Target : Option fi.Target
  TaskMap : List String
  ImageAssets : List String
  FileAssets : List String
  Cluster : Option kops.Cluster
  deriving DecidableEq, Repr

/-- The fields of `cloudup.ApplyClusterCmd` that `RunUpdateCluster` fills in
before it calls `Run`. -/
structure cloudup.ApplyClusterCmd where
  Cloud : fi.Cloud
  Clientset : simple.Clientset
  Cluster : kops.Cluster
  DryRun : Bool
  AllowKopsDowngrade : Bool
  RunTasksOptions : fi.RunTasksOptions
  OutDir : String
  Phase : cloudup.Phase
  TargetName : String
  LifecycleOverrides : GoMap fi.Lifecycle
  GetAssets : Bool
  deriving DecidableEq, Repr

/-- The fields of `cloudup.ApplyClusterCmd` that a successful `Run` has set and
`RunUpdateCluster` reads afterwards (`Target` may be the nil interface). -/
structure cloudup.ApplyClusterOutput where
  Target : Option fi.Target
  TaskMap : List String
  ImageAssets : List String
  FileAssets : List String
  InstanceGroups : List kops.InstanceGroup
  deriving DecidableEq, Repr

structure kutil.Context where
  Name : String
  deriving DecidableEq, Repr

structure kutil.Config where
  Contexts : List kutil.Context
  deriving DecidableEq, Repr

/-- Arguments of `kubeconfig.BuildKubecfg`. -/
structure BuildKubecfgArgs where
  cluster : kops.Cluster
  keyStore : fi.CAStore
  secretStore : fi.SecretStore
  cloud : fi.Cloud
  admin : Int
  user : String
  internal : Bool
  kopsStateStore : String
  useKopsAuthenticationPlugin : Bool
  deriving DecidableEq, Repr

/-- The document `kubeconfig.BuildKubecfg` returns. -/
structure kubeconfig.KubeconfigBuilder where
  id : Nat
  deriving DecidableEq, Repr

/-- Severity of a klog line. -/
inductive Severity where
  | info
  | warning
  deriving DecidableEq, Repr

/-- One call on a collaborator, as it appears in the trace of a run. -/
inductive Event where
  | GetCluster (clusterName : String)
  | Clientset
  | KeyStore
  | SSHCredentialStore
  | SecretStore
  | ReadFile (path : String)
  | AddSSHPublicKey (name : String) (data : List Nat)
  | BuildCloud
  | ApplyClusterCmdRun (cmd : cloudup.ApplyClusterCmd)
  | GetConfig
  | BuildKubecfg (args : BuildKubecfgArgs)
  | WriteKubecfg (conf : kubeconfig.KubeconfigBuilder)
  | Write (text : String)
  | klog (severity : Severity) (text : String)
  deriving DecidableEq, Repr

/-- What the command depends on and does not define: library functions by
their results, tables of package `fi`, and each collaborator by the answer it
gives to the call made on it. A Go result `(v, err)` is `Except String`, a
result `err` alone is `Option String`. -/
structure Env where
  /-- Go `strings.ToLower`. -/
  ToLower : String → String
  /-- Rendering of a string by the `%q` verb of `fmt`. -/
  Quote : String → String
  /-- Function `utils.ExpandPath`. -/
  ExpandPath : String → String
  /-- Go `filepath.Join` of two elements. -/
  Join : String → String → String
  /-- Table `fi.LifecycleNameMap`. -/
  LifecycleNameMap : GoMap fi.Lifecycle
  /-- Value of `fi.Lifecycles.List()`. -/
  Lifecycles : List String
  GetCluster : String → Except String kops.Cluster
  Clientset : Except String simple.Clientset
  KeyStore : simple.Clientset → kops.Cluster → Except String fi.CAStore
  SSHCredentialStore : simple.Clientset → kops.Cluster → Except String fi.SSHCredentialStore
  SecretStore : simple.Clientset → kops.Cluster → Except String fi.SecretStore
  ReadFile : String → Except String (List Nat)
  AddSSHPublicKey : fi.SSHCredentialStore → String → List Nat → Option String
  BuildCloud : kops.Cluster → Except String fi.Cloud
  ApplyClusterCmdRun : cloudup.ApplyClusterCmd → Except String cloudup.ApplyClusterOutput
  GetConfig : Except String kutil.Config
  KopsStateStore : String
  BuildKubecfg : BuildKubecfgArgs → Except String kubeconfig.KubeconfigBuilder
  WriteKubecfg : kubeconfig.KubeconfigBuilder → Option String
  /-- Error of `out.Write` on the final narrative. -/
  OutWrite : String → Option String

/-- How a call of `RunUpdateCluster` ends. -/
inductive Outcome where
  | returned (results : Option UpdateClusterResults) (err : Option String)
  | panicked
  deriving DecidableEq, Repr

/-- A finished call: the options as the callee left them, every collaborator
call in order, and the outcome. -/
structure Run where
  options : UpdateClusterOptions
  trace : List Event
  outcome : Outcome
  deriving DecidableEq, Repr

/-- The events `es` happened, then the run `r`. -/
def Run.after (es : List Event) (r : Run) : Run :=
  { r with trace := es ++ r.trace }

/-! ## The command -/

/-- Source `parseLifecycle`: the lifecycle is looked up in `fi.LifecycleNameMap`. -/
def parseLifecycle (env : Env) (lifecycle : String) : Except String fi.Lifecycle :=
  match GoMap.get env.LifecycleNameMap lifecycle with
  | some v => .ok v
  | none =>
    .error ("unknown lifecycle " ++ env.Quote lifecycle ++ ", available lifecycle: "
      ++ strings.Join env.Lifecycles ",")

/-- Source `usesBastion`. -/
def usesBastion (instanceGroups : List kops.InstanceGroup) : Bool :=
  instanceGroups.any (fun ig => ig.Spec.Role == kops.InstanceGroupRoleBastion)

/-- Source `findBastionPublicName`. -/
def findBastionPublicName (c : kops.Cluster) : String :=
  match c.Spec.Topology with
  | none => ""
  | some topology =>
    match topology.Bastion with
    | none => ""
    | some bastion => bastion.BastionPublicName

/-- Source `hasKubecfg`. -/
def hasKubecfg (env : Env) (contextName : String) : Except String Bool :=
  match env.GetConfig with
  | .error err => .error ("error getting config from kubectl: " ++ err)
  | .ok config => .ok (config.Contexts.any (fun context => context.Name == contextName))

/-- Lines 159-191 of `RunUpdateCluster`: the pair `(isDryrun, targetName)`. -/
def resolveTarget (c : UpdateClusterOptions) : Bool × String :=
  let r : Bool × String := (false, c.Target)
  let r := if c.Target = cloudup.TargetDirect then
      (if !c.Yes then (true, cloudup.TargetDryRun) else r)
    else r
  if c.Target = cloudup.TargetDryRun then (true, cloudup.TargetDryRun) else r

/-- Lines 193-201 of `RunUpdateCluster`: the value of `c.OutDir` afterwards. -/
def resolveOutDir (c : UpdateClusterOptions) : String :=
  if c.OutDir = "" then
    if c.Target = cloudup.TargetTerraform then "out/terraform"
    else if c.Target = cloudup.TargetCloudformation then "out/cloudformation"
    else "out"
  else c.OutDir

/-- Lines 244-256 of `RunUpdateCluster`, on the value of `c.Phase`: the phase,
or the error message. -/
def selectPhase (env : Env) (Phase : String) : Except String cloudup.Phase :=
  if Phase ≠ "" then
    let lowered := env.ToLower Phase
    if lowered = cloudup.PhaseNetwork then .ok cloudup.PhaseNetwork
    else if lowered = cloudup.PhaseSecurity ∨ lowered = "iam" then .ok cloudup.PhaseSecurity
    else if lowered = cloudup.PhaseCluster then .ok cloudup.PhaseCluster
    else .error ("unknown phase " ++ env.Quote Phase ++ ", available phases: "
      ++ strings.Join cloudup.Phases.List ",")
  else .ok ""

/-- Lines 258-275 of `RunUpdateCluster`: the loop over `c.LifecycleOverrides`,
from the map built so far. An early return gives the pair `(results, err)` it
returns: the syntax error comes with `results`, the lifecycle error with nil. -/
def lifecycleOverrides (env : Env) (results : UpdateClusterResults) :
    List String → GoMap fi.Lifecycle →
      Except (Option UpdateClusterResults × String) (GoMap fi.Lifecycle)
  | [], lifecycleOverrideMap => .ok lifecycleOverrideMap
  | override :: rest, lifecycleOverrideMap =>
    match strings.Split override '=' with
    | [taskName, lifecycleName] =>
      match parseLifecycle env lifecycleName with
      | .error err => .error (none, err)
      | .ok lifecycleOverride =>
        lifecycleOverrides env results rest (GoMap.set lifecycleOverrideMap taskName lifecycleOverride)
    | _ =>
      .error (some results,
        "incorrect syntax for lifecyle-overrides, correct syntax is TaskName=lifecycleName, override provided: "
          ++ env.Quote override)

/-- Lines 355-415 of `RunUpdateCluster`: the pieces printed into the buffer
`sb`, one per `Fprintf`, in order. -/
def narrative (env : Env) (c : UpdateClusterOptions) (firstRun : Bool) (cluster : kops.Cluster)
    (instanceGroups : List kops.InstanceGroup) : List String :=
  (if c.Target = cloudup.TargetTerraform then
    ["\n", "Terraform output has been placed into " ++ c.OutDir ++ "\n"]
    ++ (if firstRun then
      ["Run these commands to apply the configuration:\n",
       "   cd " ++ c.OutDir ++ "\n",
       "   terraform plan\n",
       "   terraform apply\n",
       "\n"]
      else [])
  else if c.Target = cloudup.TargetCloudformation then
    ["\n", "Cloudformation output has been placed into " ++ c.OutDir ++ "\n"]
    ++ (if firstRun then
      let cfName := "kubernetes-" ++ strings.Replace c.ClusterName '.' '-'
      let cfPath := env.Join c.OutDir "kubernetes.json"
      ["Run this command to apply the configuration:\n",
       "   aws cloudformation create-stack --capabilities CAPABILITY_NAMED_IAM --stack-name "
         ++ cfName ++ " --template-body file://" ++ cfPath ++ "\n",
       "\n"]
      else [])
  else if firstRun then
    ["\n", "Cluster is starting.  It should be ready in a few minutes.\n", "\n"]
  else
    ["\n", "Cluster changes have been applied to the cloud.\n", "\n"])
  ++ (if firstRun then
    ["Suggestions:\n",
     " * validate cluster: kops validate cluster --wait 10m\n",
     " * list nodes: kubectl get nodes --show-labels\n"]
    ++ (if !usesBastion instanceGroups then
      [" * ssh to the master: ssh -i ~/.ssh/id_rsa ubuntu@" ++ cluster.Spec.MasterPublicName ++ "\n"]
      else
        let bastionPublicName := findBastionPublicName cluster
        if bastionPublicName ≠ "" then
          [" * ssh to the bastion: ssh -A -i ~/.ssh/id_rsa ubuntu@" ++ bastionPublicName ++ "\n"]
        else
          [" * to ssh to the bastion, you probably want to configure a bastionPublicName.\n"])
    ++ [" * the ubuntu user is specific to Ubuntu. If not using Ubuntu please use the appropriate user based on your OS.\n",
        " * read about installing addons at: https://kops.sigs.k8s.io/operations/addons.\n",
        "\n"]
    else [])
  ++ (if !firstRun then
    ["\n", "Changes may require instances to restart: kops rolling-update cluster\n", "\n"]
    else [])

/-- Lines 354-423 of `RunUpdateCluster`: outside dry-run the narrative is
written to `out` in one `Write`; then `results, nil`. -/
def RunUpdateCluster.narrate (env : Env) (c : UpdateClusterOptions) (isDryrun : Bool)
    (results : UpdateClusterResults) (firstRun : Bool) (cluster : kops.Cluster)
    (instanceGroups : List kops.InstanceGroup) : Run :=
  if !isDryrun then
    let sb := String.join (narrative env c firstRun cluster instanceGroups)
    match env.OutWrite sb with
    | some err => ⟨c, [.Write sb], .returned none (some ("error writing to output: " ++ err))⟩
    | none => ⟨c, [.Write sb], .returned (some results) none⟩
  else ⟨c, [], .returned (some results) none⟩

/-- Lines 316-352 of `RunUpdateCluster`: first-run detection and the export of
the kubeconfig, then the narrative. -/
def RunUpdateCluster.exportKubecfg (env : Env) (c : UpdateClusterOptions) (isDryrun : Bool)
    (results : UpdateClusterResults) (cluster : kops.Cluster) (keyStore : fi.CAStore)
    (secretStore : fi.SecretStore) (cloud : fi.Cloud)
    (instanceGroups : List kops.InstanceGroup) : Run :=
  if !isDryrun && c.CreateKubecfg then
    let looked : Bool × List Event :=
      match hasKubecfg env cluster.ObjectMeta.Name with
      | .error err => (true, [.klog .warning ("error reading kubecfg: " ++ err)])
      | .ok found => (found, [])
    let firstRun := !looked.1
    let args : BuildKubecfgArgs :=
      { cluster := cluster, keyStore := keyStore, secretStore := secretStore, cloud := cloud,
        admin := c.admin, user := c.user, internal := c.internal,
        kopsStateStore := env.KopsStateStore, useKopsAuthenticationPlugin := false }
    Run.after ([.GetConfig] ++ looked.2
        ++ [.klog .info "Exporting kubeconfig for cluster", .BuildKubecfg args]) <|
      match env.BuildKubecfg args with
      | .error err => ⟨c, [], .returned none (some err)⟩
      | .ok conf =>
        Run.after [.WriteKubecfg conf] <|
          match env.WriteKubecfg conf with
          | some err => ⟨c, [], .returned none (some err)⟩
          | none =>
            Run.after
              (if c.admin = 0 ∧ c.user = "" then
                [.klog .warning "Exported kubeconfig with no user authentication; use --admin, --user or --auth-plugin flags with `kops export kubeconfig`"]
              else [])
              (RunUpdateCluster.narrate env c isDryrun results firstRun cluster instanceGroups)
  else RunUpdateCluster.narrate env c isDryrun results false cluster instanceGroups

/-- Lines 296-314 of `RunUpdateCluster`: what follows the answer of the
engine. Its error is returned as it is; in dry-run mode (unless only assets are
wanted) the run ends with one of the two reports. The type assertion on the
target of the engine panics when the target is not a `*fi.DryRunTarget`. -/
def RunUpdateCluster.report (env : Env) (c : UpdateClusterOptions) (isDryrun : Bool)
    (results : UpdateClusterResults) (cluster : kops.Cluster) (keyStore : fi.CAStore)
    (secretStore : fi.SecretStore) (cloud : fi.Cloud)
    (answer : Except String cloudup.ApplyClusterOutput) : Run :=
  match answer with
  | .error err => ⟨c, [], .returned (some results) (some err)⟩
  | .ok ran =>
    let results : UpdateClusterResults :=
      { Target := ran.Target,
        TaskMap := ran.TaskMap,
        ImageAssets := ran.ImageAssets,
        FileAssets := ran.FileAssets,
        Cluster := some cluster }
    if isDryrun && !c.GetAssets then
      match ran.Target with
      | some (.DryRunTarget hasChanges) =>
        if hasChanges then
          ⟨c, [.Write "Must specify --yes to apply changes\n"], .returned (some results) none⟩
        else
          ⟨c, [.Write "No changes need to be applied\n"], .returned (some results) none⟩
      | _ => ⟨c, [], .panicked⟩
    else
      RunUpdateCluster.exportKubecfg env c isDryrun results cluster keyStore secretStore
        cloud ran.InstanceGroups

/-- Lines 282-294 of `RunUpdateCluster`: the command handed to the engine. -/
def RunUpdateCluster.applyCmd (c : UpdateClusterOptions) (isDryrun : Bool)
    (targetName : String) (cluster : kops.Cluster) (clientset : simple.Clientset)
    (cloud : fi.Cloud) (phase : cloudup.Phase) (lifecycleOverrideMap : GoMap fi.Lifecycle) :
    cloudup.ApplyClusterCmd :=
  { Cloud := cloud,
    Clientset := clientset,
    Cluster := cluster,
    DryRun := isDryrun,
    AllowKopsDowngrade := c.AllowKopsDowngrade,
    RunTasksOptions := c.RunTasksOptions,
    OutDir := c.OutDir,
    Phase := phase,
    TargetName := targetName,
    LifecycleOverrides := lifecycleOverrideMap,
    GetAssets := c.GetAssets }

/-- Lines 277-298 of `RunUpdateCluster`: the cloud is built and the engine is
run once on the command assembled from the resolved plan. -/
def RunUpdateCluster.apply (env : Env) (c : UpdateClusterOptions) (isDryrun : Bool)
    (targetName : String) (results : UpdateClusterResults) (cluster : kops.Cluster)
    (clientset : simple.Clientset) (keyStore : fi.CAStore) (secretStore : fi.SecretStore)
    (phase : cloudup.Phase) (lifecycleOverrideMap : GoMap fi.Lifecycle) : Run :=
  Run.after [.BuildCloud] <|
    match env.BuildCloud cluster with
    | .error err => ⟨c, [], .returned none (some err)⟩
    | .ok cloud =>
      let applyCmd := RunUpdateCluster.applyCmd c isDryrun targetName cluster clientset cloud
        phase lifecycleOverrideMap
      Run.after [.ApplyClusterCmdRun applyCmd]
        (RunUpdateCluster.report env c isDryrun results cluster keyStore secretStore cloud
          (env.ApplyClusterCmdRun applyCmd))

/-- Lines 244-275 of `RunUpdateCluster`: the phase is selected, then the
lifecycle overrides are parsed, then the engine stage runs. -/
def RunUpdateCluster.plan (env : Env) (c : UpdateClusterOptions) (isDryrun : Bool)
    (targetName : String) (results : UpdateClusterResults) (cluster : kops.Cluster)
    (clientset : simple.Clientset) (keyStore : fi.CAStore) (secretStore : fi.SecretStore) : Run :=
  match selectPhase env c.Phase with
  | .error err => ⟨c, [], .returned (some results) (some err)⟩
  | .ok phase =>
    match lifecycleOverrides env results c.LifecycleOverrides [] with
    | .error (res, err) => ⟨c, [], .returned res (some err)⟩
    | .ok lifecycleOverrideMap =>
      RunUpdateCluster.apply env c isDryrun targetName results cluster clientset keyStore
        secretStore phase lifecycleOverrideMap

/-- Lines 228-242 of `RunUpdateCluster`: the deprecated import of an SSH public
key, before the plan is completed. -/
def RunUpdateCluster.sshPublicKey (env : Env) (c : UpdateClusterOptions) (isDryrun : Bool)
    (targetName : String) (results : UpdateClusterResults) (cluster : kops.Cluster)
    (clientset : simple.Clientset) (keyStore : fi.CAStore)
    (sshCredentialStore : fi.SSHCredentialStore) (secretStore : fi.SecretStore) : Run :=
  if c.SSHPublicKey ≠ "" then
    let c : UpdateClusterOptions := { c with SSHPublicKey := env.ExpandPath c.SSHPublicKey }
    Run.after
      [.Write ("--ssh-public-key on update is deprecated - please use `kops create secret --name "
          ++ cluster.ObjectMeta.Name ++ " sshpublickey admin -i ~/.ssh/id_rsa.pub` instead\n"),
       .ReadFile c.SSHPublicKey] <|
      match env.ReadFile c.SSHPublicKey with
      | .error err =>
        ⟨c, [], .returned (some results)
          (some ("error reading SSH key file " ++ env.Quote c.SSHPublicKey ++ ": " ++ err))⟩
      | .ok authorized =>
        Run.after [.AddSSHPublicKey fi.SecretNameSSHPrimary authorized] <|
          match env.AddSSHPublicKey sshCredentialStore fi.SecretNameSSHPrimary authorized with
          | some err =>
            ⟨c, [], .returned (some results) (some ("error adding SSH public key: " ++ err))⟩
          | none =>
            Run.after [.klog .info ("Using SSH public key: " ++ c.SSHPublicKey ++ "\n")]
              (RunUpdateCluster.plan env c isDryrun targetName results cluster clientset
                keyStore secretStore)
  else
    RunUpdateCluster.plan env c isDryrun targetName results cluster clientset keyStore secretStore

/-- Lines 203-226 of `RunUpdateCluster`: the cluster and the stores are
fetched; each failure returns `results, err`. -/
def RunUpdateCluster.stores (env : Env) (c : UpdateClusterOptions) (isDryrun : Bool)
    (targetName : String) (results : UpdateClusterResults) : Run :=
  Run.after [.GetCluster c.ClusterName] <|
    match env.GetCluster c.ClusterName with
    | .error err => ⟨c, [], .returned (some results) (some err)⟩
    | .ok cluster =>
      Run.after [.Clientset] <|
        match env.Clientset with
        | .error err => ⟨c, [], .returned (some results) (some err)⟩
        | .ok clientset =>
          Run.after [.KeyStore] <|
            match env.KeyStore clientset cluster with
            | .error err => ⟨c, [], .returned (some results) (some err)⟩
            | .ok keyStore =>
              Run.after [.SSHCredentialStore] <|
                match env.SSHCredentialStore clientset cluster with
                | .error err => ⟨c, [], .returned (some results) (some err)⟩
                | .ok sshCredentialStore =>
                  Run.after [.SecretStore] <|
                    match env.SecretStore clientset cluster with
                    | .error err => ⟨c, [], .returned (some results) (some err)⟩
                    | .ok secretStore =>
                      RunUpdateCluster.sshPublicKey env c isDryrun targetName results cluster
                        clientset keyStore sshCredentialStore secretStore

/-- Lines 166-179 of `RunUpdateCluster`: each of `--admin`, `--user` and
`--internal` sets `c.CreateKubecfg`, with a log line, when it is not yet set.
The result is the new value of the flag and the lines logged. -/
def impliedCreateKubecfg (c : UpdateClusterOptions) : Bool × List Event :=
  let s : Bool × List Event := (c.CreateKubecfg, [])
  let s := if c.admin ≠ 0 ∧ !s.1 then
      (true, s.2 ++ [.klog .info "--admin implies --create-kube-config"]) else s
  let s := if c.user ≠ "" ∧ !s.1 then
      (true, s.2 ++ [.klog .info "--user implies --create-kube-config"]) else s
  if c.internal ∧ !s.1 then
    (true, s.2 ++ [.klog .info "--internal implies --create-kube-config"]) else s

/-- The zero value `&UpdateClusterResults{}`. -/
def UpdateClusterResults.empty : UpdateClusterResults :=
  { Target := none, TaskMap := [], ImageAssets := [], FileAssets := [], Cluster := none }

/-- Source `RunUpdateCluster`. -/
def RunUpdateCluster (env : Env) (c : UpdateClusterOptions) : Run :=
  let results := UpdateClusterResults.empty
  if c.admin ≠ 0 ∧ c.user ≠ "" then
    ⟨c, [], .returned none (some "cannot use both --admin and --user")⟩
  else
    let implied := impliedCreateKubecfg c
    let plan := resolveTarget c
    let c : UpdateClusterOptions :=
      { c with CreateKubecfg := implied.1, OutDir := resolveOutDir c }
    Run.after implied.2 (RunUpdateCluster.stores env c plan.1 plan.2 results)

/-! ## Observations on a run -/

/-- The commands of the engine runs among the events, in order. -/
def engineCallsOf : List Event → List cloudup.ApplyClusterCmd
  | [] => []
  | .ApplyClusterCmdRun cmd :: es => cmd :: engineCallsOf es
  | _ :: es => engineCallsOf es

/-- The commands on which the engine was run, in order. -/
def Run.engineCalls (r : Run) : List cloudup.ApplyClusterCmd :=
  engineCallsOf r.trace

/-- The texts written to `out` among the events, in order. -/
def writesOf : List Event → List String
  | [] => []
  | .Write text :: es => text :: writesOf es
  | _ :: es => writesOf es

/-- The text written to `out`. -/
def Run.output (r : Run) : String :=
  String.join (writesOf r.trace)

/-- Whether an event builds or writes a kubeconfig. -/
def Event.isKubecfg : Event → Bool
  | .BuildKubecfg _ => true
  | .WriteKubecfg _ => true
  | _ => false

/-- Whether an event is a klog line (no collaborator is touched). -/
def Event.isLog : Event → Bool
  | .klog _ _ => true
  | _ => false

/-- The value of `c.SSHPublicKey` once the key import is over. -/
def RunUpdateCluster.expandedKey (env : Env) (c : UpdateClusterOptions) : String :=
  if c.SSHPublicKey = "" then c.SSHPublicKey else env.ExpandPath c.SSHPublicKey

/-- The deprecation notice printed when `--ssh-public-key` is given. -/
def RunUpdateCluster.deprecation (cluster : kops.Cluster) : String :=
  "--ssh-public-key on update is deprecated - please use `kops create secret --name "
    ++ cluster.ObjectMeta.Name ++ " sshpublickey admin -i ~/.ssh/id_rsa.pub` instead\n"

/-- The events of a key import that succeeds, none when no key is given. -/
def RunUpdateCluster.keyEvents (env : Env) (c : UpdateClusterOptions) (cluster : kops.Cluster)
    (authorized : List Nat) : List Event :=
  if c.SSHPublicKey = "" then []
  else
    [.Write (RunUpdateCluster.deprecation cluster),
     .ReadFile (env.ExpandPath c.SSHPublicKey),
     .AddSSHPublicKey fi.SecretNameSSHPrimary authorized,
     .klog .info ("Using SSH public key: " ++ env.ExpandPath c.SSHPublicKey ++ "\n")]

/-- The events of a run up to the engine call, when every step succeeds. -/
def RunUpdateCluster.bootstrap (env : Env) (c : UpdateClusterOptions) (cluster : kops.Cluster)
    (authorized : List Nat) : List Event :=
  (impliedCreateKubecfg c).2
    ++ [.GetCluster c.ClusterName, .Clientset, .KeyStore, .SSHCredentialStore, .SecretStore]
    ++ RunUpdateCluster.keyEvents env c cluster authorized
    ++ [.BuildCloud]

/-- The options as the steps before the engine call leave them. -/
def RunUpdateCluster.resolved (env : Env) (c : UpdateClusterOptions) : UpdateClusterOptions :=
  { c with
    CreateKubecfg := (impliedCreateKubecfg c).1,
    OutDir := resolveOutDir c,
    SSHPublicKey := RunUpdateCluster.expandedKey env c }

/-- Lines 330-339 of `RunUpdateCluster`: the arguments of `BuildKubecfg`. -/
def RunUpdateCluster.kubecfgArgs (env : Env) (c : UpdateClusterOptions) (cluster : kops.Cluster)
    (keyStore : fi.CAStore) (secretStore : fi.SecretStore) (cloud : fi.Cloud) :
    BuildKubecfgArgs :=
  { cluster := cluster, keyStore := keyStore, secretStore := secretStore, cloud := cloud,
    admin := c.admin, user := c.user, internal := c.internal,
    kopsStateStore := env.KopsStateStore, useKopsAuthenticationPlugin := false }

/-- Lines 319-324 of `RunUpdateCluster`: the value given to `firstRun` by the
lookup of the kube context, and the warning the lookup logs when it fails. -/
def RunUpdateCluster.lookup (env : Env) (cluster : kops.Cluster) : Bool × List Event :=
  match hasKubecfg env cluster.ObjectMeta.Name with
  | .error err => (false, [.klog .warning ("error reading kubecfg: " ++ err)])
  | .ok found => (!found, [])

/-- Lines 349-351 of `RunUpdateCluster`: the warning logged after the export
when neither `--admin` nor `--user` is given. -/
def RunUpdateCluster.advisory (c : UpdateClusterOptions) : List Event :=
  if c.admin = 0 ∧ c.user = "" then
    [.klog .warning "Exported kubeconfig with no user authentication; use --admin, --user or --auth-plugin flags with `kops export kubeconfig`"]
  else []

/-- The steps of `RunUpdateCluster` before the phase is selected all succeed:
the identity flags do not conflict, the cluster and the four stores are fetched,
and the SSH key, when one is given, is read (as `authorized`) and stored. -/
def RunUpdateCluster.Bootstrapped (env : Env) (c : UpdateClusterOptions)
    (cluster : kops.Cluster) (clientset : simple.Clientset) (keyStore : fi.CAStore)
    (secretStore : fi.SecretStore) (authorized : List Nat) : Prop :=
  ¬ (c.admin ≠ 0 ∧ c.user ≠ "")
  ∧ env.GetCluster c.ClusterName = .ok cluster
  ∧ env.Clientset = .ok clientset
  ∧ env.KeyStore clientset cluster = .ok keyStore
  ∧ env.SecretStore clientset cluster = .ok secretStore
  ∧ ∃ sshCredentialStore, env.SSHCredentialStore clientset cluster = .ok sshCredentialStore
    ∧ (c.SSHPublicKey ≠ "" →
        env.ReadFile (env.ExpandPath c.SSHPublicKey) = .ok authorized
        ∧ env.AddSSHPublicKey sshCredentialStore fi.SecretNameSSHPrimary authorized = none)

/-- The entry has the form task=policy, with the policy a key of
`fi.LifecycleNameMap`: it splits on "=" into exactly two segments and the second
is in the registry. -/
def Override.wellFormed (env : Env) (entry : String) : Prop :=
  ∃ task name policy, strings.Split entry '=' = [task, name]
    ∧ GoMap.get env.LifecycleNameMap name = some policy

/-! ## A concrete environment -/

/-- A cluster with a bastion public name. -/
def Sample.cluster : kops.Cluster :=
  { ObjectMeta := { Name := "k8s.example.com" },
    Spec := { MasterPublicName := "api.k8s.example.com",
              Topology := some { Bastion := some { BastionPublicName := "bastion.k8s.example.com" } } } }

/-- An environment in which every collaborator succeeds: the lifecycle registry
holds the policies the design names, the engine answers a dry run with a
dry-run target that has pending changes and any other run with a target of
another type, and rejects a target name it does not know; no kube context
exists yet. Lower-casing and quoting are
those of ASCII text without special characters. -/
def Sample.env : Env :=
  { ToLower := fun s => String.mk (s.data.map Char.toLower),
    Quote := fun s => "\"" ++ s ++ "\"",
    ExpandPath := fun s => s,
    Join := fun a b => a ++ "/" ++ b,
    LifecycleNameMap :=
      [("Sync", "Sync"), ("Ignore", "Ignore"), ("ExistsAndValidates", "ExistsAndValidates"),
       ("ExistsAndWarnIfChanges", "ExistsAndWarnIfChanges")],
    Lifecycles := ["ExistsAndValidates", "ExistsAndWarnIfChanges", "Ignore", "Sync"],
    GetCluster := fun _ => .ok Sample.cluster,
    Clientset := .ok ⟨1⟩,
    KeyStore := fun _ _ => .ok ⟨2⟩,
    SSHCredentialStore := fun _ _ => .ok ⟨3⟩,
    SecretStore := fun _ _ => .ok ⟨4⟩,
    ReadFile := fun _ => .ok [115, 115, 104],
    AddSSHPublicKey := fun _ _ _ => none,
    BuildCloud := fun _ => .ok ⟨5⟩,
    ApplyClusterCmdRun := fun cmd =>
      if cmd.TargetName ∉ ["direct", "dryrun", "terraform", "cloudformation"] then
        .error ("unsupported target type " ++ "\"" ++ cmd.TargetName ++ "\"")
      else
      .ok { Target := some (if cmd.DryRun then .DryRunTarget true else .Other cmd.TargetName),
            TaskMap := [], ImageAssets := [], FileAssets := [],
            InstanceGroups := [{ Spec := { Role := "Master" } }, { Spec := { Role := "Node" } }] },
    GetConfig := .ok { Contexts := [] },
    KopsStateStore := "s3://state",
    BuildKubecfg := fun _ => .ok ⟨6⟩,
    WriteKubecfg := fun _ => none,
    OutWrite := fun _ => none }

/-- The options after `InitDefaults`, for the sample cluster. -/
def Sample.options : UpdateClusterOptions :=
  { Yes := false, Target := "direct", OutDir := "", SSHPublicKey := "",
    RunTasksOptions := { MaxTaskDuration := 600 },
    AllowKopsDowngrade := false, GetAssets := false, ClusterName := "k8s.example.com",
    CreateKubecfg := true, admin := 0, user := "", internal := false, Phase := "",
    LifecycleOverrides := [] }

/-- The command the engine receives in the sample run without `--yes`. -/
def Sample.dryRunCmd : cloudup.ApplyClusterCmd :=
  { Cloud := ⟨5⟩, Clientset := ⟨1⟩, Cluster := Sample.cluster, DryRun := true,
    AllowKopsDowngrade := false, RunTasksOptions := { MaxTaskDuration := 600 },
    OutDir := "out", Phase := "", TargetName := "dryrun", LifecycleOverrides := [],
    GetAssets := false }

/-- The sample options with target terraform. -/
def Sample.terraform : UpdateClusterOptions :=
  { Sample.options with Target := "terraform" }

/-- The command the engine receives in the sample run with target terraform. -/
def Sample.terraformCmd : cloudup.ApplyClusterCmd :=
  { Sample.dryRunCmd with DryRun := false, TargetName := "terraform", OutDir := "out/terraform" }

/-- The sample options with a target name that is none of the four backends,
confirmed with `--yes`. -/
def Sample.bogus : UpdateClusterOptions :=
  { Sample.options with Target := "bogus", Yes := true }

/-- The command the engine receives in the sample run with target "bogus". -/
def Sample.bogusCmd : cloudup.ApplyClusterCmd :=
  { Sample.dryRunCmd with DryRun := false, TargetName := "bogus" }

/-- The sample options with both `--admin` (one hour) and `--user`. -/
def Sample.conflict : UpdateClusterOptions :=
  { Sample.options with admin := 3600000000000, user := "bob", CreateKubecfg := false }

/-- The sample options with the phase "bogus". -/
def Sample.bogusPhase : UpdateClusterOptions :=
  { Sample.options with Phase := "bogus" }

/-- The sample options with an output directory given by the caller. -/
def Sample.customOut : UpdateClusterOptions :=
  { Sample.options with Target := "cloudformation", OutDir := "build/cf" }

/-- The sample options with a legacy SSH public key path. -/
def Sample.withKey : UpdateClusterOptions :=
  { Sample.options with SSHPublicKey := "~/.ssh/id_rsa.pub" }

/-- The answer of the sample engine to a dry run: pending changes. -/
def Sample.pending : cloudup.ApplyClusterOutput :=
  { Target := some (.DryRunTarget true), TaskMap := [], ImageAssets := [], FileAssets := [],
    InstanceGroups := [{ Spec := { Role := "Master" } }, { Spec := { Role := "Node" } }] }

/-- The sample options with a second override with two "=". -/
def Sample.badSyntax : UpdateClusterOptions :=
  { Sample.options with LifecycleOverrides := ["A=Ignore", "A=B=C"] }

/-- The sample options with a second override of unknown policy. -/
def Sample.badPolicy : UpdateClusterOptions :=
  { Sample.options with LifecycleOverrides := ["A=Ignore", "B=Bogus"] }

/-- The sample options, confirmed, with a task overridden twice. -/
def Sample.overridden : UpdateClusterOptions :=
  { Sample.options with Yes := true, LifecycleOverrides := ["A=Ignore", "B=Sync", "A=Sync"] }

/-- The command the engine receives in the sample run with a task overridden
twice. -/
def Sample.overriddenCmd : cloudup.ApplyClusterCmd :=
  { Sample.dryRunCmd with
    DryRun := false,
    TargetName := "direct",
    LifecycleOverrides := [("A", "Sync"), ("B", "Sync")] }

/-- The sample options, confirmed, with `--internal` and the kubeconfig export
switched off by the caller. -/
def Sample.internalOnly : UpdateClusterOptions :=
  { Sample.options with Yes := true, CreateKubecfg := false, internal := true }

/-- The command the engine receives in a confirmed sample run on target direct. -/
def Sample.applyCmd : cloudup.ApplyClusterCmd :=
  { Sample.dryRunCmd with DryRun := false, TargetName := "direct" }

/-- The answer of the sample engine to a confirmed run on target direct. -/
def Sample.applied : cloudup.ApplyClusterOutput :=
  { Target := some (.Other "direct"), TaskMap := [], ImageAssets := [], FileAssets := [],
    InstanceGroups := [{ Spec := { Role := "Master" } }, { Spec := { Role := "Node" } }] }

/-- The sample options with a legacy SSH public key path and the phase "bogus". -/
def Sample.keyAndBogusPhase : UpdateClusterOptions :=
  { Sample.options with SSHPublicKey := "~/.ssh/id_rsa.pub", Phase := "bogus" }

/-- The sample options with a legacy SSH public key path and an override without "=". -/
def Sample.keyAndBadOverride : UpdateClusterOptions :=
  { Sample.options with SSHPublicKey := "~/.ssh/id_rsa.pub", LifecycleOverrides := ["A"] }

/-- The sample options with an override whose task name is empty. -/
def Sample.emptyTask : UpdateClusterOptions :=
  { Sample.options with LifecycleOverrides := ["=Ignore"] }

/-- The command the engine receives in the sample run with the override "=Ignore". -/
def Sample.emptyTaskCmd : cloudup.ApplyClusterCmd :=
  { Sample.dryRunCmd with LifecycleOverrides := [("", "Ignore")] }

/-- The sample options, confirmed, for assets only. -/
def Sample.assetsApply : UpdateClusterOptions :=
  { Sample.options with Yes := true, GetAssets := true }

/-- The command the engine receives in the confirmed sample run for assets only. -/
def Sample.assetsCmd : cloudup.ApplyClusterCmd :=
  { Sample.dryRunCmd with DryRun := false, TargetName := "direct", GetAssets := true }

/-- Instance groups among which one has the role Bastion. -/
def Sample.bastionGroups : List kops.InstanceGroup :=
  [{ Spec := { Role := "Master" } }, { Spec := { Role := "Bastion" } },
   { Spec := { Role := "Node" } }]

/-- The sample cluster without a topology. -/
def Sample.flatCluster : kops.Cluster :=
  { Sample.cluster with
    Spec := { MasterPublicName := "api.k8s.example.com", Topology := none } }

/-- The sample cluster with a bastion that has no public name. -/
def Sample.unnamedBastion : kops.Cluster :=
  { Sample.cluster with
    Spec := { MasterPublicName := "api.k8s.example.com",
              Topology := some { Bastion := some { BastionPublicName := "" } } } }

/-- The sample environment on a machine whose kubectl configuration cannot be
read. -/
def Sample.unreadable : Env :=
  { Sample.env with GetConfig := .error "open /root/.kube/config: permission denied" }

/-- The sample options, confirmed, with the kubeconfig export switched off. -/
def Sample.noKubecfg : UpdateClusterOptions :=
  { Sample.options with Yes := true, CreateKubecfg := false }

/-- The sample options, confirmed. -/
def Sample.confirmed : UpdateClusterOptions :=
  { Sample.options with Yes := true }

/-- The sample options with target cloudformation. -/
def Sample.cloudformation : UpdateClusterOptions :=
  { Sample.options with Target := "cloudformation" }

/-! ## The command `get secrets`: `listSecrets` of `cmd/kops/get_secrets.go` -/

/-- A `kops.KeysetType` is a string. -/
abbrev kops.KeysetType := String

/-- Source constant `SecretTypeSSHPublicKey`. -/
def SecretTypeSSHPublicKey : kops.KeysetType := "SSHPublicKey"

/-- The fields of `fi.KeystoreItem` that `listSecrets` sets; its field `Type` is
`KeysetType` here. `Data` is the byte slice of a string, kept as that string;
the nil slice is `none`. -/
structure fi.KeystoreItem where
  KeysetType : kops.KeysetType
  Name : String
  ID : String
  Data : Option String
  deriving DecidableEq, Repr

structure kops.SSHCredentialSpec where
  PublicKey : String
  deriving DecidableEq, Repr

structure kops.SSHCredential where
  ObjectMeta : kops.ObjectMeta
  Spec : kops.SSHCredentialSpec
  deriving DecidableEq, Repr

/-- What `listSecrets` depends on and does not define: library functions, the
constant `kops.SecretTypeSecret`, and the answers of the two stores. -/
structure SecretsEnv where
  /-- Go `strings.ToLower`. -/
  ToLower : String → String
  /-- Rendering of a string by the `%q` verb of `fmt`. -/
  Quote : String → String
  /-- Constant `kops.SecretTypeSecret`. -/
  SecretTypeSecret : kops.KeysetType
  /-- Method `ListSecrets` of the secret store. -/
  ListSecrets : fi.SecretStore → Except String (List String)
  /-- Method `ListSSHCredentials` of the SSH credential store. -/
  ListSSHCredentials : fi.SSHCredentialStore → Except String (List kops.SSHCredential)
  /-- Function `sshcredentials.Fingerprint`: the identifier and the error. -/
  Fingerprint : String → String × Option String

/-- What a call of `listSecrets` leaves: the warnings logged and the returned
items, or the returned error. -/
structure SecretsListing where
  warnings : List String
  result : Except String (List fi.KeystoreItem)

/-- Lines 104-114 of `listSecrets`: the items of the secret names. -/
def listSecrets.secretItems (env : SecretsEnv) (findType : String) (names : List String) :
    List fi.KeystoreItem :=
  (names.map (fun name =>
      ({ Name := name, ID := "", KeysetType := env.SecretTypeSecret, Data := none } : fi.KeystoreItem))).filter
    (fun i => !(findType != "" && findType != env.ToLower i.KeysetType))

/-- Lines 124-135 of `listSecrets`: the item of one SSH credential. -/
def listSecrets.keyItem (env : SecretsEnv) (credential : kops.SSHCredential) : fi.KeystoreItem :=
  { Name := credential.ObjectMeta.Name,
    ID := (env.Fingerprint credential.Spec.PublicKey).1,
    KeysetType := SecretTypeSSHPublicKey,
    Data := if credential.Spec.PublicKey ≠ "" then some credential.Spec.PublicKey else none }

/-- Lines 123-141 of `listSecrets`: the items of the SSH credentials. -/
def listSecrets.keyItems (env : SecretsEnv) (findType : String)
    (l : List kops.SSHCredential) : List fi.KeystoreItem :=
  (l.map (listSecrets.keyItem env)).filter
    (fun item => !(findType != "" && findType != env.ToLower item.KeysetType))

/-- Lines 125-127 of `listSecrets`: the warnings on the credentials whose
fingerprint cannot be computed. -/
def listSecrets.keyWarnings (env : SecretsEnv) (l : List kops.SSHCredential) : List String :=
  l.filterMap (fun credential =>
    match (env.Fingerprint credential.Spec.PublicKey).2 with
    | some _ =>
      some ("unable to compute fingerprint for public key " ++ env.Quote credential.ObjectMeta.Name)
    | none => none)

/-- Lines 146-160 of `listSecrets`: the loop over the requested names, from the
matches gathered so far (`matched`); it returns at the first name that no item has. -/
def listSecrets.collect (env : SecretsEnv) (items : List fi.KeystoreItem) :
    List String → List fi.KeystoreItem → Except String (List fi.KeystoreItem)
  | [], matched => .ok matched
  | arg :: rest, matched =>
    let found := items.filter (fun i => i.Name == arg)
    if found.length = 0 then .error ("Secret not found: " ++ env.Quote arg)
    else listSecrets.collect env items rest (matched ++ found)

/-- The first block of `listSecrets`: the secrets of the secret store, listed when
no type or the type of secrets is asked for. -/
def listSecrets.secrets (env : SecretsEnv) (secretStore : fi.SecretStore) (findType : String) :
    Except String (List fi.KeystoreItem) :=
  if findType = "" ∨ findType = env.ToLower env.SecretTypeSecret then
    match env.ListSecrets secretStore with
    | .error err => .error ("error listing secrets " ++ err)
    | .ok secretNames => .ok (listSecrets.secretItems env findType secretNames)
  else .ok []

/-- The second block of `listSecrets`: the SSH public keys of the credential
store with the warnings logged on the way, listed when no type or the type of
SSH public keys is asked for. -/
def listSecrets.keys (env : SecretsEnv) (sshCredentialStore : fi.SSHCredentialStore)
    (findType : String) : Except String (List String × List fi.KeystoreItem) :=
  if findType = "" ∨ findType = env.ToLower SecretTypeSSHPublicKey then
    match env.ListSSHCredentials sshCredentialStore with
    | .error err => .error ("error listing SSH credentials " ++ err)
    | .ok l => .ok (listSecrets.keyWarnings env l, listSecrets.keyItems env findType l)
  else .ok ([], [])

/-- Source `listSecrets`. -/
def listSecrets (env : SecretsEnv) (secretStore : fi.SecretStore)
    (sshCredentialStore : fi.SSHCredentialStore) (secretType : String) (names : List String) :
    SecretsListing :=
  let findType := env.ToLower secretType
  if findType = "" ∨ findType = "sshpublickey" ∨ findType = "secret" then
    match listSecrets.secrets env secretStore findType with
    | .error err => ⟨[], .error err⟩
    | .ok items =>
      match listSecrets.keys env sshCredentialStore findType with
      | .error err => ⟨[], .error err⟩
      | .ok (warnings, keyItems) =>
        let items := items ++ keyItems
        if names.length ≠ 0 then
          ⟨warnings, listSecrets.collect env items names []⟩
        else ⟨warnings, .ok items⟩
  else if findType = "keypair" then
    ⟨[], .error ("use \x27kops get keypairs " ++ secretType ++ "\x27 instead")⟩
  else ⟨[], .error ("unknown secret type " ++ env.Quote secretType)⟩

/-- A secret store and an SSH credential store: two secrets, of which one is
named like the SSH key. -/
def Sample.secrets : SecretsEnv :=
  { ToLower := fun s => String.mk (s.data.map Char.toLower),
    Quote := fun s => "\"" ++ s ++ "\"",
    SecretTypeSecret := "Secret",
    ListSecrets := fun _ => .ok ["admin", "kube"],
    ListSSHCredentials := fun _ =>
      .ok [{ ObjectMeta := { Name := "admin" }, Spec := { PublicKey := "ssh-rsa AAAA" } }],
    Fingerprint := fun _ => ("ab:cd", none) }

/-- What `Sample.secrets` lists when no type is asked for. -/
def Sample.listed : List fi.KeystoreItem :=
  [{ Name := "admin", ID := "", KeysetType := "Secret", Data := none },
   { Name := "kube", ID := "", KeysetType := "Secret", Data := none },
   { Name := "admin", ID := "ab:cd", KeysetType := "SSHPublicKey", Data := some "ssh-rsa AAAA" }]

/-! ## The engine call inside a run -/

@[simp] theorem Run.after_trace (es : List Event) (r : Run) :
    (Run.after es r).trace = es ++ r.trace := rfl

@[simp] theorem Run.after_outcome (es : List Event) (r : Run) :
    (Run.after es r).outcome = r.outcome := rfl

@[simp] theorem Run.after_options (es : List Event) (r : Run) :
    (Run.after es r).options = r.options := rfl

theorem Run.after_after (a b : List Event) (r : Run) :
    Run.after a (Run.after b r) = Run.after (a ++ b) r := by
  simp [Run.after]

theorem Run.after_nil (r : Run) : Run.after [] r = r := by
  simp [Run.after]

theorem engineCallsOf_append (a b : List Event) :
    engineCallsOf (a ++ b) = engineCallsOf a ++ engineCallsOf b := by
  induction a with
  | nil => simp [engineCallsOf]
  | cons e es ih => cases e <;> simp [engineCallsOf, ih]

theorem writesOf_append (a b : List Event) :
    writesOf (a ++ b) = writesOf a ++ writesOf b := by
  induction a with
  | nil => simp [writesOf]
  | cons e es ih => cases e <;> simp [writesOf, ih]

theorem RunUpdateCluster.narrate_engineCalls (env : Env) (c : UpdateClusterOptions)
    (isDryrun : Bool) (results : UpdateClusterResults) (firstRun : Bool)
    (cluster : kops.Cluster) (igs : List kops.InstanceGroup) :
    engineCallsOf (RunUpdateCluster.narrate env c isDryrun results firstRun cluster igs).trace
      = [] := by
  unfold RunUpdateCluster.narrate
  dsimp only
  repeat' split
  all_goals simp [engineCallsOf]

theorem RunUpdateCluster.exportKubecfg_engineCalls (env : Env) (c : UpdateClusterOptions)
    (isDryrun : Bool) (results : UpdateClusterResults) (cluster : kops.Cluster)
    (keyStore : fi.CAStore) (secretStore : fi.SecretStore) (cloud : fi.Cloud)
    (igs : List kops.InstanceGroup) :
    engineCallsOf (RunUpdateCluster.exportKubecfg env c isDryrun results cluster keyStore
      secretStore cloud igs).trace = [] := by
  unfold RunUpdateCluster.exportKubecfg
  dsimp only
  repeat' split
  all_goals simp [engineCallsOf, engineCallsOf_append, RunUpdateCluster.narrate_engineCalls]

theorem RunUpdateCluster.report_engineCalls (env : Env) (c : UpdateClusterOptions)
    (isDryrun : Bool) (results : UpdateClusterResults) (cluster : kops.Cluster)
    (keyStore : fi.CAStore) (secretStore : fi.SecretStore) (cloud : fi.Cloud)
    (answer : Except String cloudup.ApplyClusterOutput) :
    engineCallsOf (RunUpdateCluster.report env c isDryrun results cluster keyStore
      secretStore cloud answer).trace = [] := by
  unfold RunUpdateCluster.report
  dsimp only
  repeat' split
  all_goals simp [engineCallsOf, RunUpdateCluster.exportKubecfg_engineCalls]

/-- The engine stage runs the engine only on the command it assembles, after
the cloud was built. -/
theorem RunUpdateCluster.apply_inv (env : Env) (c : UpdateClusterOptions) (isDryrun : Bool)
    (targetName : String) (results : UpdateClusterResults) (cluster : kops.Cluster)
    (clientset : simple.Clientset) (keyStore : fi.CAStore) (secretStore : fi.SecretStore)
    (phase : cloudup.Phase) (m : GoMap fi.Lifecycle) (cmd : cloudup.ApplyClusterCmd)
    (h : cmd ∈ engineCallsOf (RunUpdateCluster.apply env c isDryrun targetName results cluster
      clientset keyStore secretStore phase m).trace) :
    ∃ cloud, env.BuildCloud cluster = .ok cloud
      ∧ cmd = RunUpdateCluster.applyCmd c isDryrun targetName cluster clientset cloud phase m
      ∧ RunUpdateCluster.apply env c isDryrun targetName results cluster clientset keyStore
          secretStore phase m
        = Run.after [.BuildCloud, .ApplyClusterCmdRun cmd]
            (RunUpdateCluster.report env c isDryrun results cluster keyStore secretStore cloud
              (env.ApplyClusterCmdRun cmd)) := by
  unfold RunUpdateCluster.apply at h ⊢
  cases hc : env.BuildCloud cluster with
  | error err => simp [hc, engineCallsOf] at h
  | ok cloud =>
    simp [hc, engineCallsOf, engineCallsOf_append, RunUpdateCluster.report_engineCalls] at h
    subst h
    exact ⟨cloud, rfl, rfl, by simp [Run.after]⟩

/-- The plan stage reaches the engine only with a selected phase and a parsed
override map. -/
theorem RunUpdateCluster.plan_inv (env : Env) (c : UpdateClusterOptions) (isDryrun : Bool)
    (targetName : String) (results : UpdateClusterResults) (cluster : kops.Cluster)
    (clientset : simple.Clientset) (keyStore : fi.CAStore) (secretStore : fi.SecretStore)
    (cmd : cloudup.ApplyClusterCmd)
    (h : cmd ∈ engineCallsOf (RunUpdateCluster.plan env c isDryrun targetName results cluster
      clientset keyStore secretStore).trace) :
    ∃ phase m cloud, selectPhase env c.Phase = .ok phase
      ∧ lifecycleOverrides env results c.LifecycleOverrides [] = .ok m
      ∧ env.BuildCloud cluster = .ok cloud
      ∧ cmd = RunUpdateCluster.applyCmd c isDryrun targetName cluster clientset cloud phase m
      ∧ RunUpdateCluster.plan env c isDryrun targetName results cluster clientset keyStore
          secretStore
        = Run.after [.BuildCloud, .ApplyClusterCmdRun cmd]
            (RunUpdateCluster.report env c isDryrun results cluster keyStore secretStore cloud
              (env.ApplyClusterCmdRun cmd)) := by
  unfold RunUpdateCluster.plan at h ⊢
  cases hp : selectPhase env c.Phase with
  | error err => simp [hp, engineCallsOf] at h
  | ok phase =>
    cases hl : lifecycleOverrides env results c.LifecycleOverrides [] with
    | error e => simp [hp, hl, engineCallsOf] at h
    | ok m =>
      simp only [hp, hl] at h ⊢
      obtain ⟨cloud, hc, hcmd, hrun⟩ := RunUpdateCluster.apply_inv _ _ _ _ _ _ _ _ _ _ _ _ h
      exact ⟨phase, m, cloud, rfl, rfl, hc, hcmd, hrun⟩

/-- The key stage reaches the engine only when no key is given or the key is
read and stored. -/
theorem RunUpdateCluster.sshPublicKey_inv (env : Env) (c : UpdateClusterOptions)
    (isDryrun : Bool) (targetName : String) (results : UpdateClusterResults)
    (cluster : kops.Cluster) (clientset : simple.Clientset) (keyStore : fi.CAStore)
    (sshCredentialStore : fi.SSHCredentialStore) (secretStore : fi.SecretStore)
    (cmd : cloudup.ApplyClusterCmd)
    (h : cmd ∈ engineCallsOf (RunUpdateCluster.sshPublicKey env c isDryrun targetName results
      cluster clientset keyStore sshCredentialStore secretStore).trace) :
    ∃ phase m cloud authorized, selectPhase env c.Phase = .ok phase
      ∧ lifecycleOverrides env results c.LifecycleOverrides [] = .ok m
      ∧ env.BuildCloud cluster = .ok cloud
      ∧ cmd = RunUpdateCluster.applyCmd c isDryrun targetName cluster clientset cloud phase m
      ∧ RunUpdateCluster.sshPublicKey env c isDryrun targetName results cluster clientset
          keyStore sshCredentialStore secretStore
        = Run.after (RunUpdateCluster.keyEvents env c cluster authorized
              ++ [.BuildCloud, .ApplyClusterCmdRun cmd])
            (RunUpdateCluster.report env
              { c with SSHPublicKey := RunUpdateCluster.expandedKey env c }
              isDryrun results cluster keyStore secretStore cloud
              (env.ApplyClusterCmdRun cmd)) := by
  unfold RunUpdateCluster.sshPublicKey at h ⊢
  by_cases hk : c.SSHPublicKey = ""
  · simp only [hk, ne_eq, not_true_eq_false, if_false] at h ⊢
    obtain ⟨phase, m, cloud, hp, hl, hc, hcmd, hrun⟩ :=
      RunUpdateCluster.plan_inv _ _ _ _ _ _ _ _ _ _ h
    have hsame : ({ c with SSHPublicKey := RunUpdateCluster.expandedKey env c } :
        UpdateClusterOptions) = c := by
      cases c
      simp_all [RunUpdateCluster.expandedKey]
    refine ⟨phase, m, cloud, [], hp, hl, hc, hcmd, ?_⟩
    rw [hrun, hsame]
    simp [RunUpdateCluster.keyEvents, hk]
  · simp only [hk, ne_eq, not_false_eq_true, if_true] at h ⊢
    cases hr : env.ReadFile (env.ExpandPath c.SSHPublicKey) with
    | error err => simp [hr, engineCallsOf] at h
    | ok authorized =>
      cases ha : env.AddSSHPublicKey sshCredentialStore fi.SecretNameSSHPrimary authorized with
      | some err => simp [hr, ha, engineCallsOf] at h
      | none =>
        simp only [hr, ha, Run.after_trace, engineCallsOf_append] at h
        simp only [engineCallsOf, List.nil_append] at h
        obtain ⟨phase, m, cloud, hp, hl, hc, hcmd, hrun⟩ :=
          RunUpdateCluster.plan_inv _ _ _ _ _ _ _ _ _ _ h
        refine ⟨phase, m, cloud, authorized, hp, hl, hc, hcmd, ?_⟩
        simp only [hr, ha]
        rw [hrun]
        simp [RunUpdateCluster.keyEvents, RunUpdateCluster.expandedKey, hk, Run.after,
          RunUpdateCluster.deprecation]

/-- The store stage reaches the engine only when the cluster and the four
stores were fetched. -/
theorem RunUpdateCluster.stores_inv (env : Env) (c : UpdateClusterOptions)
    (isDryrun : Bool) (targetName : String) (results : UpdateClusterResults)
    (cmd : cloudup.ApplyClusterCmd)
    (h : cmd ∈ engineCallsOf (RunUpdateCluster.stores env c isDryrun targetName
      results).trace) :
    ∃ cluster clientset keyStore secretStore phase m cloud authorized,
      env.GetCluster c.ClusterName = .ok cluster
      ∧ selectPhase env c.Phase = .ok phase
      ∧ lifecycleOverrides env results c.LifecycleOverrides [] = .ok m
      ∧ cmd = RunUpdateCluster.applyCmd c isDryrun targetName cluster clientset cloud phase m
      ∧ RunUpdateCluster.stores env c isDryrun targetName results
        = Run.after
            ([.GetCluster c.ClusterName, .Clientset, .KeyStore, .SSHCredentialStore, .SecretStore]
              ++ RunUpdateCluster.keyEvents env c cluster authorized
              ++ [.BuildCloud, .ApplyClusterCmdRun cmd])
            (RunUpdateCluster.report env
              { c with SSHPublicKey := RunUpdateCluster.expandedKey env c }
              isDryrun results cluster keyStore secretStore cloud
              (env.ApplyClusterCmdRun cmd)) := by
  unfold RunUpdateCluster.stores at h ⊢
  cases h1 : env.GetCluster c.ClusterName with
  | error err => simp [h1, engineCallsOf] at h
  | ok cluster =>
    cases h2 : env.Clientset with
    | error err => simp [h1, h2, engineCallsOf] at h
    | ok clientset =>
      cases h3 : env.KeyStore clientset cluster with
      | error err => simp [h1, h2, h3, engineCallsOf] at h
      | ok keyStore =>
        cases h4 : env.SSHCredentialStore clientset cluster with
        | error err => simp [h1, h2, h3, h4, engineCallsOf] at h
        | ok sshCredentialStore =>
          cases h5 : env.SecretStore clientset cluster with
          | error err => simp [h1, h2, h3, h4, h5, engineCallsOf] at h
          | ok secretStore =>
            simp only [h1, h2, h3, h4, h5, Run.after_trace, engineCallsOf_append] at h
            simp only [engineCallsOf, List.nil_append] at h
            obtain ⟨phase, m, cloud, authorized, hp, hl, _, hcmd, hrun⟩ :=
              RunUpdateCluster.sshPublicKey_inv _ _ _ _ _ _ _ _ _ _ _ h
            refine ⟨cluster, clientset, keyStore, secretStore, phase, m, cloud, authorized,
              rfl, hp, hl, hcmd, ?_⟩
            simp only [h2, h3, h4, h5]
            rw [hrun]
            simp [Run.after]

/-- Every engine call of a run is the one call of `RunUpdateCluster`: the flags
do not conflict, the cluster was fetched, the phase was selected, the overrides
were parsed, the command is the one assembled from the resolved options, and
the run is the bootstrap events, the engine call, and the report on its
answer. -/
theorem RunUpdateCluster.engine_inv (env : Env) (c : UpdateClusterOptions)
    (cmd : cloudup.ApplyClusterCmd) (h : cmd ∈ (RunUpdateCluster env c).engineCalls) :
    ¬ (c.admin ≠ 0 ∧ c.user ≠ "")
    ∧ ∃ cluster clientset keyStore secretStore phase m cloud authorized,
      env.GetCluster c.ClusterName = .ok cluster
      ∧ selectPhase env c.Phase = .ok phase
      ∧ lifecycleOverrides env UpdateClusterResults.empty c.LifecycleOverrides [] = .ok m
      ∧ cmd = RunUpdateCluster.applyCmd (RunUpdateCluster.resolved env c) (resolveTarget c).1
          (resolveTarget c).2 cluster clientset cloud phase m
      ∧ RunUpdateCluster env c
        = Run.after
            (RunUpdateCluster.bootstrap env c cluster authorized ++ [.ApplyClusterCmdRun cmd])
            (RunUpdateCluster.report env (RunUpdateCluster.resolved env c) (resolveTarget c).1
              UpdateClusterResults.empty cluster keyStore secretStore cloud
              (env.ApplyClusterCmdRun cmd)) := by
  unfold Run.engineCalls RunUpdateCluster at h
  by_cases hconf : c.admin ≠ 0 ∧ c.user ≠ ""
  · simp [hconf, engineCallsOf] at h
  · refine ⟨hconf, ?_⟩
    simp only [hconf, if_false, Run.after_trace, engineCallsOf_append] at h
    have hlog : engineCallsOf (impliedCreateKubecfg c).2 = [] := by
      unfold impliedCreateKubecfg
      dsimp only
      repeat' split
      all_goals simp [engineCallsOf]
    rw [hlog, List.nil_append] at h
    obtain ⟨cluster, clientset, keyStore, secretStore, phase, m, cloud, authorized, h1, hp, hl,
      hcmd, hrun⟩ := RunUpdateCluster.stores_inv _ _ _ _ _ _ h
    refine ⟨cluster, clientset, keyStore, secretStore, phase, m, cloud, authorized, h1, hp, hl,
      ?_, ?_⟩
    · rw [hcmd]
      simp [RunUpdateCluster.applyCmd, RunUpdateCluster.resolved]
    · unfold RunUpdateCluster
      simp only [hconf, if_false]
      rw [hrun]
      simp [Run.after, RunUpdateCluster.bootstrap, RunUpdateCluster.resolved,
        RunUpdateCluster.keyEvents, RunUpdateCluster.expandedKey]

/-- When the steps before the phase selection succeed, the run is their events
followed by the plan stage on the resolved options. -/
theorem RunUpdateCluster.plan_reached (env : Env) (c : UpdateClusterOptions)
    (cluster : kops.Cluster) (clientset : simple.Clientset) (keyStore : fi.CAStore)
    (secretStore : fi.SecretStore) (authorized : List Nat)
    (hb : RunUpdateCluster.Bootstrapped env c cluster clientset keyStore secretStore authorized) :
    RunUpdateCluster env c
      = Run.after
          ((impliedCreateKubecfg c).2
            ++ [.GetCluster c.ClusterName, .Clientset, .KeyStore, .SSHCredentialStore,
                .SecretStore]
            ++ RunUpdateCluster.keyEvents env c cluster authorized)
          (RunUpdateCluster.plan env (RunUpdateCluster.resolved env c) (resolveTarget c).1
            (resolveTarget c).2 UpdateClusterResults.empty cluster clientset keyStore
            secretStore) := by
  obtain ⟨hconf, h1, h2, h3, h5, sshStore, h4, hkey⟩ := hb
  unfold RunUpdateCluster RunUpdateCluster.stores RunUpdateCluster.sshPublicKey
  simp only [hconf, if_false, h1, h2, h3, h4, h5]
  by_cases hk : c.SSHPublicKey = ""
  · simp [hk, Run.after, RunUpdateCluster.keyEvents, RunUpdateCluster.resolved,
      RunUpdateCluster.expandedKey]
  · obtain ⟨hr, ha⟩ := hkey hk
    simp [hk, hr, ha, Run.after, RunUpdateCluster.keyEvents, RunUpdateCluster.resolved,
      RunUpdateCluster.expandedKey, RunUpdateCluster.deprecation]

/-- The output directory of the options after a run without a flag conflict is
the resolved one. -/
theorem RunUpdateCluster.options_OutDir (env : Env) (c : UpdateClusterOptions)
    (h : ¬ (c.admin ≠ 0 ∧ c.user ≠ "")) :
    (RunUpdateCluster env c).options.OutDir = resolveOutDir c := by
  unfold RunUpdateCluster RunUpdateCluster.stores RunUpdateCluster.sshPublicKey
    RunUpdateCluster.plan RunUpdateCluster.apply RunUpdateCluster.report
    RunUpdateCluster.exportKubecfg RunUpdateCluster.narrate
  simp only [h, if_false]
  dsimp only
  repeat' split
  all_goals simp

/-- A run in which the engine is not run returns an error. -/
theorem RunUpdateCluster.fails_of_no_engine (env : Env) (c : UpdateClusterOptions)
    (h : (RunUpdateCluster env c).engineCalls = []) :
    ∃ res err, (RunUpdateCluster env c).outcome = .returned res (some err) := by
  unfold Run.engineCalls at h
  unfold RunUpdateCluster at h ⊢
  by_cases hconf : c.admin ≠ 0 ∧ c.user ≠ ""
  · simp [hconf]
  · simp only [hconf, if_false] at h ⊢
    unfold RunUpdateCluster.stores RunUpdateCluster.sshPublicKey
      RunUpdateCluster.plan RunUpdateCluster.apply at h ⊢
    dsimp only at h ⊢
    repeat' split at h
    all_goals simp_all [engineCallsOf, engineCallsOf_append]

/-! ## Mode and target (C1, C2, C3) -/

/-- C1: for a request with target "direct", every command the engine is run on
has DryRun=true and target name "dryrun" when Yes is false, and DryRun=false and
target name "direct" when Yes is true, whatever the other options and whatever
the collaborators answer. -/
theorem direct_target_plan (env : Env) (c : UpdateClusterOptions)
    (cmd : cloudup.ApplyClusterCmd) (ht : c.Target = "direct")
    (h : cmd ∈ (RunUpdateCluster env c).engineCalls) :
    (c.Yes = false → cmd.DryRun = true ∧ cmd.TargetName = "dryrun")
    ∧ (c.Yes = true → cmd.DryRun = false ∧ cmd.TargetName = "direct") := by
  obtain ⟨_, _, _, _, _, _, _, _, _, _, _, _, hcmd, _⟩ := RunUpdateCluster.engine_inv env c cmd h
  subst hcmd
  constructor <;> intro hy <;>
    simp [RunUpdateCluster.applyCmd, resolveTarget, ht, hy, cloudup.TargetDirect,
      cloudup.TargetDryRun]

/-- C1 at the sample request (target "direct", no `--yes`): the engine is run,
on a dry-run command with target name "dryrun". -/
theorem direct_target_plan_witness :
    Sample.dryRunCmd ∈ (RunUpdateCluster Sample.env Sample.options).engineCalls
    ∧ (Sample.dryRunCmd.DryRun = true ∧ Sample.dryRunCmd.TargetName = "dryrun") :=
  ⟨by decide,
   (direct_target_plan Sample.env Sample.options Sample.dryRunCmd rfl (by decide)).1 rfl⟩

/-- C2: for a request with target "dryrun", "terraform" or "cloudformation" the
resolved pair does not mention Yes: it is (true, "dryrun") for "dryrun" and
(false, the target) for the two others, and every command the engine is run on
carries that pair as DryRun and target name. -/
theorem rendering_targets_ignore_yes (env : Env) (c : UpdateClusterOptions)
    (ht : c.Target = "dryrun" ∨ c.Target = "terraform" ∨ c.Target = "cloudformation") :
    (c.Target = "dryrun" → resolveTarget c = (true, "dryrun"))
    ∧ (c.Target ≠ "dryrun" → resolveTarget c = (false, c.Target))
    ∧ (∀ yes, resolveTarget { c with Yes := yes } = resolveTarget c)
    ∧ ∀ cmd ∈ (RunUpdateCluster env c).engineCalls,
        (cmd.DryRun, cmd.TargetName) = resolveTarget c := by
  refine ⟨?_, ?_, ?_, ?_⟩
  · intro h
    simp [resolveTarget, h, cloudup.TargetDirect, cloudup.TargetDryRun]
  · intro h
    rcases ht with ht | ht | ht
    · exact absurd ht h
    · simp [resolveTarget, ht, cloudup.TargetDirect, cloudup.TargetDryRun]
    · simp [resolveTarget, ht, cloudup.TargetDirect, cloudup.TargetDryRun]
  · intro yes
    rcases ht with ht | ht | ht <;>
      simp [resolveTarget, ht, cloudup.TargetDirect, cloudup.TargetDryRun]
  · intro cmd h
    obtain ⟨_, _, _, _, _, _, _, _, _, _, _, _, hcmd, _⟩ :=
      RunUpdateCluster.engine_inv env c cmd h
    subst hcmd
    simp [RunUpdateCluster.applyCmd]

/-- C2 at the sample request with target "terraform" and no `--yes`: the engine
is run with DryRun=false and target name "terraform". -/
theorem rendering_targets_ignore_yes_witness :
    Sample.terraformCmd ∈ (RunUpdateCluster Sample.env Sample.terraform).engineCalls
    ∧ (Sample.terraformCmd.DryRun, Sample.terraformCmd.TargetName)
        = ((false, "terraform") : Bool × String) :=
  ⟨by decide,
   ((rendering_targets_ignore_yes Sample.env Sample.terraform (by decide)).2.2.2
      Sample.terraformCmd (by decide)).trans
    ((rendering_targets_ignore_yes Sample.env Sample.terraform (by decide)).2.1 (by decide))⟩

/-- C3, as stated, fails: at the sample request with target "bogus" (none of
the four backend names) the engine is run, with target name "bogus", and it is
the error of the engine that the run returns. -/
theorem unknown_target_counterexample :
    Sample.bogus.Target ∉ ["direct", "dryrun", "terraform", "cloudformation"]
    ∧ (RunUpdateCluster Sample.env Sample.bogus).engineCalls = [Sample.bogusCmd]
    ∧ Sample.bogusCmd.TargetName = "bogus"
    ∧ (RunUpdateCluster Sample.env Sample.bogus).outcome
        = .returned (some UpdateClusterResults.empty)
            (some "unsupported target type \"bogus\"") := by
  decide

/-- C3 amended: `RunUpdateCluster` does not check the target string. For a target
that is none of the four names the resolved pair is (false, the string as
given); every command the engine is run on carries it; when the steps before the
engine succeed (bootstrap, phase, overrides, cloud) the engine is run on exactly
one command, with that target name; and an error of the engine is returned as
it is, with the empty results. -/
theorem unknown_target_reaches_engine (env : Env) (c : UpdateClusterOptions)
    (ht : c.Target ∉ ["direct", "dryrun", "terraform", "cloudformation"]) :
    resolveTarget c = (false, c.Target)
    ∧ (∀ cmd ∈ (RunUpdateCluster env c).engineCalls,
        cmd.DryRun = false ∧ cmd.TargetName = c.Target
        ∧ ∀ err, env.ApplyClusterCmdRun cmd = .error err →
            (RunUpdateCluster env c).outcome
              = .returned (some UpdateClusterResults.empty) (some err))
    ∧ (∀ cluster clientset keyStore secretStore authorized phase m cloud,
        RunUpdateCluster.Bootstrapped env c cluster clientset keyStore secretStore authorized →
        selectPhase env c.Phase = .ok phase →
        lifecycleOverrides env UpdateClusterResults.empty c.LifecycleOverrides [] = .ok m →
        env.BuildCloud cluster = .ok cloud →
        (RunUpdateCluster env c).engineCalls
          = [RunUpdateCluster.applyCmd (RunUpdateCluster.resolved env c) false c.Target cluster
              clientset cloud phase m]) := by
  have hres : resolveTarget c = (false, c.Target) := by
    simp only [List.mem_cons, List.mem_singleton, List.not_mem_nil, or_false, not_or] at ht
    simp [resolveTarget, ht, cloudup.TargetDirect, cloudup.TargetDryRun]
  refine ⟨hres, ?_, ?_⟩
  · intro cmd h
    obtain ⟨_, _, _, _, _, _, _, _, _, _, _, _, hcmd, hrun⟩ :=
      RunUpdateCluster.engine_inv env c cmd h
    refine ⟨?_, ?_, ?_⟩
    · rw [hcmd]; simp [RunUpdateCluster.applyCmd, hres]
    · rw [hcmd]; simp [RunUpdateCluster.applyCmd, hres]
    · intro err herr
      rw [hrun, herr]
      simp [RunUpdateCluster.report]
  · intro cluster clientset keyStore secretStore authorized phase m cloud hb hp hl hc
    rw [Run.engineCalls, RunUpdateCluster.plan_reached env c _ _ _ _ _ hb]
    have hlog : engineCallsOf (impliedCreateKubecfg c).2 = [] := by
      unfold impliedCreateKubecfg
      dsimp only
      repeat' split
      all_goals simp [engineCallsOf]
    have hkey : engineCallsOf (RunUpdateCluster.keyEvents env c cluster authorized) = [] := by
      unfold RunUpdateCluster.keyEvents
      split <;> simp [engineCallsOf]
    have hp' : selectPhase env (RunUpdateCluster.resolved env c).Phase = .ok phase := hp
    have hl' : lifecycleOverrides env UpdateClusterResults.empty
        (RunUpdateCluster.resolved env c).LifecycleOverrides [] = .ok m := hl
    simp [RunUpdateCluster.plan, RunUpdateCluster.apply, hp', hl', hc, engineCallsOf_append,
      hlog, hkey, engineCallsOf, RunUpdateCluster.report_engineCalls, hres]

/-- C3 amended, at the sample request with target "bogus": every step before the
engine succeeds and the engine is run once, with target name "bogus". -/
theorem unknown_target_reaches_engine_witness :
    (RunUpdateCluster Sample.env Sample.bogus).engineCalls
      = [RunUpdateCluster.applyCmd (RunUpdateCluster.resolved Sample.env Sample.bogus) false
          "bogus" Sample.cluster ⟨1⟩ ⟨5⟩ "" []] :=
  (unknown_target_reaches_engine Sample.env Sample.bogus (by decide)).2.2
    Sample.cluster ⟨1⟩ ⟨2⟩ ⟨4⟩ [] "" [] ⟨5⟩
    ⟨by decide, rfl, rfl, rfl, rfl, ⟨3⟩, rfl, fun h => absurd rfl h⟩ rfl rfl rfl

/-! ## Identity flags (C4) -/

/-- C4: with `admin` non-zero and `user` non-empty the run returns no result and
the error "cannot use both --admin and --user", leaves every option as it was,
and its trace is empty: no store is read or written, the engine is not run, no
kubeconfig is built or written, nothing is printed or logged. -/
theorem identity_conflict_fails_first (env : Env) (c : UpdateClusterOptions)
    (ha : c.admin ≠ 0) (hu : c.user ≠ "") :
    (RunUpdateCluster env c).outcome
        = .returned none (some "cannot use both --admin and --user")
    ∧ (RunUpdateCluster env c).options = c
    ∧ (RunUpdateCluster env c).trace = []
    ∧ (RunUpdateCluster env c).engineCalls = [] := by
  have hconf : c.admin ≠ 0 ∧ c.user ≠ "" := ⟨ha, hu⟩
  simp [RunUpdateCluster, hconf, Run.engineCalls, engineCallsOf]

/-- C4 at the sample request with `--admin` of one hour and `--user bob`. -/
theorem identity_conflict_fails_first_witness :
    (RunUpdateCluster Sample.env Sample.conflict).outcome
        = .returned none (some "cannot use both --admin and --user")
    ∧ (RunUpdateCluster Sample.env Sample.conflict).options = Sample.conflict
    ∧ (RunUpdateCluster Sample.env Sample.conflict).trace = []
    ∧ (RunUpdateCluster Sample.env Sample.conflict).engineCalls = [] :=
  identity_conflict_fails_first Sample.env Sample.conflict (by decide) (by decide)

/-! ## Phase selection (C9) -/

/-- C9: the phase selector maps the empty string to the empty phase (all
phases); a non-empty string whose lower-casing is "network", "security",
"cluster" or "iam" to Network, Security, Cluster and Security; and fails on
every other non-empty string with the error that quotes the value and lists
`cloudup.Phases.List()`, which holds exactly network, security and cluster. In
that last case the engine is never run, the run returns an error, and when the
steps before the selector succeed that error is the one of the selector. The
phase of every command the engine is run on is the selected one. -/
theorem phase_selector (env : Env) (c : UpdateClusterOptions) :
    selectPhase env "" = .ok ""
    ∧ (c.Phase ≠ "" → env.ToLower c.Phase = "network" →
        selectPhase env c.Phase = .ok cloudup.PhaseNetwork)
    ∧ (c.Phase ≠ "" → env.ToLower c.Phase = "security" →
        selectPhase env c.Phase = .ok cloudup.PhaseSecurity)
    ∧ (c.Phase ≠ "" → env.ToLower c.Phase = "cluster" →
        selectPhase env c.Phase = .ok cloudup.PhaseCluster)
    ∧ (c.Phase ≠ "" → env.ToLower c.Phase = "iam" →
        selectPhase env c.Phase = .ok cloudup.PhaseSecurity)
    ∧ (c.Phase ≠ "" → env.ToLower c.Phase ∉ ["network", "security", "cluster", "iam"] →
        selectPhase env c.Phase
          = .error ("unknown phase " ++ env.Quote c.Phase ++ ", available phases: "
              ++ strings.Join cloudup.Phases.List ",")
        ∧ (RunUpdateCluster env c).engineCalls = []
        ∧ (∃ res err, (RunUpdateCluster env c).outcome = .returned res (some err))
        ∧ ∀ cluster clientset keyStore secretStore authorized,
            RunUpdateCluster.Bootstrapped env c cluster clientset keyStore secretStore
              authorized →
            (RunUpdateCluster env c).outcome
              = .returned (some UpdateClusterResults.empty)
                  (some ("unknown phase " ++ env.Quote c.Phase ++ ", available phases: "
                    ++ strings.Join cloudup.Phases.List ",")))
    ∧ (∀ cmd ∈ (RunUpdateCluster env c).engineCalls, selectPhase env c.Phase = .ok cmd.Phase)
    ∧ (∀ name, name ∈ cloudup.Phases.List ↔ name ∈ ["network", "security", "cluster"]) := by
  refine ⟨by simp [selectPhase], ?_, ?_, ?_, ?_, ?_, ?_, ?_⟩
  · intro h0 h
    simp [selectPhase, h0, h, cloudup.PhaseNetwork]
  · intro h0 h
    simp [selectPhase, h0, h, cloudup.PhaseNetwork, cloudup.PhaseSecurity]
  · intro h0 h
    simp [selectPhase, h0, h, cloudup.PhaseNetwork, cloudup.PhaseSecurity, cloudup.PhaseCluster]
  · intro h0 h
    simp [selectPhase, h0, h, cloudup.PhaseNetwork, cloudup.PhaseSecurity]
  · intro h0 h
    simp only [List.mem_cons, List.mem_singleton, List.not_mem_nil, or_false, not_or] at h
    have hsel : selectPhase env c.Phase
        = .error ("unknown phase " ++ env.Quote c.Phase ++ ", available phases: "
            ++ strings.Join cloudup.Phases.List ",") := by
      simp [selectPhase, h0, h, cloudup.PhaseNetwork, cloudup.PhaseSecurity,
        cloudup.PhaseCluster]
    have hno : (RunUpdateCluster env c).engineCalls = [] := by
      apply List.eq_nil_iff_forall_not_mem.mpr
      intro cmd hcmd
      obtain ⟨_, _, _, _, _, phase, _, _, _, _, hp, _⟩ := RunUpdateCluster.engine_inv env c cmd hcmd
      rw [hsel] at hp
      exact absurd hp (by simp)
    refine ⟨hsel, hno, RunUpdateCluster.fails_of_no_engine env c hno, ?_⟩
    intro cluster clientset keyStore secretStore authorized hb
    have hsel' : selectPhase env (RunUpdateCluster.resolved env c).Phase
        = .error ("unknown phase " ++ env.Quote c.Phase ++ ", available phases: "
            ++ strings.Join cloudup.Phases.List ",") := hsel
    rw [RunUpdateCluster.plan_reached env c _ _ _ _ _ hb]
    simp [RunUpdateCluster.plan, hsel']
  · intro cmd hcmd
    obtain ⟨_, _, _, _, _, phase, _, _, _, _, hp, _, hc, _⟩ :=
      RunUpdateCluster.engine_inv env c cmd hcmd
    rw [hc, hp]
    simp [RunUpdateCluster.applyCmd]
  · intro name
    simp only [cloudup.Phases.List, cloudup.PhaseCluster, cloudup.PhaseNetwork,
      cloudup.PhaseSecurity, List.mem_cons, List.mem_singleton, List.not_mem_nil, or_false]
    tauto

/-- C9 at the sample request with the phase "bogus": the run stops with the
error that quotes "bogus" and lists the phases. -/
theorem phase_selector_witness :
    (RunUpdateCluster Sample.env Sample.bogusPhase).outcome
      = .returned (some UpdateClusterResults.empty)
          (some "unknown phase \"bogus\", available phases: cluster,network,security") :=
  ((phase_selector Sample.env Sample.bogusPhase).2.2.2.2.2.1 (by decide) (by decide)).2.2.2
    Sample.cluster ⟨1⟩ ⟨2⟩ ⟨4⟩ []
    ⟨by decide, rfl, rfl, rfl, rfl, ⟨3⟩, rfl, fun h => absurd rfl h⟩

/-! ## Output directory (C10) -/

/-- C10: the output directory of a run is the one the caller gave when that is
not empty, and otherwise "out/terraform" for target terraform,
"out/cloudformation" for target cloudformation and "out" for any other target.
It is the directory of every command the engine is run on and, unless the
identity flags conflict (the run then ends before any directory is used), the
directory left in the options. -/
theorem output_directory (env : Env) (c : UpdateClusterOptions) :
    (∀ cmd ∈ (RunUpdateCluster env c).engineCalls, cmd.OutDir = resolveOutDir c)
    ∧ (¬ (c.admin ≠ 0 ∧ c.user ≠ "") →
        (RunUpdateCluster env c).options.OutDir = resolveOutDir c)
    ∧ (c.OutDir ≠ "" → resolveOutDir c = c.OutDir)
    ∧ (c.OutDir = "" → c.Target = "terraform" → resolveOutDir c = "out/terraform")
    ∧ (c.OutDir = "" → c.Target = "cloudformation" → resolveOutDir c = "out/cloudformation")
    ∧ (c.OutDir = "" → c.Target ≠ "terraform" → c.Target ≠ "cloudformation" →
        resolveOutDir c = "out") := by
  refine ⟨?_, RunUpdateCluster.options_OutDir env c, ?_, ?_, ?_, ?_⟩
  · intro cmd hcmd
    obtain ⟨_, _, _, _, _, _, _, _, _, _, _, _, hc, _⟩ := RunUpdateCluster.engine_inv env c cmd hcmd
    rw [hc]
    simp [RunUpdateCluster.applyCmd, RunUpdateCluster.resolved]
  · intro h
    simp [resolveOutDir, h]
  · intro h ht
    simp [resolveOutDir, h, ht, cloudup.TargetTerraform]
  · intro h ht
    simp [resolveOutDir, h, ht, cloudup.TargetTerraform, cloudup.TargetCloudformation]
  · intro h ht hc
    simp [resolveOutDir, h, ht, hc, cloudup.TargetTerraform, cloudup.TargetCloudformation]

/-- C10 at two sample requests: with target terraform and no directory the
engine is given "out/terraform"; with the directory "build/cf" and target
cloudformation the options keep "build/cf". -/
theorem output_directory_witness :
    Sample.terraformCmd.OutDir = "out/terraform"
    ∧ (RunUpdateCluster Sample.env Sample.customOut).options.OutDir = "build/cf" :=
  ⟨((output_directory Sample.env Sample.terraform).1 Sample.terraformCmd (by decide)).trans
      ((output_directory Sample.env Sample.terraform).2.2.2.1 rfl rfl),
   ((output_directory Sample.env Sample.customOut).2.1 (by decide)).trans
      ((output_directory Sample.env Sample.customOut).2.2.1 (by decide))⟩

/-! ## Dry-run report (C5) -/

/-- The option-resolution step only logs. -/
theorem impliedCreateKubecfg_logs (c : UpdateClusterOptions) :
    ∀ e ∈ (impliedCreateKubecfg c).2, e.isLog = true := by
  unfold impliedCreateKubecfg
  dsimp only
  repeat' split
  all_goals simp [Event.isLog]

/-- Log lines write nothing to the output. -/
theorem writesOf_of_logs (es : List Event) (h : ∀ e ∈ es, e.isLog = true) : writesOf es = [] := by
  induction es with
  | nil => rfl
  | cons e es ih =>
    have he := h e (List.mem_cons_self _ _)
    cases e <;> simp [Event.isLog] at he
    simp only [writesOf]
    exact ih (fun e' he' => h e' (List.mem_cons_of_mem _ he'))

/-- Before the engine call the only text written is the deprecation notice. -/
theorem RunUpdateCluster.bootstrap_writes (env : Env) (c : UpdateClusterOptions)
    (cluster : kops.Cluster) (authorized : List Nat) :
    writesOf (RunUpdateCluster.bootstrap env c cluster authorized)
      = if c.SSHPublicKey = "" then [] else [RunUpdateCluster.deprecation cluster] := by
  unfold RunUpdateCluster.bootstrap RunUpdateCluster.keyEvents
  simp only [writesOf_append, writesOf_of_logs _ (impliedCreateKubecfg_logs c)]
  split <;> simp [writesOf]

/-- Before the engine call no kubeconfig is built or written. -/
theorem RunUpdateCluster.bootstrap_no_kubecfg (env : Env) (c : UpdateClusterOptions)
    (cluster : kops.Cluster) (authorized : List Nat) :
    ∀ e ∈ RunUpdateCluster.bootstrap env c cluster authorized, e.isKubecfg = false := by
  intro e he
  unfold RunUpdateCluster.bootstrap RunUpdateCluster.keyEvents at he
  simp only [List.mem_append] at he
  rcases he with ((he | he) | he) | he
  · have := impliedCreateKubecfg_logs c e he
    cases e <;> simp_all [Event.isLog, Event.isKubecfg]
  · simp at he
    rcases he with he | he | he | he | he <;> subst he <;> rfl
  · split at he
    · simp at he
    · simp at he
      rcases he with he | he | he | he <;> subst he <;> rfl
  · simp at he
    subst he
    rfl


/-- C5 amended: in a run whose engine call is a dry run, with GetAssets false and
an engine that answers with a dry-run target, the texts written to the output
are the deprecation notice of `--ssh-public-key` (only when such a key path was
given) and then exactly one report: "Must specify --yes to apply changes" when
the target has changes, "No changes need to be applied" when it has none. The
run returns the results and no error, and no kubeconfig is built or written. -/
theorem dry_run_report (env : Env) (c : UpdateClusterOptions)
    (cmd : cloudup.ApplyClusterCmd) (ran : cloudup.ApplyClusterOutput) (hasChanges : Bool)
    (hcmd : cmd ∈ (RunUpdateCluster env c).engineCalls) (hd : cmd.DryRun = true)
    (hg : c.GetAssets = false) (hok : env.ApplyClusterCmdRun cmd = .ok ran)
    (ht : ran.Target = some (.DryRunTarget hasChanges)) :
    writesOf (RunUpdateCluster env c).trace
        = (if c.SSHPublicKey = "" then []
            else ["--ssh-public-key on update is deprecated - please use `kops create secret --name "
              ++ cmd.Cluster.ObjectMeta.Name
              ++ " sshpublickey admin -i ~/.ssh/id_rsa.pub` instead\n"])
          ++ [if hasChanges then "Must specify --yes to apply changes\n"
              else "No changes need to be applied\n"]
    ∧ (c.SSHPublicKey = "" →
        (RunUpdateCluster env c).output
          = if hasChanges then "Must specify --yes to apply changes\n"
            else "No changes need to be applied\n")
    ∧ (RunUpdateCluster env c).outcome
        = .returned (some { Target := ran.Target, TaskMap := ran.TaskMap,
                            ImageAssets := ran.ImageAssets, FileAssets := ran.FileAssets,
                            Cluster := some cmd.Cluster }) none
    ∧ ∀ e ∈ (RunUpdateCluster env c).trace, e.isKubecfg = false := by
  obtain ⟨_, cluster, clientset, keyStore, secretStore, phase, m, cloud, authorized, _, _, _,
    hc, hrun⟩ := RunUpdateCluster.engine_inv env c cmd hcmd
  have hcl : cmd.Cluster = cluster := by rw [hc]; rfl
  have hd' : (resolveTarget c).1 = true := by rw [hc] at hd; exact hd
  have hg' : (RunUpdateCluster.resolved env c).GetAssets = false := hg
  have hrep : RunUpdateCluster.report env (RunUpdateCluster.resolved env c) (resolveTarget c).1
      UpdateClusterResults.empty cluster keyStore secretStore cloud (env.ApplyClusterCmdRun cmd)
      = ⟨RunUpdateCluster.resolved env c,
          [.Write (if hasChanges then "Must specify --yes to apply changes\n"
              else "No changes need to be applied\n")],
          .returned (some { Target := ran.Target, TaskMap := ran.TaskMap,
                            ImageAssets := ran.ImageAssets, FileAssets := ran.FileAssets,
                            Cluster := some cluster }) none⟩ := by
    rw [hok]
    unfold RunUpdateCluster.report
    simp only [hd', hg', ht]
    cases hasChanges <;> simp
  have hw : writesOf (RunUpdateCluster env c).trace
        = (if c.SSHPublicKey = "" then []
            else ["--ssh-public-key on update is deprecated - please use `kops create secret --name "
              ++ cmd.Cluster.ObjectMeta.Name
              ++ " sshpublickey admin -i ~/.ssh/id_rsa.pub` instead\n"])
          ++ [if hasChanges then "Must specify --yes to apply changes\n"
              else "No changes need to be applied\n"] := by
    rw [hrun, hrep, hcl]
    simp only [Run.after_trace, writesOf_append, RunUpdateCluster.bootstrap_writes, writesOf,
      RunUpdateCluster.deprecation, List.append_nil]
  refine ⟨hw, ?_, ?_, ?_⟩
  · intro hk
    rw [Run.output, hw]
    simp [hk, String.join]
  · rw [hrun, hrep, hcl]
    rfl
  · intro e he
    rw [hrun, hrep] at he
    simp only [Run.after_trace, List.mem_append, List.mem_singleton] at he
    rcases he with (he | he) | he
    · exact RunUpdateCluster.bootstrap_no_kubecfg env c cluster authorized e he
    · subst he; rfl
    · subst he; rfl

set_option maxRecDepth 4096 in
/-- C5, as stated, fails: the sample request with `--ssh-public-key` resolves to
a dry run with GetAssets false, the engine call succeeds and reports pending
changes, and the text written to the output is the deprecation notice followed
by the report, not the report alone. -/
theorem dry_run_report_counterexample :
    Sample.dryRunCmd ∈ (RunUpdateCluster Sample.env Sample.withKey).engineCalls
    ∧ Sample.dryRunCmd.DryRun = true
    ∧ Sample.withKey.GetAssets = false
    ∧ Sample.env.ApplyClusterCmdRun Sample.dryRunCmd = .ok Sample.pending
    ∧ Sample.pending.Target = some (.DryRunTarget true)
    ∧ (RunUpdateCluster Sample.env Sample.withKey).output
        = "--ssh-public-key on update is deprecated - please use `kops create secret --name k8s.example.com sshpublickey admin -i ~/.ssh/id_rsa.pub` instead\nMust specify --yes to apply changes\n"
    ∧ (RunUpdateCluster Sample.env Sample.withKey).output
        ≠ "Must specify --yes to apply changes\n" :=
  ⟨by decide, rfl, rfl, rfl, rfl, rfl, by decide⟩

/-- C5 amended, at the sample request with `--ssh-public-key`: two texts are
written, the notice and the report. -/
theorem dry_run_report_witness :
    writesOf (RunUpdateCluster Sample.env Sample.withKey).trace
      = ["--ssh-public-key on update is deprecated - please use `kops create secret --name k8s.example.com sshpublickey admin -i ~/.ssh/id_rsa.pub` instead\n",
         "Must specify --yes to apply changes\n"] :=
  (dry_run_report Sample.env Sample.withKey Sample.dryRunCmd Sample.pending true
    (by decide) rfl rfl rfl rfl).1

/-! ## Lifecycle overrides (C6, C7, C8) -/

theorem strings.splitChars_ne_nil (sep : Char) (s : List Char) :
    strings.splitChars sep s ≠ [] := by
  induction s with
  | nil => simp [strings.splitChars]
  | cons ch rest ih =>
    unfold strings.splitChars
    split
    · simp
    · split
      · simp
      · simp

theorem strings.splitChars_length (sep : Char) (s : List Char) :
    (strings.splitChars sep s).length = s.count sep + 1 := by
  induction s with
  | nil => simp [strings.splitChars]
  | cons ch rest ih =>
    unfold strings.splitChars
    by_cases h : ch = sep
    · subst h
      simp [ih]
    · have hne := strings.splitChars_ne_nil sep rest
      cases hs : strings.splitChars sep rest with
      | nil => exact absurd hs hne
      | cons seg segs =>
        rw [hs] at ih
        simp [h, List.count_cons_of_ne (Ne.symm h), ← ih]

/-- The number of segments of the split is the number of separators plus one. -/
theorem strings.Split_length (s : String) (sep : Char) :
    (strings.Split s sep).length = s.data.count sep + 1 := by
  simp [strings.Split, strings.splitChars_length]

theorem GoMap.get_set {V : Type} (m : GoMap V) (k k' : String) (v : V) :
    GoMap.get (GoMap.set m k v) k' = if k = k' then some v else GoMap.get m k' := by
  unfold GoMap.get GoMap.set
  by_cases h : k = k'
  · subst h
    simp
  · have hb : (k' == k) = false := by simp [Ne.symm h]
    simp only [List.lookup_cons, hb, h, if_false]
    induction m with
    | nil => rfl
    | cons p ps ih =>
      obtain ⟨a, b⟩ := p
      by_cases hak : a = k
      · subst hak
        simp [List.filter_cons, List.lookup_cons, hb, ih]
      · by_cases hk' : k' = a
        · subst hk'
          simp [List.filter_cons, List.lookup_cons, hak]
        · have hb' : (k' == a) = false := by simp [hk']
          simp [List.filter_cons, List.lookup_cons, hak, hb', ih]

theorem GoMap.mem_keys_iff {V : Type} (m : GoMap V) (k : String) :
    k ∈ GoMap.keys m ↔ ∃ v, GoMap.get m k = some v := by
  unfold GoMap.keys GoMap.get
  induction m with
  | nil => simp
  | cons p ps ih =>
    obtain ⟨a, b⟩ := p
    by_cases h : k = a
    · subst h
      simp
    · have hb : (k == a) = false := by simp [h]
      simp only [List.map_cons, List.mem_cons, h, false_or, List.lookup_cons, hb]
      exact ih

theorem GoMap.keys_set_nodup {V : Type} (m : GoMap V) (k : String) (v : V)
    (h : (GoMap.keys m).Nodup) : (GoMap.keys (GoMap.set m k v)).Nodup := by
  unfold GoMap.keys GoMap.set at *
  simp only [List.map_cons, List.nodup_cons]
  constructor
  · simp [List.mem_map, List.mem_filter]
  · exact (List.filter_sublist m).map Prod.fst |>.nodup h


/-- One turn of the loop on an entry task=name with a known name. -/
theorem lifecycleOverrides_cons_ok (env : Env) (results : UpdateClusterResults)
    (entry : String) (rest : List String) (acc : GoMap fi.Lifecycle)
    (task name : String) (policy : fi.Lifecycle)
    (hs : strings.Split entry '=' = [task, name])
    (hp : GoMap.get env.LifecycleNameMap name = some policy) :
    lifecycleOverrides env results (entry :: rest) acc
      = lifecycleOverrides env results rest (GoMap.set acc task policy) := by
  simp [lifecycleOverrides, hs, parseLifecycle, hp]

/-- A loop that ends normally has met only well-formed entries. -/
theorem lifecycleOverrides_ok_wellFormed (env : Env) (results : UpdateClusterResults)
    (xs : List String) :
    ∀ (acc m : GoMap fi.Lifecycle), lifecycleOverrides env results xs acc = .ok m →
      ∀ entry ∈ xs, Override.wellFormed env entry := by
  induction xs with
  | nil => intro acc m _ entry he; simp at he
  | cons x xs ih =>
    intro acc m h entry he
    unfold lifecycleOverrides at h
    split at h
    · rename_i task name hs
      unfold parseLifecycle at h
      cases hp : GoMap.get env.LifecycleNameMap name with
      | none => simp [hp] at h
      | some policy =>
        simp only [hp] at h
        rcases List.mem_cons.mp he with rfl | he'
        · exact ⟨task, name, policy, hs, hp⟩
        · exact ih _ _ h entry he'
    · simp at h


/-- On well-formed entries the loop ends normally. -/
theorem lifecycleOverrides_total (env : Env) (results : UpdateClusterResults)
    (xs : List String) :
    ∀ (acc : GoMap fi.Lifecycle), (∀ entry ∈ xs, Override.wellFormed env entry) →
      ∃ m, lifecycleOverrides env results xs acc = .ok m := by
  induction xs with
  | nil => intro acc _; exact ⟨acc, by simp [lifecycleOverrides]⟩
  | cons x xs ih =>
    intro acc h
    obtain ⟨task, name, policy, hs, hp⟩ := h x (List.mem_cons_self _ _)
    rw [lifecycleOverrides_cons_ok env results x xs acc task name policy hs hp]
    exact ih _ (fun e he => h e (List.mem_cons_of_mem _ he))

/-- The keys of the map the loop builds: those it started with and the task
names of the entries. -/
theorem lifecycleOverrides_keys (env : Env) (results : UpdateClusterResults)
    (xs : List String) :
    ∀ (acc m : GoMap fi.Lifecycle), lifecycleOverrides env results xs acc = .ok m →
      ∀ task, task ∈ GoMap.keys m
        ↔ (∃ entry ∈ xs, ∃ name, strings.Split entry '=' = [task, name])
          ∨ task ∈ GoMap.keys acc := by
  induction xs with
  | nil =>
    intro acc m h task
    simp [lifecycleOverrides] at h
    simp [h]
  | cons x xs ih =>
    intro acc m h task
    obtain ⟨t, n, v, hs, hp⟩ :=
      lifecycleOverrides_ok_wellFormed env results _ _ _ h x (List.mem_cons_self _ _)
    rw [lifecycleOverrides_cons_ok env results x xs acc t n v hs hp] at h
    rw [ih _ _ h task]
    have hk : task ∈ GoMap.keys (GoMap.set acc t v) ↔ task = t ∨ task ∈ GoMap.keys acc := by
      rw [GoMap.mem_keys_iff, GoMap.mem_keys_iff]
      simp only [GoMap.get_set]
      by_cases htt : t = task
      · subst htt; simp
      · simp [htt, Ne.symm htt]
    rw [hk]
    constructor
    · rintro (⟨e, he, name, hes⟩ | rfl | hacc)
      · exact Or.inl ⟨e, List.mem_cons_of_mem _ he, name, hes⟩
      · exact Or.inl ⟨x, List.mem_cons_self _ _, n, hs⟩
      · exact Or.inr hacc
    · rintro (⟨e, he, name, hes⟩ | hacc)
      · rcases List.mem_cons.mp he with rfl | he'
        · rw [hs] at hes
          simp only [List.cons.injEq, and_true] at hes
          exact Or.inr (Or.inl hes.1.symm)
        · exact Or.inl ⟨e, he', name, hes⟩
      · exact Or.inr (Or.inr hacc)

/-- The loop keeps the keys of the map distinct. -/
theorem lifecycleOverrides_nodup (env : Env) (results : UpdateClusterResults)
    (xs : List String) :
    ∀ (acc m : GoMap fi.Lifecycle), lifecycleOverrides env results xs acc = .ok m →
      (GoMap.keys acc).Nodup → (GoMap.keys m).Nodup := by
  induction xs with
  | nil =>
    intro acc m h hn
    simp [lifecycleOverrides] at h
    rw [← h]; exact hn
  | cons x xs ih =>
    intro acc m h hn
    obtain ⟨t, n, v, hs, hp⟩ :=
      lifecycleOverrides_ok_wellFormed env results _ _ _ h x (List.mem_cons_self _ _)
    rw [lifecycleOverrides_cons_ok env results x xs acc t n v hs hp] at h
    exact ih _ _ h (GoMap.keys_set_nodup acc t v hn)

/-- The value the loop leaves for a task: the policy of the last entry that
names the task, or the value it started with when no entry names it. -/
theorem lifecycleOverrides_get (env : Env) (results : UpdateClusterResults)
    (xs : List String) :
    ∀ (acc m : GoMap fi.Lifecycle), lifecycleOverrides env results xs acc = .ok m →
      ∀ task policy, GoMap.get m task = some policy
        ↔ (∃ before entry after name, xs = before ++ entry :: after
              ∧ strings.Split entry '=' = [task, name]
              ∧ GoMap.get env.LifecycleNameMap name = some policy
              ∧ ∀ e ∈ after, ∀ n, strings.Split e '=' ≠ [task, n])
          ∨ ((∀ e ∈ xs, ∀ n, strings.Split e '=' ≠ [task, n])
              ∧ GoMap.get acc task = some policy) := by
  induction xs with
  | nil =>
    intro acc m h task policy
    simp [lifecycleOverrides] at h
    simp [h]
  | cons x xs ih =>
    intro acc m h task policy
    obtain ⟨t, n, v, hs, hp⟩ :=
      lifecycleOverrides_ok_wellFormed env results _ _ _ h x (List.mem_cons_self _ _)
    rw [lifecycleOverrides_cons_ok env results x xs acc t n v hs hp] at h
    rw [ih _ _ h task policy, GoMap.get_set]
    constructor
    · rintro (⟨before, entry, after, name, hxs, hes, hreg, hlast⟩ | ⟨hno, hget⟩)
      · exact Or.inl ⟨x :: before, entry, after, name, by simp [hxs], hes, hreg, hlast⟩
      · by_cases htt : t = task
        · subst htt
          simp only [if_true, Option.some.injEq] at hget
          subst hget
          exact Or.inl ⟨[], x, xs, n, rfl, hs, hp, hno⟩
        · simp only [htt, if_false] at hget
          refine Or.inr ⟨?_, hget⟩
          intro e he n' hes
          rcases List.mem_cons.mp he with rfl | he'
          · rw [hs] at hes
            simp only [List.cons.injEq, and_true] at hes
            exact htt hes.1
          · exact hno e he' n' hes
    · rintro (⟨before, entry, after, name, hxs, hes, hreg, hlast⟩ | ⟨hno, hget⟩)
      · cases before with
        | nil =>
          simp only [List.nil_append, List.cons.injEq] at hxs
          obtain ⟨rfl, rfl⟩ := hxs
          rw [hs] at hes
          simp only [List.cons.injEq, and_true] at hes
          obtain ⟨rfl, rfl⟩ := hes
          rw [hp] at hreg
          refine Or.inr ⟨hlast, ?_⟩
          simpa using hreg
        | cons b bs =>
          simp only [List.cons_append, List.cons.injEq] at hxs
          exact Or.inl ⟨bs, entry, after, name, hxs.2, hes, hreg, hlast⟩
      · have htt : t ≠ task := by
          intro htt
          exact hno x (List.mem_cons_self _ _) n (by rw [hs, htt])
        refine Or.inr ⟨fun e he => hno e (List.mem_cons_of_mem _ he), ?_⟩
        simp [htt, hget]


/-- The loop stops at the first entry that does not split in two, with the
syntax error and the results. -/
theorem lifecycleOverrides_syntax_error (env : Env) (results : UpdateClusterResults)
    (before : List String) (bad : String) (after : List String)
    (hbad : (strings.Split bad '=').length ≠ 2) :
    ∀ (acc : GoMap fi.Lifecycle), (∀ e ∈ before, Override.wellFormed env e) →
      lifecycleOverrides env results (before ++ bad :: after) acc
        = .error (some results,
            "incorrect syntax for lifecyle-overrides, correct syntax is TaskName=lifecycleName, override provided: "
              ++ env.Quote bad) := by
  induction before with
  | nil =>
    intro acc _
    simp only [List.nil_append]
    unfold lifecycleOverrides
    split
    · rename_i task name hs
      rw [hs] at hbad
      exact absurd rfl hbad
    · rfl
  | cons x xs ih =>
    intro acc h
    obtain ⟨task, name, policy, hs, hp⟩ := h x (List.mem_cons_self _ _)
    rw [List.cons_append, lifecycleOverrides_cons_ok env results x _ acc task name policy hs hp]
    exact ih _ (fun e he => h e (List.mem_cons_of_mem _ he))

/-- The loop stops at the first entry whose policy is not in the registry, with
the error of `parseLifecycle` and no results. -/
theorem lifecycleOverrides_unknown (env : Env) (results : UpdateClusterResults)
    (before : List String) (bad : String) (after : List String) (task name : String)
    (hs : strings.Split bad '=' = [task, name])
    (hreg : GoMap.get env.LifecycleNameMap name = none) :
    ∀ (acc : GoMap fi.Lifecycle), (∀ e ∈ before, Override.wellFormed env e) →
      lifecycleOverrides env results (before ++ bad :: after) acc
        = .error (none,
            "unknown lifecycle " ++ env.Quote name ++ ", available lifecycle: "
              ++ strings.Join env.Lifecycles ",") := by
  induction before with
  | nil =>
    intro acc _
    simp [lifecycleOverrides, hs, parseLifecycle, hreg]
  | cons x xs ih =>
    intro acc h
    obtain ⟨t, n, policy, hxs, hp⟩ := h x (List.mem_cons_self _ _)
    rw [List.cons_append, lifecycleOverrides_cons_ok env results x _ acc t n policy hxs hp]
    exact ih _ (fun e he => h e (List.mem_cons_of_mem _ he))

/-- A run whose overrides do not parse never runs the engine, and when the steps
before the parser succeed it returns what the parser returns. -/
theorem RunUpdateCluster.overrides_error (env : Env) (c : UpdateClusterOptions)
    (res : Option UpdateClusterResults) (msg : String)
    (h : lifecycleOverrides env UpdateClusterResults.empty c.LifecycleOverrides []
      = .error (res, msg)) :
    (RunUpdateCluster env c).engineCalls = []
    ∧ ∀ cluster clientset keyStore secretStore authorized phase,
        RunUpdateCluster.Bootstrapped env c cluster clientset keyStore secretStore authorized →
        selectPhase env c.Phase = .ok phase →
        (RunUpdateCluster env c).outcome = .returned res (some msg) := by
  constructor
  · apply List.eq_nil_iff_forall_not_mem.mpr
    intro cmd hcmd
    obtain ⟨_, _, _, _, _, _, m, _, _, _, _, hl, _⟩ := RunUpdateCluster.engine_inv env c cmd hcmd
    rw [h] at hl
    exact absurd hl (by simp)
  · intro cluster clientset keyStore secretStore authorized phase hb hp
    have hp' : selectPhase env (RunUpdateCluster.resolved env c).Phase = .ok phase := hp
    have hl' : lifecycleOverrides env UpdateClusterResults.empty
        (RunUpdateCluster.resolved env c).LifecycleOverrides [] = .error (res, msg) := h
    rw [RunUpdateCluster.plan_reached env c _ _ _ _ _ hb]
    simp [RunUpdateCluster.plan, hp', hl']

/-- C6: when the entries before an entry are well-formed with known policies and
that entry does not hold exactly one "=" (so it does not split into two
segments), the parser stops with the syntax error that quotes the entry and
states the syntax TaskName=lifecycleName; the engine is never run, the run
returns an error, and when the steps before the parser succeed that error is
the syntax error. -/
theorem override_syntax_error (env : Env) (c : UpdateClusterOptions)
    (before : List String) (bad : String) (after : List String)
    (hxs : c.LifecycleOverrides = before ++ bad :: after)
    (hwf : ∀ e ∈ before, Override.wellFormed env e)
    (hbad : bad.data.count '=' ≠ 1) :
    lifecycleOverrides env UpdateClusterResults.empty c.LifecycleOverrides []
        = .error (some UpdateClusterResults.empty,
            "incorrect syntax for lifecyle-overrides, correct syntax is TaskName=lifecycleName, override provided: "
              ++ env.Quote bad)
    ∧ (RunUpdateCluster env c).engineCalls = []
    ∧ (∃ res err, (RunUpdateCluster env c).outcome = .returned res (some err))
    ∧ ∀ cluster clientset keyStore secretStore authorized phase,
        RunUpdateCluster.Bootstrapped env c cluster clientset keyStore secretStore authorized →
        selectPhase env c.Phase = .ok phase →
        (RunUpdateCluster env c).outcome
          = .returned (some UpdateClusterResults.empty)
              (some ("incorrect syntax for lifecyle-overrides, correct syntax is TaskName=lifecycleName, override provided: "
                ++ env.Quote bad)) := by
  have hlen : (strings.Split bad '=').length ≠ 2 := by
    rw [strings.Split_length]
    omega
  have hl := lifecycleOverrides_syntax_error env UpdateClusterResults.empty before bad after
    hlen [] hwf
  rw [← hxs] at hl
  obtain ⟨hno, hout⟩ := RunUpdateCluster.overrides_error env c _ _ hl
  exact ⟨hl, hno, RunUpdateCluster.fails_of_no_engine env c hno, hout⟩

/-- C6 at the sample request with the overrides "A=Ignore" and "A=B=C": the
run stops with the syntax error that quotes "A=B=C". -/
theorem override_syntax_error_witness :
    (RunUpdateCluster Sample.env Sample.badSyntax).outcome
      = .returned (some UpdateClusterResults.empty)
          (some "incorrect syntax for lifecyle-overrides, correct syntax is TaskName=lifecycleName, override provided: \"A=B=C\"") :=
  (override_syntax_error Sample.env Sample.badSyntax ["A=Ignore"] "A=B=C" [] rfl
      (fun e he => by
        rw [List.mem_singleton.mp he]
        exact ⟨"A", "Ignore", "Ignore", rfl, rfl⟩)
      (by decide)).2.2.2
    Sample.cluster ⟨1⟩ ⟨2⟩ ⟨4⟩ [] ""
    ⟨by decide, rfl, rfl, rfl, rfl, ⟨3⟩, rfl, fun h => absurd rfl h⟩ rfl


/-- C7: when the entries before an entry are well-formed with known policies and
that entry is task=name with `name` not a key of `fi.LifecycleNameMap`, the
parser stops with the error of `parseLifecycle`, which quotes `name` and lists
`fi.Lifecycles.List()`; the engine is never run, the run returns an error, and
when the steps before the parser succeed that error is the one of the parser,
with no results. The lookup is exact: `parseLifecycle` accepts a name exactly
when that very string is a key of the registry. -/
theorem override_unknown_lifecycle (env : Env) (c : UpdateClusterOptions)
    (before : List String) (bad : String) (after : List String) (task name : String)
    (hxs : c.LifecycleOverrides = before ++ bad :: after)
    (hwf : ∀ e ∈ before, Override.wellFormed env e)
    (hs : strings.Split bad '=' = [task, name])
    (hreg : name ∉ GoMap.keys env.LifecycleNameMap) :
    lifecycleOverrides env UpdateClusterResults.empty c.LifecycleOverrides []
        = .error (none,
            "unknown lifecycle " ++ env.Quote name ++ ", available lifecycle: "
              ++ strings.Join env.Lifecycles ",")
    ∧ (RunUpdateCluster env c).engineCalls = []
    ∧ (∃ res err, (RunUpdateCluster env c).outcome = .returned res (some err))
    ∧ (∀ cluster clientset keyStore secretStore authorized phase,
        RunUpdateCluster.Bootstrapped env c cluster clientset keyStore secretStore authorized →
        selectPhase env c.Phase = .ok phase →
        (RunUpdateCluster env c).outcome
          = .returned none
              (some ("unknown lifecycle " ++ env.Quote name ++ ", available lifecycle: "
                ++ strings.Join env.Lifecycles ",")))
    ∧ ∀ lifecycle, (∃ v, parseLifecycle env lifecycle = .ok v)
        ↔ lifecycle ∈ GoMap.keys env.LifecycleNameMap := by
  have hnone : GoMap.get env.LifecycleNameMap name = none := by
    cases hg : GoMap.get env.LifecycleNameMap name with
    | none => rfl
    | some v => exact absurd ((GoMap.mem_keys_iff _ _).mpr ⟨v, hg⟩) hreg
  have hl := lifecycleOverrides_unknown env UpdateClusterResults.empty before bad after task
    name hs hnone [] hwf
  rw [← hxs] at hl
  obtain ⟨hno, hout⟩ := RunUpdateCluster.overrides_error env c _ _ hl
  refine ⟨hl, hno, RunUpdateCluster.fails_of_no_engine env c hno, hout, ?_⟩
  intro lifecycle
  rw [GoMap.mem_keys_iff]
  unfold parseLifecycle
  cases hg : GoMap.get env.LifecycleNameMap lifecycle <;> simp

/-- C7 at the sample request with the overrides "A=Ignore" and "B=Bogus": the
run stops at "B=Bogus", with the error that quotes "Bogus" and lists the
lifecycles. -/
theorem override_unknown_lifecycle_witness :
    (RunUpdateCluster Sample.env Sample.badPolicy).outcome
      = .returned none
          (some "unknown lifecycle \"Bogus\", available lifecycle: ExistsAndValidates,ExistsAndWarnIfChanges,Ignore,Sync") :=
  (override_unknown_lifecycle Sample.env Sample.badPolicy ["A=Ignore"] "B=Bogus" [] "B" "Bogus"
      rfl
      (fun e he => by
        rw [List.mem_singleton.mp he]
        exact ⟨"A", "Ignore", "Ignore", rfl, rfl⟩)
      rfl (by decide)).2.2.2.1
    Sample.cluster ⟨1⟩ ⟨2⟩ ⟨4⟩ [] ""
    ⟨by decide, rfl, rfl, rfl, rfl, ⟨3⟩, rfl, fun h => absurd rfl h⟩ rfl

/-- C8: when every override is of the form task=policy with a known policy, the
parser ends normally with a map that is the one every engine command carries;
its keys are distinct and are exactly the task names of the entries; a task is
mapped to a policy exactly when the last entry that names the task gives that
policy (in the registry); and the empty list gives the empty map. -/
theorem overrides_last_wins (env : Env) (c : UpdateClusterOptions)
    (hwf : ∀ entry ∈ c.LifecycleOverrides, Override.wellFormed env entry) :
    ∃ m, lifecycleOverrides env UpdateClusterResults.empty c.LifecycleOverrides [] = .ok m
      ∧ (∀ cmd ∈ (RunUpdateCluster env c).engineCalls, cmd.LifecycleOverrides = m)
      ∧ (GoMap.keys m).Nodup
      ∧ (∀ task, task ∈ GoMap.keys m
          ↔ ∃ entry ∈ c.LifecycleOverrides, ∃ name, strings.Split entry '=' = [task, name])
      ∧ (∀ task policy, GoMap.get m task = some policy
          ↔ ∃ before entry after name, c.LifecycleOverrides = before ++ entry :: after
              ∧ strings.Split entry '=' = [task, name]
              ∧ GoMap.get env.LifecycleNameMap name = some policy
              ∧ ∀ e ∈ after, ∀ n, strings.Split e '=' ≠ [task, n])
      ∧ (c.LifecycleOverrides = [] → m = []) := by
  obtain ⟨m, hm⟩ := lifecycleOverrides_total env UpdateClusterResults.empty
    c.LifecycleOverrides [] hwf
  refine ⟨m, hm, ?_, ?_, ?_, ?_, ?_⟩
  · intro cmd hcmd
    obtain ⟨_, _, _, _, _, _, m', _, _, _, _, hl, hc, _⟩ :=
      RunUpdateCluster.engine_inv env c cmd hcmd
    rw [hm] at hl
    cases hl
    rw [hc]
    rfl
  · exact lifecycleOverrides_nodup env _ _ _ _ hm (by simp [GoMap.keys])
  · intro task
    rw [lifecycleOverrides_keys env _ _ _ _ hm task]
    simp [GoMap.keys]
  · intro task policy
    rw [lifecycleOverrides_get env _ _ _ _ hm task policy]
    simp [GoMap.get]
  · intro h0
    rw [h0] at hm
    simp [lifecycleOverrides] at hm
    exact hm

/-- C8 at the sample request with the overrides "A=Ignore", "B=Sync", "A=Sync":
the engine command carries a map in which "A" has the policy of its last entry,
"Sync". -/
theorem overrides_last_wins_witness :
    ∃ cmd ∈ (RunUpdateCluster Sample.env Sample.overridden).engineCalls,
      GoMap.get cmd.LifecycleOverrides "A" = some "Sync"
      ∧ GoMap.get cmd.LifecycleOverrides "B" = some "Sync"
      ∧ (GoMap.keys cmd.LifecycleOverrides).Nodup := by
  obtain ⟨m, hm, hcmd, hnodup, _, hget, _⟩ :=
    overrides_last_wins Sample.env Sample.overridden (fun e he => by
      simp only [Sample.overridden, List.mem_cons, List.mem_singleton, List.not_mem_nil,
        or_false] at he
      rcases he with rfl | rfl | rfl
      · exact ⟨"A", "Ignore", "Ignore", rfl, rfl⟩
      · exact ⟨"B", "Sync", "Sync", rfl, rfl⟩
      · exact ⟨"A", "Sync", "Sync", rfl, rfl⟩)
  refine ⟨Sample.overriddenCmd, by decide, ?_⟩
  rw [hcmd Sample.overriddenCmd (by decide)]
  refine ⟨(hget "A" "Sync").mpr ⟨["A=Ignore", "B=Sync"], "A=Sync", [], "Sync", rfl, rfl, rfl,
      by simp⟩,
    (hget "B" "Sync").mpr ⟨["A=Ignore"], "B=Sync", ["A=Sync"], "Sync", rfl, rfl, rfl, ?_⟩,
    hnodup⟩
  intro e he n hsplit
  rw [List.mem_singleton.mp he] at hsplit
  have hsp : strings.Split "A=Sync" '=' = ["A", "Sync"] := rfl
  rw [hsp] at hsplit
  simp at hsplit

/-! ## Apply mode: kubeconfig and narrative -/

/-- An apply-mode run whose engine call succeeds is the bootstrap events, the
engine call, and the kubeconfig stage on the answer of the engine. -/
theorem RunUpdateCluster.apply_run (env : Env) (c : UpdateClusterOptions)
    (cmd : cloudup.ApplyClusterCmd) (ran : cloudup.ApplyClusterOutput)
    (hcmd : cmd ∈ (RunUpdateCluster env c).engineCalls) (hd : cmd.DryRun = false)
    (hok : env.ApplyClusterCmdRun cmd = .ok ran) :
    (resolveTarget c).1 = false
    ∧ ∃ keyStore secretStore authorized,
      RunUpdateCluster env c
        = Run.after
            (RunUpdateCluster.bootstrap env c cmd.Cluster authorized ++ [.ApplyClusterCmdRun cmd])
            (RunUpdateCluster.exportKubecfg env (RunUpdateCluster.resolved env c) false
              { Target := ran.Target, TaskMap := ran.TaskMap, ImageAssets := ran.ImageAssets,
                FileAssets := ran.FileAssets, Cluster := some cmd.Cluster }
              cmd.Cluster keyStore secretStore cmd.Cloud ran.InstanceGroups) := by
  obtain ⟨_, cluster, clientset, keyStore, secretStore, phase, m, cloud, authorized, _, _, _,
    hc, hrun⟩ := RunUpdateCluster.engine_inv env c cmd hcmd
  have hcl : cmd.Cluster = cluster := by rw [hc]; rfl
  have hcloud : cmd.Cloud = cloud := by rw [hc]; rfl
  have hd' : (resolveTarget c).1 = false := by rw [hc] at hd; exact hd
  refine ⟨hd', keyStore, secretStore, authorized, ?_⟩
  rw [hrun, hok, hcl, hcloud, hd']
  simp [RunUpdateCluster.report]

/-- A dry run for assets only ends after the engine call, with the results. -/
theorem RunUpdateCluster.dry_assets_run (env : Env) (c : UpdateClusterOptions)
    (cmd : cloudup.ApplyClusterCmd) (ran : cloudup.ApplyClusterOutput)
    (hcmd : cmd ∈ (RunUpdateCluster env c).engineCalls) (hd : cmd.DryRun = true)
    (hg : c.GetAssets = true) (hok : env.ApplyClusterCmdRun cmd = .ok ran) :
    ∃ authorized,
      RunUpdateCluster env c
        = ⟨RunUpdateCluster.resolved env c,
           RunUpdateCluster.bootstrap env c cmd.Cluster authorized ++ [.ApplyClusterCmdRun cmd],
           .returned (some { Target := ran.Target, TaskMap := ran.TaskMap,
                             ImageAssets := ran.ImageAssets, FileAssets := ran.FileAssets,
                             Cluster := some cmd.Cluster }) none⟩ := by
  obtain ⟨_, cluster, clientset, keyStore, secretStore, phase, m, cloud, authorized, _, _, _,
    hc, hrun⟩ := RunUpdateCluster.engine_inv env c cmd hcmd
  have hcl : cmd.Cluster = cluster := by rw [hc]; rfl
  have hd' : (resolveTarget c).1 = true := by rw [hc] at hd; exact hd
  have hg' : (RunUpdateCluster.resolved env c).GetAssets = true := hg
  refine ⟨authorized, ?_⟩
  rw [hrun, hok, hcl, hd']
  simp [RunUpdateCluster.report, RunUpdateCluster.exportKubecfg, RunUpdateCluster.narrate,
    hg', Run.after]

/-- The kubeconfig flag of the options after a run without a flag conflict is
the resolved one. -/
theorem RunUpdateCluster.options_CreateKubecfg (env : Env) (c : UpdateClusterOptions)
    (h : ¬ (c.admin ≠ 0 ∧ c.user ≠ "")) :
    (RunUpdateCluster env c).options.CreateKubecfg = (impliedCreateKubecfg c).1 := by
  unfold RunUpdateCluster RunUpdateCluster.stores RunUpdateCluster.sshPublicKey
    RunUpdateCluster.plan RunUpdateCluster.apply RunUpdateCluster.report
    RunUpdateCluster.exportKubecfg RunUpdateCluster.narrate
  simp only [h, if_false]
  dsimp only
  repeat' split
  all_goals simp

/-- Every event before the engine call is a log line at level info, a fetch of
the cluster or of a store, a step of the key import, or the cloud build. -/
theorem RunUpdateCluster.bootstrap_mem (env : Env) (c : UpdateClusterOptions)
    (cluster : kops.Cluster) (authorized : List Nat) (e : Event)
    (he : e ∈ RunUpdateCluster.bootstrap env c cluster authorized) :
    (∃ text, e = .klog .info text)
    ∨ e ∈ [.GetCluster c.ClusterName, .Clientset, .KeyStore, .SSHCredentialStore, .SecretStore,
           .Write (RunUpdateCluster.deprecation cluster),
           .ReadFile (env.ExpandPath c.SSHPublicKey),
           .AddSSHPublicKey fi.SecretNameSSHPrimary authorized, .BuildCloud] := by
  unfold RunUpdateCluster.bootstrap RunUpdateCluster.keyEvents at he
  simp only [List.mem_append] at he
  rcases he with ((he | he) | he) | he
  · left
    unfold impliedCreateKubecfg at he
    dsimp only at he
    repeat' split at he
    all_goals simp at he
    all_goals (first | exact ⟨_, he⟩ | (rcases he with he | he | he <;> exact ⟨_, he⟩) | (rcases he with he | he <;> exact ⟨_, he⟩))
  · right
    simp at he ⊢
    tauto
  · split at he
    · simp at he
    · simp at he
      rcases he with he | he | he | he
      · right; simp [he]
      · right; simp [he]
      · right; simp [he]
      · left; exact ⟨_, he⟩
  · right
    simp at he ⊢
    tauto


/-- In apply mode the narrative stage writes the narrative once and returns the
results, or the error of the writer. -/
theorem RunUpdateCluster.narrate_apply (env : Env) (c : UpdateClusterOptions)
    (results : UpdateClusterResults) (firstRun : Bool) (cluster : kops.Cluster)
    (igs : List kops.InstanceGroup) :
    RunUpdateCluster.narrate env c false results firstRun cluster igs
      = ⟨c, [.Write (String.join (narrative env c firstRun cluster igs))],
          match env.OutWrite (String.join (narrative env c firstRun cluster igs)) with
          | some err => .returned none (some ("error writing to output: " ++ err))
          | none => .returned (some results) none⟩ := by
  unfold RunUpdateCluster.narrate
  cases h : env.OutWrite (String.join (narrative env c firstRun cluster igs)) <;> simp [h]

/-- In apply mode without `CreateKubecfg` the kubeconfig stage is the narrative
of a run that is not a first run. -/
theorem RunUpdateCluster.exportKubecfg_skip (env : Env) (c : UpdateClusterOptions)
    (results : UpdateClusterResults) (cluster : kops.Cluster) (keyStore : fi.CAStore)
    (secretStore : fi.SecretStore) (cloud : fi.Cloud) (igs : List kops.InstanceGroup)
    (hk : c.CreateKubecfg = false) :
    RunUpdateCluster.exportKubecfg env c false results cluster keyStore secretStore cloud igs
      = RunUpdateCluster.narrate env c false results false cluster igs := by
  simp [RunUpdateCluster.exportKubecfg, hk]

/-- In apply mode with `CreateKubecfg` the kubeconfig stage looks the context
up, builds the kubeconfig and stops on the error of the builder. -/
theorem RunUpdateCluster.exportKubecfg_build_error (env : Env) (c : UpdateClusterOptions)
    (results : UpdateClusterResults) (cluster : kops.Cluster) (keyStore : fi.CAStore)
    (secretStore : fi.SecretStore) (cloud : fi.Cloud) (igs : List kops.InstanceGroup)
    (err : String) (hk : c.CreateKubecfg = true)
    (hb : env.BuildKubecfg (RunUpdateCluster.kubecfgArgs env c cluster keyStore secretStore cloud)
      = .error err) :
    RunUpdateCluster.exportKubecfg env c false results cluster keyStore secretStore cloud igs
      = ⟨c, [.GetConfig] ++ (RunUpdateCluster.lookup env cluster).2
            ++ [.klog .info "Exporting kubeconfig for cluster",
                .BuildKubecfg (RunUpdateCluster.kubecfgArgs env c cluster keyStore secretStore
                  cloud)],
          .returned none (some err)⟩ := by
  unfold RunUpdateCluster.kubecfgArgs at hb
  unfold RunUpdateCluster.exportKubecfg RunUpdateCluster.lookup RunUpdateCluster.kubecfgArgs
  simp only [hk, hb]
  cases hasKubecfg env cluster.ObjectMeta.Name <;> simp [Run.after]

/-- The same, stopping on the error of the writer. -/
theorem RunUpdateCluster.exportKubecfg_write_error (env : Env) (c : UpdateClusterOptions)
    (results : UpdateClusterResults) (cluster : kops.Cluster) (keyStore : fi.CAStore)
    (secretStore : fi.SecretStore) (cloud : fi.Cloud) (igs : List kops.InstanceGroup)
    (conf : kubeconfig.KubeconfigBuilder) (err : String) (hk : c.CreateKubecfg = true)
    (hb : env.BuildKubecfg (RunUpdateCluster.kubecfgArgs env c cluster keyStore secretStore cloud)
      = .ok conf)
    (hw : env.WriteKubecfg conf = some err) :
    RunUpdateCluster.exportKubecfg env c false results cluster keyStore secretStore cloud igs
      = ⟨c, [.GetConfig] ++ (RunUpdateCluster.lookup env cluster).2
            ++ [.klog .info "Exporting kubeconfig for cluster",
                .BuildKubecfg (RunUpdateCluster.kubecfgArgs env c cluster keyStore secretStore
                  cloud),
                .WriteKubecfg conf],
          .returned none (some err)⟩ := by
  unfold RunUpdateCluster.kubecfgArgs at hb
  unfold RunUpdateCluster.exportKubecfg RunUpdateCluster.lookup RunUpdateCluster.kubecfgArgs
  simp only [hk, hb, hw]
  cases hasKubecfg env cluster.ObjectMeta.Name <;> simp [Run.after]

/-- The same, when the kubeconfig is built and written: the advisory follows,
then the narrative with the `firstRun` of the lookup. -/
theorem RunUpdateCluster.exportKubecfg_done (env : Env) (c : UpdateClusterOptions)
    (results : UpdateClusterResults) (cluster : kops.Cluster) (keyStore : fi.CAStore)
    (secretStore : fi.SecretStore) (cloud : fi.Cloud) (igs : List kops.InstanceGroup)
    (conf : kubeconfig.KubeconfigBuilder) (hk : c.CreateKubecfg = true)
    (hb : env.BuildKubecfg (RunUpdateCluster.kubecfgArgs env c cluster keyStore secretStore cloud)
      = .ok conf)
    (hw : env.WriteKubecfg conf = none) :
    RunUpdateCluster.exportKubecfg env c false results cluster keyStore secretStore cloud igs
      = Run.after
          ([.GetConfig] ++ (RunUpdateCluster.lookup env cluster).2
            ++ [.klog .info "Exporting kubeconfig for cluster",
                .BuildKubecfg (RunUpdateCluster.kubecfgArgs env c cluster keyStore secretStore
                  cloud),
                .WriteKubecfg conf]
            ++ RunUpdateCluster.advisory c)
          (RunUpdateCluster.narrate env c false results (RunUpdateCluster.lookup env cluster).1
            cluster igs) := by
  unfold RunUpdateCluster.kubecfgArgs at hb
  unfold RunUpdateCluster.exportKubecfg RunUpdateCluster.lookup RunUpdateCluster.kubecfgArgs
    RunUpdateCluster.advisory
  simp only [hk, hb, hw]
  cases hasKubecfg env cluster.ObjectMeta.Name <;> simp [Run.after]


/-- The resolved kubeconfig flag is set exactly when the caller set it or gave
one of `--admin`, `--user`, `--internal`. -/
theorem impliedCreateKubecfg_fst (c : UpdateClusterOptions) :
    (impliedCreateKubecfg c).1 = true
      ↔ c.CreateKubecfg = true ∨ c.admin ≠ 0 ∨ c.user ≠ "" ∨ c.internal = true := by
  unfold impliedCreateKubecfg
  dsimp only
  cases hk : c.CreateKubecfg <;> cases hi : c.internal <;>
    by_cases ha : c.admin = 0 <;> by_cases hu : c.user = "" <;> simp [ha, hu]

/-! ## Kubeconfig decision (C11) -/

/-- C11: when the identity flags do not conflict and at least one of `admin`
non-zero, `user` non-empty or `internal` holds, `CreateKubecfg` is true in the
options after the run, whatever the caller passed, and in every apply-mode run
(the engine call is not a dry run and succeeds) the kubeconfig builder is
called, with these identity options, and the writer is called on the document
the builder returns. When none of the three is set `CreateKubecfg` keeps the value
of the caller. -/
theorem identity_flags_force_kubecfg (env : Env) (c : UpdateClusterOptions)
    (hconf : ¬ (c.admin ≠ 0 ∧ c.user ≠ "")) :
    ((c.admin ≠ 0 ∨ c.user ≠ "" ∨ c.internal = true) →
      (RunUpdateCluster env c).options.CreateKubecfg = true
      ∧ ∀ cmd ∈ (RunUpdateCluster env c).engineCalls, cmd.DryRun = false →
          ∀ ran, env.ApplyClusterCmdRun cmd = .ok ran →
            ∃ args, Event.BuildKubecfg args ∈ (RunUpdateCluster env c).trace
              ∧ args.cluster = cmd.Cluster
              ∧ args.admin = c.admin ∧ args.user = c.user ∧ args.internal = c.internal
              ∧ ∀ conf, env.BuildKubecfg args = .ok conf →
                  Event.WriteKubecfg conf ∈ (RunUpdateCluster env c).trace)
    ∧ ((c.admin = 0 ∧ c.user = "" ∧ c.internal = false) →
        (RunUpdateCluster env c).options.CreateKubecfg = c.CreateKubecfg) := by
  constructor
  · intro hany
    have himp : (impliedCreateKubecfg c).1 = true :=
      (impliedCreateKubecfg_fst c).mpr (Or.inr hany)
    refine ⟨by rw [RunUpdateCluster.options_CreateKubecfg env c hconf, himp], ?_⟩
    intro cmd hcmd hd ran hok
    obtain ⟨_, keyStore, secretStore, authorized, hrun⟩ :=
      RunUpdateCluster.apply_run env c cmd ran hcmd hd hok
    have hk : (RunUpdateCluster.resolved env c).CreateKubecfg = true := himp
    refine ⟨RunUpdateCluster.kubecfgArgs env (RunUpdateCluster.resolved env c) cmd.Cluster
      keyStore secretStore cmd.Cloud, ?_, rfl, rfl, rfl, rfl, ?_⟩
    · rw [hrun]
      cases hb : env.BuildKubecfg (RunUpdateCluster.kubecfgArgs env
          (RunUpdateCluster.resolved env c) cmd.Cluster keyStore secretStore cmd.Cloud) with
      | error err =>
        rw [RunUpdateCluster.exportKubecfg_build_error env _ _ _ _ _ _ _ err hk hb]
        simp
      | ok conf =>
        cases hw : env.WriteKubecfg conf with
        | some err =>
          rw [RunUpdateCluster.exportKubecfg_write_error env _ _ _ _ _ _ _ conf err hk hb hw]
          simp
        | none =>
          rw [RunUpdateCluster.exportKubecfg_done env _ _ _ _ _ _ _ conf hk hb hw]
          simp
    · intro conf hb
      rw [hrun]
      cases hw : env.WriteKubecfg conf with
      | some err =>
        rw [RunUpdateCluster.exportKubecfg_write_error env _ _ _ _ _ _ _ conf err hk hb hw]
        simp
      | none =>
        rw [RunUpdateCluster.exportKubecfg_done env _ _ _ _ _ _ _ conf hk hb hw]
        simp
  · rintro ⟨ha, hu, hi⟩
    rw [RunUpdateCluster.options_CreateKubecfg env c hconf]
    cases hk : c.CreateKubecfg
    · have := (impliedCreateKubecfg_fst c).not.mpr (by simp [hk, ha, hu, hi])
      simpa using this
    · exact (impliedCreateKubecfg_fst c).mpr (Or.inl hk)

/-- C11 at the confirmed sample request with `--internal` and
`--create-kube-config=false`: the flag is true after the run and the kubeconfig
is built and written. -/
theorem identity_flags_force_kubecfg_witness :
    (RunUpdateCluster Sample.env Sample.internalOnly).options.CreateKubecfg = true
    ∧ ∃ args, Event.BuildKubecfg args ∈ (RunUpdateCluster Sample.env Sample.internalOnly).trace
        ∧ args.internal = true
        ∧ Event.WriteKubecfg ⟨6⟩ ∈ (RunUpdateCluster Sample.env Sample.internalOnly).trace := by
  obtain ⟨hflag, hrun⟩ :=
    (identity_flags_force_kubecfg Sample.env Sample.internalOnly (by decide)).1
      (Or.inr (Or.inr rfl))
  obtain ⟨args, hb, _, _, _, hi, hw⟩ := hrun Sample.applyCmd (by decide) rfl Sample.applied rfl
  exact ⟨hflag, args, hb, hi, hw ⟨6⟩ rfl⟩

/-! ## Plan invariant (C17) -/

/-- C17: every command the engine is run on satisfies: target name "dryrun"
implies DryRun=true, and target name "direct" implies DryRun=false, target
"direct" in the request and Yes=true. So the engine is never run on the direct
backend without confirmation. -/
theorem plan_invariant (env : Env) (c : UpdateClusterOptions) (cmd : cloudup.ApplyClusterCmd)
    (h : cmd ∈ (RunUpdateCluster env c).engineCalls) :
    (cmd.TargetName = "dryrun" → cmd.DryRun = true)
    ∧ (cmd.TargetName = "direct" → cmd.DryRun = false ∧ c.Target = "direct" ∧ c.Yes = true) := by
  obtain ⟨_, _, _, _, _, _, _, _, _, _, _, _, hcmd, _⟩ := RunUpdateCluster.engine_inv env c cmd h
  subst hcmd
  simp only [RunUpdateCluster.applyCmd, resolveTarget, cloudup.TargetDirect,
    cloudup.TargetDryRun]
  by_cases hdry : c.Target = "dryrun"
  · simp [hdry]
  · by_cases hdir : c.Target = "direct"
    · cases hy : c.Yes <;> simp [hdir, hy]
    · simp [hdry, hdir]

/-- C17 at the confirmed sample request on target direct: the engine command has
target name "direct", is not a dry run, and Yes is true. -/
theorem plan_invariant_witness :
    Sample.applyCmd ∈ (RunUpdateCluster Sample.env Sample.internalOnly).engineCalls
    ∧ Sample.applyCmd.TargetName = "direct"
    ∧ (Sample.applyCmd.DryRun = false ∧ Sample.internalOnly.Target = "direct"
        ∧ Sample.internalOnly.Yes = true) :=
  ⟨by decide, rfl,
   (plan_invariant Sample.env Sample.internalOnly Sample.applyCmd (by decide)).2 rfl⟩

/-! ## Order of validation and side effects (C12) -/

/-- C12, as stated, fails: at the sample request with `--ssh-public-key` and the
phase "bogus", and at the one with `--ssh-public-key` and the override "A", the
run returns the validation error after the key was read and added to the SSH
credential store. -/
theorem validation_order_counterexample :
    (Event.AddSSHPublicKey "admin" [115, 115, 104]
        ∈ (RunUpdateCluster Sample.env Sample.keyAndBogusPhase).trace
      ∧ (RunUpdateCluster Sample.env Sample.keyAndBogusPhase).outcome
          = .returned (some UpdateClusterResults.empty)
              (some "unknown phase \"bogus\", available phases: cluster,network,security"))
    ∧ (Event.AddSSHPublicKey "admin" [115, 115, 104]
        ∈ (RunUpdateCluster Sample.env Sample.keyAndBadOverride).trace
      ∧ (RunUpdateCluster Sample.env Sample.keyAndBadOverride).outcome
          = .returned (some UpdateClusterResults.empty)
              (some "incorrect syntax for lifecyle-overrides, correct syntax is TaskName=lifecycleName, override provided: \"A\"")) := by
  refine ⟨⟨by decide, rfl⟩, ⟨by decide, rfl⟩⟩

/-- C12 amended: the identity-flag conflict is raised before any side effect (the
trace is empty). An unknown phase and a bad lifecycle override are raised
before the engine is run, but after the cluster and the stores were fetched and
after the SSH public key, when a path is given, was read and added to the SSH
credential store: when those steps succeed the trace of the failing run is
exactly their events. -/
theorem validation_order (env : Env) (c : UpdateClusterOptions) :
    ((c.admin ≠ 0 ∧ c.user ≠ "") → (RunUpdateCluster env c).trace = [])
    ∧ ∀ cluster clientset keyStore secretStore authorized,
        RunUpdateCluster.Bootstrapped env c cluster clientset keyStore secretStore authorized →
        ((∃ err, selectPhase env c.Phase = .error err)
          ∨ ∃ res err, lifecycleOverrides env UpdateClusterResults.empty c.LifecycleOverrides []
              = .error (res, err)) →
        (RunUpdateCluster env c).trace
            = (impliedCreateKubecfg c).2
              ++ [.GetCluster c.ClusterName, .Clientset, .KeyStore, .SSHCredentialStore,
                  .SecretStore]
              ++ RunUpdateCluster.keyEvents env c cluster authorized
        ∧ (c.SSHPublicKey ≠ "" →
            Event.AddSSHPublicKey fi.SecretNameSSHPrimary authorized
              ∈ (RunUpdateCluster env c).trace)
        ∧ (RunUpdateCluster env c).engineCalls = []
        ∧ ∃ res err, (RunUpdateCluster env c).outcome = .returned res (some err) := by
  constructor
  · intro hconf
    simp [RunUpdateCluster, hconf]
  · intro cluster clientset keyStore secretStore authorized hb hbad
    have htrace : (RunUpdateCluster env c).trace
        = (impliedCreateKubecfg c).2
          ++ [.GetCluster c.ClusterName, .Clientset, .KeyStore, .SSHCredentialStore,
              .SecretStore]
          ++ RunUpdateCluster.keyEvents env c cluster authorized := by
      rw [RunUpdateCluster.plan_reached env c _ _ _ _ _ hb]
      rcases hbad with ⟨err, hp⟩ | ⟨res, err, hl⟩
      · have hp' : selectPhase env (RunUpdateCluster.resolved env c).Phase = .error err := hp
        simp [RunUpdateCluster.plan, hp']
      · have hl' : lifecycleOverrides env UpdateClusterResults.empty
            (RunUpdateCluster.resolved env c).LifecycleOverrides [] = .error (res, err) := hl
        cases hp : selectPhase env (RunUpdateCluster.resolved env c).Phase <;>
          simp [RunUpdateCluster.plan, hp, hl']
    have hno : (RunUpdateCluster env c).engineCalls = [] := by
      apply List.eq_nil_iff_forall_not_mem.mpr
      intro cmd hcmd
      obtain ⟨_, _, _, _, _, _, _, _, _, _, hp, hl, _⟩ := RunUpdateCluster.engine_inv env c cmd hcmd
      rcases hbad with ⟨err, hp'⟩ | ⟨res, err, hl'⟩
      · rw [hp'] at hp
        exact absurd hp (by simp)
      · rw [hl'] at hl
        exact absurd hl (by simp)
    refine ⟨htrace, ?_, hno, RunUpdateCluster.fails_of_no_engine env c hno⟩
    intro hk
    rw [htrace]
    simp [RunUpdateCluster.keyEvents, hk]

/-- C12 amended, at the sample request with `--ssh-public-key` and the phase
"bogus": the key is added to the store and the engine is not run. -/
theorem validation_order_witness :
    Event.AddSSHPublicKey fi.SecretNameSSHPrimary [115, 115, 104]
        ∈ (RunUpdateCluster Sample.env Sample.keyAndBogusPhase).trace
    ∧ (RunUpdateCluster Sample.env Sample.keyAndBogusPhase).engineCalls = [] :=
  have h := (validation_order Sample.env Sample.keyAndBogusPhase).2
    Sample.cluster ⟨1⟩ ⟨2⟩ ⟨4⟩ [115, 115, 104]
    ⟨by decide, rfl, rfl, rfl, rfl, ⟨3⟩, rfl, fun _ => ⟨rfl, rfl⟩⟩
    (Or.inl ⟨"unknown phase \"bogus\", available phases: cluster,network,security", rfl⟩)
  ⟨h.2.1 (by decide), h.2.2.1⟩

/-! ## Empty segments of an override (C15) -/

/-- A text without the separator is one segment. -/
theorem strings.splitChars_of_not_mem (sep : Char) (s : List Char) (h : sep ∉ s) :
    strings.splitChars sep s = [s] := by
  induction s with
  | nil => rfl
  | cons ch rest ih =>
    have hne : ch ≠ sep := fun heq => h (by simp [heq])
    have hrest : sep ∉ rest := fun hmem => h (List.mem_cons_of_mem _ hmem)
    simp [strings.splitChars, hne, ih hrest]

/-- A text without the separator followed by the separator is that text and an
empty segment. -/
theorem strings.splitChars_append_sep (sep : Char) (s : List Char) (h : sep ∉ s) :
    strings.splitChars sep (s ++ [sep]) = [s, []] := by
  induction s with
  | nil => simp [strings.splitChars]
  | cons ch rest ih =>
    have hne : ch ≠ sep := fun heq => h (by simp [heq])
    have hrest : sep ∉ rest := fun hmem => h (List.mem_cons_of_mem _ hmem)
    simp [strings.splitChars, hne, ih hrest]

/-- C15, as stated, fails: at the sample request with the override "=Ignore" the
parser accepts the entry and the engine receives a map that binds the empty
task name to Ignore. -/
theorem override_empty_task_counterexample :
    strings.Split "=Ignore" '=' = ["", "Ignore"]
    ∧ (RunUpdateCluster Sample.env Sample.emptyTask).engineCalls = [Sample.emptyTaskCmd]
    ∧ GoMap.get Sample.emptyTaskCmd.LifecycleOverrides "" = some "Ignore" := by
  decide

/-- C15 amended: the parser accepts an entry exactly when it splits on "=" into
two segments and the second is a key of the lifecycle registry; it does not ask
for a non-empty task name. An entry "=name" with a known `name` is accepted and
binds the empty task name; an entry "task=" is rejected with the
unknown-lifecycle error, and no map, when the empty string is not a key of the
registry; and every entry of a run that reaches the engine has a policy name
that is a key of the registry. -/
theorem override_empty_segments (env : Env) (c : UpdateClusterOptions) :
    (∀ entry, (∃ m, lifecycleOverrides env UpdateClusterResults.empty [entry] [] = .ok m)
        ↔ Override.wellFormed env entry)
    ∧ (∀ name policy, '=' ∉ name.data → GoMap.get env.LifecycleNameMap name = some policy →
        lifecycleOverrides env UpdateClusterResults.empty ["=" ++ name] [] = .ok [("", policy)])
    ∧ (∀ task, '=' ∉ task.data → GoMap.get env.LifecycleNameMap "" = none →
        lifecycleOverrides env UpdateClusterResults.empty [task ++ "="] []
          = .error (none, "unknown lifecycle " ++ env.Quote "" ++ ", available lifecycle: "
              ++ strings.Join env.Lifecycles ","))
    ∧ (∀ cmd ∈ (RunUpdateCluster env c).engineCalls, ∀ entry ∈ c.LifecycleOverrides,
        ∃ task name, strings.Split entry '=' = [task, name]
          ∧ name ∈ GoMap.keys env.LifecycleNameMap) := by
  refine ⟨?_, ?_, ?_, ?_⟩
  · intro entry
    constructor
    · rintro ⟨m, hm⟩
      exact lifecycleOverrides_ok_wellFormed env _ _ _ _ hm entry (List.mem_singleton.mpr rfl)
    · intro hwf
      exact lifecycleOverrides_total env _ [entry] [] (fun e he => by
        rw [List.mem_singleton.mp he]; exact hwf)
  · intro name policy hname hreg
    have hs : strings.Split ("=" ++ name) '=' = ["", name] := by
      have hd : ("=" ++ name).data = '=' :: name.data := rfl
      simp [strings.Split, hd, strings.splitChars, strings.splitChars_of_not_mem _ _ hname]
    rw [lifecycleOverrides_cons_ok env _ _ [] [] "" name policy hs hreg]
    simp [lifecycleOverrides, GoMap.set]
  · intro task htask hreg
    have hs : strings.Split (task ++ "=") '=' = [task, ""] := by
      have hd : (task ++ "=").data = task.data ++ ['='] := rfl
      simp [strings.Split, hd, strings.splitChars_append_sep _ _ htask]
    exact lifecycleOverrides_unknown env _ [] (task ++ "=") [] task "" hs hreg []
      (fun e he => by simp at he)
  · intro cmd hcmd entry he
    obtain ⟨_, _, _, _, _, _, m, _, _, _, _, hl, _⟩ := RunUpdateCluster.engine_inv env c cmd hcmd
    obtain ⟨task, name, policy, hs, hp⟩ :=
      lifecycleOverrides_ok_wellFormed env _ _ _ _ hl entry he
    exact ⟨task, name, hs, (GoMap.mem_keys_iff _ _).mpr ⟨policy, hp⟩⟩

/-- C15 amended, at the sample registry: "=Ignore" is accepted with the empty
task name and "A=" is rejected. -/
theorem override_empty_segments_witness :
    lifecycleOverrides Sample.env UpdateClusterResults.empty ["=" ++ "Ignore"] []
        = .ok [("", "Ignore")]
    ∧ lifecycleOverrides Sample.env UpdateClusterResults.empty ["A" ++ "="] []
        = .error (none,
            "unknown lifecycle \"\", available lifecycle: ExistsAndValidates,ExistsAndWarnIfChanges,Ignore,Sync") :=
  ⟨(override_empty_segments Sample.env Sample.emptyTask).2.1 "Ignore" "Ignore" (by decide) rfl,
   (override_empty_segments Sample.env Sample.emptyTask).2.2.1 "A" (by decide) rfl⟩

/-! ## The four ways an apply-mode run ends -/

/-- The lookup logs nothing but its own warning. -/
theorem RunUpdateCluster.lookup_mem (env : Env) (cluster : kops.Cluster) (e : Event)
    (he : e ∈ (RunUpdateCluster.lookup env cluster).2) :
    ∃ err, hasKubecfg env cluster.ObjectMeta.Name = .error err
      ∧ e = .klog .warning ("error reading kubecfg: " ++ err) := by
  unfold RunUpdateCluster.lookup at he
  cases h : hasKubecfg env cluster.ObjectMeta.Name with
  | error err =>
    simp [h] at he
    exact ⟨err, rfl, he⟩
  | ok found => simp [h] at he

/-- An apply-mode run whose engine call succeeds ends in one of four ways:
without kubeconfig (`CreateKubecfg` false), on the error of the kubeconfig
builder, on the error of the kubeconfig writer, or with the kubeconfig written;
in the first and the last way the narrative stage follows. -/
theorem RunUpdateCluster.apply_run_cases (env : Env) (c : UpdateClusterOptions)
    (cmd : cloudup.ApplyClusterCmd) (ran : cloudup.ApplyClusterOutput)
    (hcmd : cmd ∈ (RunUpdateCluster env c).engineCalls) (hd : cmd.DryRun = false)
    (hok : env.ApplyClusterCmdRun cmd = .ok ran) :
    ∃ keyStore secretStore authorized,
      ((RunUpdateCluster.resolved env c).CreateKubecfg = false
        ∧ RunUpdateCluster env c
          = Run.after
              (RunUpdateCluster.bootstrap env c cmd.Cluster authorized
                ++ [.ApplyClusterCmdRun cmd])
              (RunUpdateCluster.narrate env (RunUpdateCluster.resolved env c) false
                { Target := ran.Target, TaskMap := ran.TaskMap, ImageAssets := ran.ImageAssets,
                  FileAssets := ran.FileAssets, Cluster := some cmd.Cluster }
                false cmd.Cluster ran.InstanceGroups))
      ∨ ((RunUpdateCluster.resolved env c).CreateKubecfg = true
        ∧ ∃ err, env.BuildKubecfg (RunUpdateCluster.kubecfgArgs env
              (RunUpdateCluster.resolved env c) cmd.Cluster keyStore secretStore cmd.Cloud)
            = .error err
          ∧ RunUpdateCluster env c
            = ⟨RunUpdateCluster.resolved env c,
                RunUpdateCluster.bootstrap env c cmd.Cluster authorized
                  ++ [.ApplyClusterCmdRun cmd]
                  ++ [.GetConfig] ++ (RunUpdateCluster.lookup env cmd.Cluster).2
                  ++ [.klog .info "Exporting kubeconfig for cluster",
                      .BuildKubecfg (RunUpdateCluster.kubecfgArgs env
                        (RunUpdateCluster.resolved env c) cmd.Cluster keyStore secretStore
                        cmd.Cloud)],
                .returned none (some err)⟩)
      ∨ ((RunUpdateCluster.resolved env c).CreateKubecfg = true
        ∧ ∃ conf err, env.BuildKubecfg (RunUpdateCluster.kubecfgArgs env
              (RunUpdateCluster.resolved env c) cmd.Cluster keyStore secretStore cmd.Cloud)
            = .ok conf
          ∧ env.WriteKubecfg conf = some err
          ∧ RunUpdateCluster env c
            = ⟨RunUpdateCluster.resolved env c,
                RunUpdateCluster.bootstrap env c cmd.Cluster authorized
                  ++ [.ApplyClusterCmdRun cmd]
                  ++ [.GetConfig] ++ (RunUpdateCluster.lookup env cmd.Cluster).2
                  ++ [.klog .info "Exporting kubeconfig for cluster",
                      .BuildKubecfg (RunUpdateCluster.kubecfgArgs env
                        (RunUpdateCluster.resolved env c) cmd.Cluster keyStore secretStore
                        cmd.Cloud),
                      .WriteKubecfg conf],
                .returned none (some err)⟩)
      ∨ ((RunUpdateCluster.resolved env c).CreateKubecfg = true
        ∧ ∃ conf, env.BuildKubecfg (RunUpdateCluster.kubecfgArgs env
              (RunUpdateCluster.resolved env c) cmd.Cluster keyStore secretStore cmd.Cloud)
            = .ok conf
          ∧ env.WriteKubecfg conf = none
          ∧ RunUpdateCluster env c
            = Run.after
                (RunUpdateCluster.bootstrap env c cmd.Cluster authorized
                  ++ [.ApplyClusterCmdRun cmd]
                  ++ [.GetConfig] ++ (RunUpdateCluster.lookup env cmd.Cluster).2
                  ++ [.klog .info "Exporting kubeconfig for cluster",
                      .BuildKubecfg (RunUpdateCluster.kubecfgArgs env
                        (RunUpdateCluster.resolved env c) cmd.Cluster keyStore secretStore
                        cmd.Cloud),
                      .WriteKubecfg conf]
                  ++ RunUpdateCluster.advisory (RunUpdateCluster.resolved env c))
                (RunUpdateCluster.narrate env (RunUpdateCluster.resolved env c) false
                  { Target := ran.Target, TaskMap := ran.TaskMap,
                    ImageAssets := ran.ImageAssets, FileAssets := ran.FileAssets,
                    Cluster := some cmd.Cluster }
                  (RunUpdateCluster.lookup env cmd.Cluster).1 cmd.Cluster
                  ran.InstanceGroups)) := by
  obtain ⟨_, keyStore, secretStore, authorized, hrun⟩ :=
    RunUpdateCluster.apply_run env c cmd ran hcmd hd hok
  refine ⟨keyStore, secretStore, authorized, ?_⟩
  cases hk : (RunUpdateCluster.resolved env c).CreateKubecfg with
  | false =>
    left
    refine ⟨rfl, ?_⟩
    rw [hrun, RunUpdateCluster.exportKubecfg_skip env _ _ _ _ _ _ _ hk]
  | true =>
    right
    cases hb : env.BuildKubecfg (RunUpdateCluster.kubecfgArgs env
        (RunUpdateCluster.resolved env c) cmd.Cluster keyStore secretStore cmd.Cloud) with
    | error err =>
      left
      refine ⟨rfl, err, rfl, ?_⟩
      rw [hrun, RunUpdateCluster.exportKubecfg_build_error env _ _ _ _ _ _ _ err hk hb]
      simp [Run.after]
    | ok conf =>
      right
      cases hw : env.WriteKubecfg conf with
      | some err =>
        left
        refine ⟨rfl, conf, err, rfl, hw, ?_⟩
        rw [hrun, RunUpdateCluster.exportKubecfg_write_error env _ _ _ _ _ _ _ conf err hk hb hw]
        simp [Run.after]
      | none =>
        right
        refine ⟨rfl, conf, rfl, hw, ?_⟩
        rw [hrun, RunUpdateCluster.exportKubecfg_done env _ _ _ _ _ _ _ conf hk hb hw]
        simp [Run.after]

/-! ## Advisory on a kubeconfig without credentials (C16) -/

/-- Two strings that differ within their first `n` characters differ. -/
theorem strings.ne_of_take (n : Nat) (a b : String) (h : a.data.take n ≠ b.data.take n) :
    a ≠ b := by
  intro hab
  exact h (by rw [hab])

/-- C16, as stated, fails: at the confirmed sample request with `--internal` the
kubeconfig is exported, one of the three identity options is set, and the
advisory is logged all the same. -/
theorem no_auth_advisory_counterexample :
    Sample.internalOnly.internal = true
    ∧ Event.WriteKubecfg ⟨6⟩ ∈ (RunUpdateCluster Sample.env Sample.internalOnly).trace
    ∧ Sample.env.WriteKubecfg ⟨6⟩ = none
    ∧ Event.klog .warning
        "Exported kubeconfig with no user authentication; use --admin, --user or --auth-plugin flags with `kops export kubeconfig`"
        ∈ (RunUpdateCluster Sample.env Sample.internalOnly).trace := by
  refine ⟨rfl, by decide, rfl, by decide⟩

/-- C16 amended: in an apply-mode run in which the kubeconfig is written, the
advisory "Exported kubeconfig with no user authentication" is logged exactly
when `admin` is zero and `user` is empty, whatever `internal` is. The advisory
does not end the run: the narrative is written after it, and the run returns
the results unless writing the narrative fails. -/
theorem no_auth_advisory (env : Env) (c : UpdateClusterOptions)
    (cmd : cloudup.ApplyClusterCmd) (ran : cloudup.ApplyClusterOutput)
    (conf : kubeconfig.KubeconfigBuilder)
    (hcmd : cmd ∈ (RunUpdateCluster env c).engineCalls) (hd : cmd.DryRun = false)
    (hok : env.ApplyClusterCmdRun cmd = .ok ran)
    (hw : Event.WriteKubecfg conf ∈ (RunUpdateCluster env c).trace)
    (hwok : env.WriteKubecfg conf = none) :
    (Event.klog .warning
        "Exported kubeconfig with no user authentication; use --admin, --user or --auth-plugin flags with `kops export kubeconfig`"
        ∈ (RunUpdateCluster env c).trace
      ↔ c.admin = 0 ∧ c.user = "")
    ∧ ∃ firstRun,
        Event.Write (String.join (narrative env (RunUpdateCluster.resolved env c) firstRun
            cmd.Cluster ran.InstanceGroups)) ∈ (RunUpdateCluster env c).trace
        ∧ (env.OutWrite (String.join (narrative env (RunUpdateCluster.resolved env c) firstRun
              cmd.Cluster ran.InstanceGroups)) = none →
            (RunUpdateCluster env c).outcome
              = .returned (some { Target := ran.Target, TaskMap := ran.TaskMap,
                                  ImageAssets := ran.ImageAssets, FileAssets := ran.FileAssets,
                                  Cluster := some cmd.Cluster }) none) := by
  have hboot : ∀ authorized, ∀ e ∈ RunUpdateCluster.bootstrap env c cmd.Cluster authorized,
      e.isKubecfg = false ∧ ∀ text, e ≠ .klog .warning text := by
    intro authorized e he
    refine ⟨RunUpdateCluster.bootstrap_no_kubecfg env c _ _ e he, ?_⟩
    intro text heq
    subst heq
    rcases RunUpdateCluster.bootstrap_mem env c _ _ _ he with ⟨t, ht⟩ | hmem
    · simp at ht
    · simp at hmem
  have hlook : ∀ e ∈ (RunUpdateCluster.lookup env cmd.Cluster).2,
      e.isKubecfg = false ∧ e ≠ .klog .warning
        "Exported kubeconfig with no user authentication; use --admin, --user or --auth-plugin flags with `kops export kubeconfig`" := by
    intro e he
    obtain ⟨err, _, rfl⟩ := RunUpdateCluster.lookup_mem env _ e he
    refine ⟨rfl, ?_⟩
    intro heq
    simp only [Event.klog.injEq, true_and] at heq
    exact strings.ne_of_take 1 _ _ (by simp) heq
  obtain ⟨keyStore, secretStore, authorized, hcase⟩ :=
    RunUpdateCluster.apply_run_cases env c cmd ran hcmd hd hok
  rcases hcase with ⟨_, hrun⟩ | ⟨_, err, _, hrun⟩ | ⟨_, conf', err, _, hw', hrun⟩
    | ⟨_, conf', _, hw', hrun⟩
  · exfalso
    rw [hrun, RunUpdateCluster.narrate_apply] at hw
    simp only [Run.after_trace, List.mem_append, List.mem_singleton] at hw
    rcases hw with (hw | hw) | hw
    · exact absurd (hboot authorized _ hw).1 (by simp [Event.isKubecfg])
    · simp at hw
    · simp at hw
  · exfalso
    rw [hrun] at hw
    simp only [List.mem_append, List.mem_singleton, List.mem_cons] at hw
    rcases hw with (((hw | hw) | hw) | hw) | hw
    · exact absurd (hboot authorized _ hw).1 (by simp [Event.isKubecfg])
    · simp at hw
    · simp at hw
    · exact absurd (hlook _ hw).1 (by simp [Event.isKubecfg])
    · simp at hw
  · exfalso
    rw [hrun] at hw
    simp only [List.mem_append, List.mem_singleton, List.mem_cons] at hw
    rcases hw with (((hw | hw) | hw) | hw) | hw
    · exact absurd (hboot authorized _ hw).1 (by simp [Event.isKubecfg])
    · simp at hw
    · simp at hw
    · exact absurd (hlook _ hw).1 (by simp [Event.isKubecfg])
    · simp at hw
      subst hw
      rw [hwok] at hw'
      simp at hw'
  · refine ⟨?_, (RunUpdateCluster.lookup env cmd.Cluster).1, ?_, ?_⟩
    · rw [hrun, RunUpdateCluster.narrate_apply]
      simp only [Run.after_trace, List.mem_append, List.mem_singleton, List.mem_cons]
      constructor
      · rintro ((((((h | h) | h) | h) | h) | h) | h)
        · exact absurd rfl ((hboot authorized _ h).2 _)
        · simp at h
        · simp at h
        · exact absurd rfl (hlook _ h).2
        · simp at h
        · unfold RunUpdateCluster.advisory at h
          split at h
          · assumption
          · simp at h
        · simp at h
      · intro hcond
        left; right
        have hcond' : (RunUpdateCluster.resolved env c).admin = 0
            ∧ (RunUpdateCluster.resolved env c).user = "" := hcond
        simp [RunUpdateCluster.advisory, hcond']
    · rw [hrun, RunUpdateCluster.narrate_apply]
      simp
    · intro hout
      rw [hrun, RunUpdateCluster.narrate_apply]
      simp [hout]

/-- C16 amended, at the confirmed sample request with `--internal`: the advisory
is logged, because `admin` is zero and `user` is empty. -/
theorem no_auth_advisory_witness :
    Event.klog .warning
        "Exported kubeconfig with no user authentication; use --admin, --user or --auth-plugin flags with `kops export kubeconfig`"
        ∈ (RunUpdateCluster Sample.env Sample.internalOnly).trace :=
  (no_auth_advisory Sample.env Sample.internalOnly Sample.applyCmd Sample.applied ⟨6⟩
    (by decide) rfl rfl (by decide) rfl).1.mpr ⟨rfl, rfl⟩

/-! ## What a run writes -/

/-- In dry-run mode the stage after the engine call writes nothing but one of
the two reports. -/
theorem RunUpdateCluster.report_dry_writes (env : Env) (c : UpdateClusterOptions)
    (results : UpdateClusterResults) (cluster : kops.Cluster) (keyStore : fi.CAStore)
    (secretStore : fi.SecretStore) (cloud : fi.Cloud)
    (answer : Except String cloudup.ApplyClusterOutput) :
    ∀ text ∈ writesOf (RunUpdateCluster.report env c true results cluster keyStore secretStore
        cloud answer).trace,
      text = "Must specify --yes to apply changes\n" ∨ text = "No changes need to be applied\n" := by
  unfold RunUpdateCluster.report RunUpdateCluster.exportKubecfg RunUpdateCluster.narrate
  dsimp only
  repeat' split
  all_goals simp_all [writesOf]

/-- A run in which the engine is not run writes nothing but the deprecation
notice of `--ssh-public-key`. -/
theorem RunUpdateCluster.writes_of_no_engine (env : Env) (c : UpdateClusterOptions)
    (h : (RunUpdateCluster env c).engineCalls = []) :
    ∀ text ∈ writesOf (RunUpdateCluster env c).trace,
      ∃ cluster, env.GetCluster c.ClusterName = .ok cluster
        ∧ text = RunUpdateCluster.deprecation cluster := by
  have hlogs : writesOf (impliedCreateKubecfg c).2 = [] :=
    writesOf_of_logs _ (impliedCreateKubecfg_logs c)
  unfold Run.engineCalls at h
  unfold RunUpdateCluster at h ⊢
  by_cases hconf : c.admin ≠ 0 ∧ c.user ≠ ""
  · simp [hconf, writesOf]
  · simp only [hconf, if_false] at h ⊢
    unfold RunUpdateCluster.stores RunUpdateCluster.sshPublicKey
      RunUpdateCluster.plan RunUpdateCluster.apply at h ⊢
    dsimp only at h ⊢
    repeat' split at h
    all_goals simp_all [engineCallsOf, engineCallsOf_append, writesOf, writesOf_append,
      RunUpdateCluster.deprecation]


/-- The lookup only logs. -/
theorem RunUpdateCluster.lookup_logs (env : Env) (cluster : kops.Cluster) :
    ∀ e ∈ (RunUpdateCluster.lookup env cluster).2, e.isLog = true := by
  intro e he
  obtain ⟨err, _, rfl⟩ := RunUpdateCluster.lookup_mem env cluster e he
  rfl

/-- The advisory only logs. -/
theorem RunUpdateCluster.advisory_logs (c : UpdateClusterOptions) :
    ∀ e ∈ RunUpdateCluster.advisory c, e.isLog = true := by
  unfold RunUpdateCluster.advisory
  split <;> simp [Event.isLog]

/-- What an apply-mode run whose engine call succeeds writes: the deprecation
notice when a key path is given, then the narrative, with `firstRun` the answer
of the lookup when `CreateKubecfg` holds and false otherwise. The narrative is
missing only when the kubeconfig builder or writer fails, and the run then
returns that error. -/
theorem RunUpdateCluster.apply_run_writes (env : Env) (c : UpdateClusterOptions)
    (cmd : cloudup.ApplyClusterCmd) (ran : cloudup.ApplyClusterOutput)
    (hcmd : cmd ∈ (RunUpdateCluster env c).engineCalls) (hd : cmd.DryRun = false)
    (hok : env.ApplyClusterCmdRun cmd = .ok ran) :
    (writesOf (RunUpdateCluster env c).trace
        = (if c.SSHPublicKey = "" then [] else [RunUpdateCluster.deprecation cmd.Cluster])
          ++ [String.join (narrative env (RunUpdateCluster.resolved env c)
                ((RunUpdateCluster.resolved env c).CreateKubecfg
                  && (RunUpdateCluster.lookup env cmd.Cluster).1)
                cmd.Cluster ran.InstanceGroups)]
      ∧ ((RunUpdateCluster.resolved env c).CreateKubecfg = false
          ∨ ∃ conf, Event.WriteKubecfg conf ∈ (RunUpdateCluster env c).trace
              ∧ env.WriteKubecfg conf = none))
    ∨ (writesOf (RunUpdateCluster env c).trace
        = (if c.SSHPublicKey = "" then [] else [RunUpdateCluster.deprecation cmd.Cluster])
      ∧ (RunUpdateCluster.resolved env c).CreateKubecfg = true
      ∧ ∃ args err, Event.BuildKubecfg args ∈ (RunUpdateCluster env c).trace
          ∧ (env.BuildKubecfg args = .error err
              ∨ ∃ conf, env.BuildKubecfg args = .ok conf ∧ env.WriteKubecfg conf = some err)
          ∧ (RunUpdateCluster env c).outcome = .returned none (some err)) := by
  have hl := writesOf_of_logs _ (RunUpdateCluster.lookup_logs env cmd.Cluster)
  have ha := writesOf_of_logs _
    (RunUpdateCluster.advisory_logs (RunUpdateCluster.resolved env c))
  obtain ⟨keyStore, secretStore, authorized, hcase⟩ :=
    RunUpdateCluster.apply_run_cases env c cmd ran hcmd hd hok
  rcases hcase with ⟨hk, hrun⟩ | ⟨hk, err, hb, hrun⟩ | ⟨hk, conf, err, hb, hw, hrun⟩
    | ⟨hk, conf, hb, hw, hrun⟩
  · left
    refine ⟨?_, Or.inl hk⟩
    rw [hrun, RunUpdateCluster.narrate_apply]
    simp [writesOf_append, RunUpdateCluster.bootstrap_writes, writesOf, hk]
  · right
    refine ⟨?_, hk, _, err, ?_, Or.inl hb, ?_⟩
    · rw [hrun]
      simp [writesOf_append, RunUpdateCluster.bootstrap_writes, writesOf, hl]
    · rw [hrun]
      simp
    · rw [hrun]
  · right
    refine ⟨?_, hk, _, err, ?_, Or.inr ⟨conf, hb, hw⟩, ?_⟩
    · rw [hrun]
      simp [writesOf_append, RunUpdateCluster.bootstrap_writes, writesOf, hl]
    · rw [hrun]
      simp
    · rw [hrun]
  · left
    refine ⟨?_, Or.inr ⟨conf, ?_, hw⟩⟩
    · rw [hrun, RunUpdateCluster.narrate_apply]
      simp [writesOf_append, RunUpdateCluster.bootstrap_writes, writesOf, hl, ha, hk]
    · rw [hrun]
      simp

/-! ## When the narrative is written (C13) -/

set_option maxRecDepth 8192 in
/-- C13, as stated, fails: the confirmed sample request with GetAssets true runs
in apply mode and the narrative is written to the output. -/
theorem narrative_in_apply_mode_counterexample :
    Sample.assetsApply.GetAssets = true
    ∧ (RunUpdateCluster Sample.env Sample.assetsApply).engineCalls = [Sample.assetsCmd]
    ∧ (RunUpdateCluster Sample.env Sample.assetsApply).output
        = "\nCluster is starting.  It should be ready in a few minutes.\n\nSuggestions:\n * validate cluster: kops validate cluster --wait 10m\n * list nodes: kubectl get nodes --show-labels\n * ssh to the master: ssh -i ~/.ssh/id_rsa ubuntu@api.k8s.example.com\n * the ubuntu user is specific to Ubuntu. If not using Ubuntu please use the appropriate user based on your OS.\n * read about installing addons at: https://kops.sigs.k8s.io/operations/addons.\n\n" :=
  ⟨rfl, by decide, rfl⟩

/-- C13 amended: the narrative is written when the resolved mode is Apply,
whatever GetAssets is. In every request that resolves to a dry run, each text
written to the output is the deprecation notice of `--ssh-public-key` or one of
the two dry-run reports, so no narrative text is written. In every apply-mode
run whose engine call succeeds the narrative is written, unless the kubeconfig
builder or writer fails and the run returns that error. -/
theorem narrative_in_apply_mode (env : Env) (c : UpdateClusterOptions) :
    ((resolveTarget c).1 = true →
      ∀ text ∈ writesOf (RunUpdateCluster env c).trace,
        (∃ cluster, env.GetCluster c.ClusterName = .ok cluster
          ∧ text = "--ssh-public-key on update is deprecated - please use `kops create secret --name "
              ++ cluster.ObjectMeta.Name
              ++ " sshpublickey admin -i ~/.ssh/id_rsa.pub` instead\n")
        ∨ text = "Must specify --yes to apply changes\n"
        ∨ text = "No changes need to be applied\n")
    ∧ ∀ cmd ∈ (RunUpdateCluster env c).engineCalls, cmd.DryRun = false →
        ∀ ran, env.ApplyClusterCmdRun cmd = .ok ran →
          (∃ firstRun, String.join (narrative env (RunUpdateCluster.resolved env c) firstRun
              cmd.Cluster ran.InstanceGroups) ∈ writesOf (RunUpdateCluster env c).trace)
          ∨ ∃ args err, Event.BuildKubecfg args ∈ (RunUpdateCluster env c).trace
              ∧ (env.BuildKubecfg args = .error err
                  ∨ ∃ conf, env.BuildKubecfg args = .ok conf ∧ env.WriteKubecfg conf = some err)
              ∧ (RunUpdateCluster env c).outcome = .returned none (some err) := by
  constructor
  · intro hdry text htext
    by_cases hno : (RunUpdateCluster env c).engineCalls = []
    · left
      exact RunUpdateCluster.writes_of_no_engine env c hno text htext
    · obtain ⟨cmd, hcmd⟩ := List.exists_mem_of_ne_nil _ hno
      obtain ⟨_, cluster, clientset, keyStore, secretStore, phase, m, cloud, authorized, hget,
        _, _, _, hrun⟩ := RunUpdateCluster.engine_inv env c cmd hcmd
      rw [hrun, hdry] at htext
      simp only [Run.after_trace, writesOf_append, RunUpdateCluster.bootstrap_writes, writesOf,
        List.append_nil, List.mem_append] at htext
      rcases htext with htext | htext
      · left
        refine ⟨cluster, hget, ?_⟩
        split at htext
        · simp at htext
        · simpa [RunUpdateCluster.deprecation] using htext
      · right
        exact RunUpdateCluster.report_dry_writes env _ _ _ _ _ _ _ text htext
  · intro cmd hcmd hd ran hok
    rcases RunUpdateCluster.apply_run_writes env c cmd ran hcmd hd hok with
      ⟨hw, _⟩ | ⟨_, _, args, err, hb, hfail, hout⟩
    · left
      refine ⟨(RunUpdateCluster.resolved env c).CreateKubecfg
        && (RunUpdateCluster.lookup env cmd.Cluster).1, ?_⟩
      rw [hw]
      simp
    · right
      exact ⟨args, err, hb, hfail, hout⟩

/-- C13 amended, at the confirmed sample request with GetAssets true: the
narrative of a first run is among the texts written. -/
theorem narrative_in_apply_mode_witness :
    ∃ firstRun, String.join (narrative Sample.env
        (RunUpdateCluster.resolved Sample.env Sample.assetsApply) firstRun Sample.cluster
        Sample.applied.InstanceGroups)
      ∈ writesOf (RunUpdateCluster Sample.env Sample.assetsApply).trace := by
  rcases (narrative_in_apply_mode Sample.env Sample.assetsApply).2 Sample.assetsCmd (by decide) rfl
    Sample.applied rfl with h | ⟨args, err, _, hfail, _⟩
  · exact h
  · rcases hfail with hb | ⟨conf, _, hw⟩
    · exact absurd hb (by simp [Sample.env])
    · exact absurd hw (by simp [Sample.env])

/-! ## SSH hint of a first run (C14) -/

/-- Source `usesBastion` answers true exactly when some group has the role
Bastion. -/
theorem usesBastion_iff (igs : List kops.InstanceGroup) :
    usesBastion igs = true ↔ ∃ ig ∈ igs, ig.Spec.Role = "Bastion" := by
  simp [usesBastion, kops.InstanceGroupRoleBastion]

/-- Source `findBastionPublicName` answers the empty string exactly when the
topology or the bastion is absent, or the name is empty. -/
theorem findBastionPublicName_eq_empty (cluster : kops.Cluster) :
    findBastionPublicName cluster = ""
      ↔ cluster.Spec.Topology = none
        ∨ (∃ topology, cluster.Spec.Topology = some topology ∧ topology.Bastion = none)
        ∨ (∃ topology bastion, cluster.Spec.Topology = some topology
            ∧ topology.Bastion = some bastion ∧ bastion.BastionPublicName = "") := by
  unfold findBastionPublicName
  cases ht : cluster.Spec.Topology with
  | none => simp
  | some topology =>
    cases hb : topology.Bastion with
    | none => simp [hb]
    | some bastion => simp [hb]

/-- Source `findBastionPublicName` answers the public name of the bastion of the
topology when the cluster has both. -/
theorem findBastionPublicName_of_bastion (cluster : kops.Cluster)
    (topology : kops.TopologySpec) (bastion : kops.BastionSpec)
    (ht : cluster.Spec.Topology = some topology) (hb : topology.Bastion = some bastion) :
    findBastionPublicName cluster = bastion.BastionPublicName := by
  simp [findBastionPublicName, ht, hb]

/-- C14: for a request with target "direct" the narrative of a first run is the
"Cluster is starting" message, then the suggestions, among which exactly one
piece is an SSH hint. That hint is the ssh-to-bastion command on the public
name of the bastion of the cluster topology when some instance group has the
role Bastion and that name is not empty; the prompt to configure a
bastionPublicName when some group has the role Bastion and the cluster has no
topology, or its topology no bastion, or its bastion an empty public name; and
the ssh-to-master command on the master public name when no group has the role
Bastion. When some group has the role Bastion no ssh-to-master piece is in the
narrative. Every text an apply-mode run writes, besides the deprecation notice,
is such a narrative, on the cluster fetched and the instance groups of the
engine. -/
theorem ssh_hint (env : Env) (c : UpdateClusterOptions) (ht : c.Target = "direct") :
    (∀ cluster igs, ∃ hint,
      narrative env (RunUpdateCluster.resolved env c) true cluster igs
        = ["\n", "Cluster is starting.  It should be ready in a few minutes.\n", "\n",
           "Suggestions:\n",
           " * validate cluster: kops validate cluster --wait 10m\n",
           " * list nodes: kubectl get nodes --show-labels\n",
           hint,
           " * the ubuntu user is specific to Ubuntu. If not using Ubuntu please use the appropriate user based on your OS.\n",
           " * read about installing addons at: https://kops.sigs.k8s.io/operations/addons.\n",
           "\n"]
      ∧ ((∃ ig ∈ igs, ig.Spec.Role = "Bastion") →
          ∀ topology bastion, cluster.Spec.Topology = some topology →
            topology.Bastion = some bastion → bastion.BastionPublicName ≠ "" →
            hint = " * ssh to the bastion: ssh -A -i ~/.ssh/id_rsa ubuntu@"
              ++ bastion.BastionPublicName ++ "\n")
      ∧ ((∃ ig ∈ igs, ig.Spec.Role = "Bastion") →
          (cluster.Spec.Topology = none
            ∨ (∃ topology, cluster.Spec.Topology = some topology ∧ topology.Bastion = none)
            ∨ (∃ topology bastion, cluster.Spec.Topology = some topology
                ∧ topology.Bastion = some bastion ∧ bastion.BastionPublicName = "")) →
          hint = " * to ssh to the bastion, you probably want to configure a bastionPublicName.\n")
      ∧ ((¬ ∃ ig ∈ igs, ig.Spec.Role = "Bastion") →
          hint = " * ssh to the master: ssh -i ~/.ssh/id_rsa ubuntu@"
            ++ cluster.Spec.MasterPublicName ++ "\n")
      ∧ ((∃ ig ∈ igs, ig.Spec.Role = "Bastion") →
          ∀ name, " * ssh to the master: ssh -i ~/.ssh/id_rsa ubuntu@" ++ name ++ "\n"
            ∉ narrative env (RunUpdateCluster.resolved env c) true cluster igs))
    ∧ ∀ cmd ∈ (RunUpdateCluster env c).engineCalls, cmd.DryRun = false →
        ∀ ran, env.ApplyClusterCmdRun cmd = .ok ran →
          ∀ text ∈ writesOf (RunUpdateCluster env c).trace,
            text = RunUpdateCluster.deprecation cmd.Cluster
            ∨ ∃ firstRun, text = String.join (narrative env (RunUpdateCluster.resolved env c)
                firstRun cmd.Cluster ran.InstanceGroups) := by
  have ht' : (RunUpdateCluster.resolved env c).Target = "direct" := ht
  constructor
  · intro cluster igs
    by_cases hb : usesBastion igs = true
    · have hex := (usesBastion_iff igs).mp hb
      by_cases hn : findBastionPublicName cluster = ""
      · refine ⟨" * to ssh to the bastion, you probably want to configure a bastionPublicName.\n",
          ?_, ?_, fun _ _ => rfl, fun h => absurd hex h, ?_⟩
        · simp [narrative, ht', hb, hn, cloudup.TargetTerraform, cloudup.TargetCloudformation]
        · intro _ topology bastion htop hbast hname
          rw [findBastionPublicName_of_bastion cluster topology bastion htop hbast] at hn
          exact absurd hn hname
        · intro _ name hmem
          have heq : narrative env (RunUpdateCluster.resolved env c) true cluster igs
              = ["\n", "Cluster is starting.  It should be ready in a few minutes.\n", "\n",
                 "Suggestions:\n",
                 " * validate cluster: kops validate cluster --wait 10m\n",
                 " * list nodes: kubectl get nodes --show-labels\n",
                 " * to ssh to the bastion, you probably want to configure a bastionPublicName.\n",
                 " * the ubuntu user is specific to Ubuntu. If not using Ubuntu please use the appropriate user based on your OS.\n",
                 " * read about installing addons at: https://kops.sigs.k8s.io/operations/addons.\n",
                 "\n"] := by
            simp [narrative, ht', hb, hn, cloudup.TargetTerraform, cloudup.TargetCloudformation]
          rw [heq] at hmem
          simp only [List.mem_cons, List.mem_singleton, List.not_mem_nil, or_false] at hmem
          rcases hmem with h | h | h | h | h | h | h | h | h | h <;>
            exact absurd h (strings.ne_of_take 15 _ _ (by simp))
      · refine ⟨" * ssh to the bastion: ssh -A -i ~/.ssh/id_rsa ubuntu@"
            ++ findBastionPublicName cluster ++ "\n",
          ?_, ?_, fun _ h => absurd ((findBastionPublicName_eq_empty cluster).mpr h) hn,
          fun h => absurd hex h, ?_⟩
        · simp [narrative, ht', hb, hn, cloudup.TargetTerraform, cloudup.TargetCloudformation]
        · intro _ topology bastion htop hbast _
          rw [findBastionPublicName_of_bastion cluster topology bastion htop hbast]
        · intro _ name hmem
          have heq : narrative env (RunUpdateCluster.resolved env c) true cluster igs
              = ["\n", "Cluster is starting.  It should be ready in a few minutes.\n", "\n",
                 "Suggestions:\n",
                 " * validate cluster: kops validate cluster --wait 10m\n",
                 " * list nodes: kubectl get nodes --show-labels\n",
                 " * ssh to the bastion: ssh -A -i ~/.ssh/id_rsa ubuntu@"
                   ++ findBastionPublicName cluster ++ "\n",
                 " * the ubuntu user is specific to Ubuntu. If not using Ubuntu please use the appropriate user based on your OS.\n",
                 " * read about installing addons at: https://kops.sigs.k8s.io/operations/addons.\n",
                 "\n"] := by
            simp [narrative, ht', hb, hn, cloudup.TargetTerraform, cloudup.TargetCloudformation]
          rw [heq] at hmem
          simp only [List.mem_cons, List.mem_singleton, List.not_mem_nil, or_false] at hmem
          rcases hmem with h | h | h | h | h | h | h | h | h | h <;>
            exact absurd h (strings.ne_of_take 15 _ _ (by simp))
    · have hnex : ¬ ∃ ig ∈ igs, ig.Spec.Role = "Bastion" := fun h => hb ((usesBastion_iff igs).mpr h)
      refine ⟨" * ssh to the master: ssh -i ~/.ssh/id_rsa ubuntu@"
            ++ cluster.Spec.MasterPublicName ++ "\n",
        ?_, fun h => absurd h hnex, fun h => absurd h hnex, fun _ => rfl, fun h => absurd h hnex⟩
      simp [narrative, ht', hb, cloudup.TargetTerraform, cloudup.TargetCloudformation]
  · intro cmd hcmd hd ran hok text htext
    rcases RunUpdateCluster.apply_run_writes env c cmd ran hcmd hd hok with
      ⟨hw, _⟩ | ⟨hw, _⟩
    · rw [hw] at htext
      simp only [List.mem_append, List.mem_singleton] at htext
      rcases htext with htext | htext
      · left
        split at htext
        · simp at htext
        · simpa using htext
      · exact Or.inr ⟨_, htext⟩
    · rw [hw] at htext
      left
      split at htext
      · simp at htext
      · simpa using htext


/-- C14 at the sample cluster with a group of role Bastion: with the bastion
public name bastion.k8s.example.com the hint is the ssh-to-bastion command on
that name; without a topology, and with a bastion without a public name, it is
the prompt to configure one; and with no group of role Bastion it is the
ssh-to-master command on api.k8s.example.com. -/
theorem ssh_hint_witness :
    (∃ hint,
      narrative Sample.env (RunUpdateCluster.resolved Sample.env Sample.internalOnly) true
          Sample.cluster Sample.bastionGroups
        = ["\n", "Cluster is starting.  It should be ready in a few minutes.\n", "\n",
           "Suggestions:\n",
           " * validate cluster: kops validate cluster --wait 10m\n",
           " * list nodes: kubectl get nodes --show-labels\n",
           hint,
           " * the ubuntu user is specific to Ubuntu. If not using Ubuntu please use the appropriate user based on your OS.\n",
           " * read about installing addons at: https://kops.sigs.k8s.io/operations/addons.\n",
           "\n"]
      ∧ hint = " * ssh to the bastion: ssh -A -i ~/.ssh/id_rsa ubuntu@bastion.k8s.example.com\n")
    ∧ (∃ hint,
      narrative Sample.env (RunUpdateCluster.resolved Sample.env Sample.internalOnly) true
          Sample.flatCluster Sample.bastionGroups
        = ["\n", "Cluster is starting.  It should be ready in a few minutes.\n", "\n",
           "Suggestions:\n",
           " * validate cluster: kops validate cluster --wait 10m\n",
           " * list nodes: kubectl get nodes --show-labels\n",
           hint,
           " * the ubuntu user is specific to Ubuntu. If not using Ubuntu please use the appropriate user based on your OS.\n",
           " * read about installing addons at: https://kops.sigs.k8s.io/operations/addons.\n",
           "\n"]
      ∧ hint = " * to ssh to the bastion, you probably want to configure a bastionPublicName.\n")
    ∧ (∃ hint,
      narrative Sample.env (RunUpdateCluster.resolved Sample.env Sample.internalOnly) true
          Sample.unnamedBastion Sample.bastionGroups
        = ["\n", "Cluster is starting.  It should be ready in a few minutes.\n", "\n",
           "Suggestions:\n",
           " * validate cluster: kops validate cluster --wait 10m\n",
           " * list nodes: kubectl get nodes --show-labels\n",
           hint,
           " * the ubuntu user is specific to Ubuntu. If not using Ubuntu please use the appropriate user based on your OS.\n",
           " * read about installing addons at: https://kops.sigs.k8s.io/operations/addons.\n",
           "\n"]
      ∧ hint = " * to ssh to the bastion, you probably want to configure a bastionPublicName.\n")
    ∧ (∃ hint,
      narrative Sample.env (RunUpdateCluster.resolved Sample.env Sample.internalOnly) true
          Sample.cluster Sample.applied.InstanceGroups
        = ["\n", "Cluster is starting.  It should be ready in a few minutes.\n", "\n",
           "Suggestions:\n",
           " * validate cluster: kops validate cluster --wait 10m\n",
           " * list nodes: kubectl get nodes --show-labels\n",
           hint,
           " * the ubuntu user is specific to Ubuntu. If not using Ubuntu please use the appropriate user based on your OS.\n",
           " * read about installing addons at: https://kops.sigs.k8s.io/operations/addons.\n",
           "\n"]
      ∧ hint = " * ssh to the master: ssh -i ~/.ssh/id_rsa ubuntu@api.k8s.example.com\n") := by
  refine ⟨?_, ?_, ?_, ?_⟩
  · obtain ⟨hint, heq, hbastion, _⟩ :=
      (ssh_hint Sample.env Sample.internalOnly rfl).1 Sample.cluster Sample.bastionGroups
    exact ⟨hint, heq,
      hbastion ⟨⟨⟨"Bastion"⟩⟩, by decide, rfl⟩ _ ⟨"bastion.k8s.example.com"⟩ rfl rfl (by decide)⟩
  · obtain ⟨hint, heq, _, hprompt, _⟩ :=
      (ssh_hint Sample.env Sample.internalOnly rfl).1 Sample.flatCluster Sample.bastionGroups
    exact ⟨hint, heq, hprompt ⟨⟨⟨"Bastion"⟩⟩, by decide, rfl⟩ (Or.inl rfl)⟩
  · obtain ⟨hint, heq, _, hprompt, _⟩ :=
      (ssh_hint Sample.env Sample.internalOnly rfl).1 Sample.unnamedBastion Sample.bastionGroups
    exact ⟨hint, heq, hprompt ⟨⟨⟨"Bastion"⟩⟩, by decide, rfl⟩
      (Or.inr (Or.inr ⟨_, ⟨""⟩, rfl, rfl, rfl⟩))⟩
  · obtain ⟨hint, heq, _, _, hmaster, _⟩ :=
      (ssh_hint Sample.env Sample.internalOnly rfl).1 Sample.cluster
        Sample.applied.InstanceGroups
    exact ⟨hint, heq, hmaster (by decide)⟩

/-! ## First-run detection (C18, C19) -/

/-- The narrative of a run that is not a first run holds neither the "Cluster
is starting" message nor the suggestions. -/
theorem narrative_not_first_run (env : Env) (c : UpdateClusterOptions)
    (cluster : kops.Cluster) (igs : List kops.InstanceGroup) :
    "Cluster is starting.  It should be ready in a few minutes.\n"
        ∉ narrative env c false cluster igs
    ∧ "Suggestions:\n" ∉ narrative env c false cluster igs := by
  have hshape : narrative env c false cluster igs
        = ["\n", "Terraform output has been placed into " ++ c.OutDir ++ "\n",
           "\n", "Changes may require instances to restart: kops rolling-update cluster\n", "\n"]
      ∨ narrative env c false cluster igs
        = ["\n", "Cloudformation output has been placed into " ++ c.OutDir ++ "\n",
           "\n", "Changes may require instances to restart: kops rolling-update cluster\n", "\n"]
      ∨ narrative env c false cluster igs
        = ["\n", "Cluster changes have been applied to the cloud.\n", "\n",
           "\n", "Changes may require instances to restart: kops rolling-update cluster\n", "\n"] := by
    have hne : cloudup.TargetCloudformation ≠ cloudup.TargetTerraform := by decide
    by_cases h1 : c.Target = cloudup.TargetTerraform
    · left; simp [narrative, h1]
    · by_cases h2 : c.Target = cloudup.TargetCloudformation
      · right; left; simp [narrative, h2, hne]
      · right; right; simp [narrative, h1, h2]
  constructor
  · intro hmem
    rcases hshape with h | h | h <;> rw [h] at hmem <;>
      simp only [List.mem_cons, List.mem_singleton, List.not_mem_nil, or_false] at hmem
    · rcases hmem with h | h | h | h | h <;>
        exact absurd h (strings.ne_of_take 15 _ _ (by simp))
    · rcases hmem with h | h | h | h | h <;>
        exact absurd h (strings.ne_of_take 15 _ _ (by simp))
    · rcases hmem with h | h | h | h | h | h <;>
        exact absurd h (strings.ne_of_take 15 _ _ (by simp))
  · intro hmem
    rcases hshape with h | h | h <;> rw [h] at hmem <;>
      simp only [List.mem_cons, List.mem_singleton, List.not_mem_nil, or_false] at hmem
    · rcases hmem with h | h | h | h | h <;>
        exact absurd h (strings.ne_of_take 15 _ _ (by simp))
    · rcases hmem with h | h | h | h | h <;>
        exact absurd h (strings.ne_of_take 15 _ _ (by simp))
    · rcases hmem with h | h | h | h | h | h <;>
        exact absurd h (strings.ne_of_take 15 _ _ (by simp))

/-- C18: in an apply-mode run on a machine where the lookup of the kube contexts
fails, the run is not treated as a first run: every text written, besides the
deprecation notice, is the narrative with `firstRun` false, which holds neither
the "Cluster is starting" message nor the suggestions. When the lookup is made
(`CreateKubecfg` holds) its error is logged as a warning and the kubeconfig
builder is called next; the run ends with the narrative written, and then
returns the results unless writing fails, or with the error of the kubeconfig
builder or writer, never with the error of the lookup. -/
theorem lookup_failure_not_first_run (env : Env) (c : UpdateClusterOptions)
    (cmd : cloudup.ApplyClusterCmd) (ran : cloudup.ApplyClusterOutput) (err : String)
    (hcmd : cmd ∈ (RunUpdateCluster env c).engineCalls) (hd : cmd.DryRun = false)
    (hok : env.ApplyClusterCmdRun cmd = .ok ran) (hcfg : env.GetConfig = .error err) :
    (∀ text ∈ writesOf (RunUpdateCluster env c).trace,
        text = RunUpdateCluster.deprecation cmd.Cluster
        ∨ text = String.join (narrative env (RunUpdateCluster.resolved env c) false cmd.Cluster
            ran.InstanceGroups))
    ∧ ((RunUpdateCluster.resolved env c).CreateKubecfg = true →
        Event.klog .warning ("error reading kubecfg: error getting config from kubectl: " ++ err)
            ∈ (RunUpdateCluster env c).trace
        ∧ ∃ args, Event.BuildKubecfg args ∈ (RunUpdateCluster env c).trace)
    ∧ ((String.join (narrative env (RunUpdateCluster.resolved env c) false cmd.Cluster
              ran.InstanceGroups) ∈ writesOf (RunUpdateCluster env c).trace
          ∧ (env.OutWrite (String.join (narrative env (RunUpdateCluster.resolved env c) false
                cmd.Cluster ran.InstanceGroups)) = none →
              (RunUpdateCluster env c).outcome
                = .returned (some { Target := ran.Target, TaskMap := ran.TaskMap,
                                    ImageAssets := ran.ImageAssets,
                                    FileAssets := ran.FileAssets,
                                    Cluster := some cmd.Cluster }) none))
        ∨ ∃ args e, Event.BuildKubecfg args ∈ (RunUpdateCluster env c).trace
            ∧ (env.BuildKubecfg args = .error e
                ∨ ∃ conf, env.BuildKubecfg args = .ok conf ∧ env.WriteKubecfg conf = some e)
            ∧ (RunUpdateCluster env c).outcome = .returned none (some e))
    ∧ "Cluster is starting.  It should be ready in a few minutes.\n"
        ∉ narrative env (RunUpdateCluster.resolved env c) false cmd.Cluster ran.InstanceGroups
    ∧ "Suggestions:\n"
        ∉ narrative env (RunUpdateCluster.resolved env c) false cmd.Cluster
            ran.InstanceGroups := by
  have hlook : RunUpdateCluster.lookup env cmd.Cluster
      = (false, [.klog .warning
          ("error reading kubecfg: error getting config from kubectl: " ++ err)]) := by
    have hstr : "error reading kubecfg: " ++ ("error getting config from kubectl: " ++ err)
        = "error reading kubecfg: error getting config from kubectl: " ++ err := by
      rw [← String.append_assoc]
      rfl
    simp [RunUpdateCluster.lookup, hasKubecfg, hcfg, hstr]
  have hl := writesOf_of_logs _ (RunUpdateCluster.lookup_logs env cmd.Cluster)
  have ha := writesOf_of_logs _
    (RunUpdateCluster.advisory_logs (RunUpdateCluster.resolved env c))
  obtain ⟨hn1, hn2⟩ := narrative_not_first_run env (RunUpdateCluster.resolved env c) cmd.Cluster
    ran.InstanceGroups
  obtain ⟨keyStore, secretStore, authorized, hcase⟩ :=
    RunUpdateCluster.apply_run_cases env c cmd ran hcmd hd hok
  rcases hcase with ⟨hk, hrun⟩ | ⟨hk, e, hb, hrun⟩ | ⟨hk, conf, e, hb, hw, hrun⟩
    | ⟨hk, conf, hb, hw, hrun⟩
  · refine ⟨?_, fun h => absurd h (by simp [hk]), Or.inl ⟨?_, ?_⟩, hn1, hn2⟩
    · intro text htext
      rw [hrun, RunUpdateCluster.narrate_apply] at htext
      simp only [Run.after_trace, writesOf_append, RunUpdateCluster.bootstrap_writes, writesOf,
        List.append_nil, List.mem_append, List.mem_singleton] at htext
      rcases htext with htext | htext
      · left
        split at htext
        · simp at htext
        · simpa using htext
      · exact Or.inr htext
    · rw [hrun, RunUpdateCluster.narrate_apply]
      simp [writesOf_append, writesOf]
    · intro hout
      rw [hrun, RunUpdateCluster.narrate_apply]
      simp [hout]
  · refine ⟨?_, fun _ => ⟨?_, (RunUpdateCluster.kubecfgArgs env (RunUpdateCluster.resolved env c) cmd.Cluster
        keyStore secretStore cmd.Cloud), ?_⟩,
      Or.inr ⟨(RunUpdateCluster.kubecfgArgs env (RunUpdateCluster.resolved env c) cmd.Cluster
        keyStore secretStore cmd.Cloud), e, ?_, Or.inl hb, ?_⟩, hn1, hn2⟩
    · intro text htext
      rw [hrun] at htext
      simp only [writesOf_append, RunUpdateCluster.bootstrap_writes, writesOf, hl,
        List.append_nil, List.mem_append] at htext
      left
      split at htext
      · simp at htext
      · simpa using htext
    · rw [hrun, hlook]; simp
    · rw [hrun]; simp
    · rw [hrun]; simp
    · rw [hrun]
  · refine ⟨?_, fun _ => ⟨?_, (RunUpdateCluster.kubecfgArgs env (RunUpdateCluster.resolved env c) cmd.Cluster
        keyStore secretStore cmd.Cloud), ?_⟩,
      Or.inr ⟨(RunUpdateCluster.kubecfgArgs env (RunUpdateCluster.resolved env c) cmd.Cluster
        keyStore secretStore cmd.Cloud), e, ?_, Or.inr ⟨conf, hb, hw⟩, ?_⟩, hn1, hn2⟩
    · intro text htext
      rw [hrun] at htext
      simp only [writesOf_append, RunUpdateCluster.bootstrap_writes, writesOf, hl,
        List.append_nil, List.mem_append] at htext
      left
      split at htext
      · simp at htext
      · simpa using htext
    · rw [hrun, hlook]; simp
    · rw [hrun]; simp
    · rw [hrun]; simp
    · rw [hrun]
  · have hfr : (RunUpdateCluster.lookup env cmd.Cluster).1 = false := by rw [hlook]
    refine ⟨?_, fun _ => ⟨?_, (RunUpdateCluster.kubecfgArgs env (RunUpdateCluster.resolved env c) cmd.Cluster
        keyStore secretStore cmd.Cloud), ?_⟩,
      Or.inl ⟨?_, ?_⟩, hn1, hn2⟩
    · intro text htext
      rw [hrun, RunUpdateCluster.narrate_apply, hfr] at htext
      simp only [Run.after_trace, writesOf_append, RunUpdateCluster.bootstrap_writes, writesOf,
        hl, ha, List.append_nil, List.mem_append, List.mem_singleton] at htext
      rcases htext with htext | htext
      · left
        split at htext
        · simp at htext
        · simpa using htext
      · exact Or.inr htext
    · rw [hrun, hlook]; simp
    · rw [hrun]; simp
    · rw [hrun, RunUpdateCluster.narrate_apply, hfr]
      simp [writesOf_append, writesOf]
    · intro hout
      rw [hrun, RunUpdateCluster.narrate_apply, hfr]
      simp [hout]


/-- C18 at the confirmed sample request with `--internal`, on a machine whose
kubectl configuration cannot be read: the error is logged as a warning and the
kubeconfig builder is called. -/
theorem lookup_failure_not_first_run_witness :
    Event.klog .warning
        "error reading kubecfg: error getting config from kubectl: open /root/.kube/config: permission denied"
        ∈ (RunUpdateCluster Sample.unreadable Sample.internalOnly).trace
    ∧ ∃ args, Event.BuildKubecfg args
        ∈ (RunUpdateCluster Sample.unreadable Sample.internalOnly).trace :=
  (lookup_failure_not_first_run Sample.unreadable Sample.internalOnly Sample.applyCmd
    Sample.applied "open /root/.kube/config: permission denied" (by decide) rfl rfl rfl).2.1 rfl

set_option maxRecDepth 8192 in
/-- C19, as stated, fails: the confirmed sample request with
`--create-kube-config=false` runs in apply mode with GetAssets false on a
machine where the lookup succeeds and finds no context for the cluster, yet no
lookup is made and the narrative written is the one of a run that is not a first
run. -/
theorem first_run_detection_counterexample :
    Sample.noKubecfg.GetAssets = false
    ∧ (RunUpdateCluster Sample.env Sample.noKubecfg).engineCalls = [Sample.applyCmd]
    ∧ hasKubecfg Sample.env Sample.cluster.ObjectMeta.Name = .ok false
    ∧ Event.GetConfig ∉ (RunUpdateCluster Sample.env Sample.noKubecfg).trace
    ∧ (RunUpdateCluster Sample.env Sample.noKubecfg).output
        = "\nCluster changes have been applied to the cloud.\n\n\nChanges may require instances to restart: kops rolling-update cluster\n\n" :=
  ⟨rfl, by decide, rfl, by decide, rfl⟩

/-- C19 amended: in an apply-mode run on a machine where the lookup of the kube
contexts succeeds, the run is treated as a first run exactly when `CreateKubecfg`
holds after option resolution and no context has the name of the cluster:
with `CreateKubecfg`, every text written besides the deprecation notice is the
narrative whose `firstRun` says that no context has that name, and it is written
whenever the kubeconfig is written; without `CreateKubecfg` no lookup is made
and the narrative written is the one with `firstRun` false. GetAssets plays no
part. -/
theorem first_run_detection (env : Env) (c : UpdateClusterOptions)
    (cmd : cloudup.ApplyClusterCmd) (ran : cloudup.ApplyClusterOutput) (config : kutil.Config)
    (hcmd : cmd ∈ (RunUpdateCluster env c).engineCalls) (hd : cmd.DryRun = false)
    (hok : env.ApplyClusterCmdRun cmd = .ok ran) (hcfg : env.GetConfig = .ok config) :
    ((RunUpdateCluster.resolved env c).CreateKubecfg = true →
      (∀ text ∈ writesOf (RunUpdateCluster env c).trace,
        text = RunUpdateCluster.deprecation cmd.Cluster
        ∨ text = String.join (narrative env (RunUpdateCluster.resolved env c)
            (!config.Contexts.any (fun context => context.Name == cmd.Cluster.ObjectMeta.Name))
            cmd.Cluster ran.InstanceGroups))
      ∧ ∀ conf, Event.WriteKubecfg conf ∈ (RunUpdateCluster env c).trace →
          env.WriteKubecfg conf = none →
          String.join (narrative env (RunUpdateCluster.resolved env c)
              (!config.Contexts.any (fun context => context.Name == cmd.Cluster.ObjectMeta.Name))
              cmd.Cluster ran.InstanceGroups)
            ∈ writesOf (RunUpdateCluster env c).trace)
    ∧ ((RunUpdateCluster.resolved env c).CreateKubecfg = false →
        Event.GetConfig ∉ (RunUpdateCluster env c).trace
        ∧ writesOf (RunUpdateCluster env c).trace
          = (if c.SSHPublicKey = "" then [] else [RunUpdateCluster.deprecation cmd.Cluster])
            ++ [String.join (narrative env (RunUpdateCluster.resolved env c) false cmd.Cluster
                  ran.InstanceGroups)])
    ∧ ((!config.Contexts.any (fun context => context.Name == cmd.Cluster.ObjectMeta.Name)) = true
        ↔ ∀ context ∈ config.Contexts, context.Name ≠ cmd.Cluster.ObjectMeta.Name) := by
  have hlook : (RunUpdateCluster.lookup env cmd.Cluster).1
      = !config.Contexts.any (fun context => context.Name == cmd.Cluster.ObjectMeta.Name) := by
    simp [RunUpdateCluster.lookup, hasKubecfg, hcfg]
  have hl := writesOf_of_logs _ (RunUpdateCluster.lookup_logs env cmd.Cluster)
  have ha := writesOf_of_logs _
    (RunUpdateCluster.advisory_logs (RunUpdateCluster.resolved env c))
  refine ⟨?_, ?_, by simp⟩
  · intro hk
    obtain ⟨keyStore, secretStore, authorized, hcase⟩ :=
      RunUpdateCluster.apply_run_cases env c cmd ran hcmd hd hok
    have hboot : ∀ conf, ∀ e ∈ RunUpdateCluster.bootstrap env c cmd.Cluster authorized,
        e ≠ Event.WriteKubecfg conf := by
      intro conf e he heq
      have := RunUpdateCluster.bootstrap_no_kubecfg env c _ _ e he
      rw [heq] at this
      simp [Event.isKubecfg] at this
    have hlk : ∀ conf, ∀ e ∈ (RunUpdateCluster.lookup env cmd.Cluster).2,
        e ≠ Event.WriteKubecfg conf := by
      intro conf e he heq
      obtain ⟨_, _, h⟩ := RunUpdateCluster.lookup_mem env _ e he
      rw [heq] at h
      simp at h
    rcases hcase with ⟨hk', _⟩ | ⟨_, e', _, hrun⟩ | ⟨_, conf', e', _, hw', hrun⟩
      | ⟨_, conf', _, hw', hrun⟩
    · rw [hk] at hk'
      simp at hk'
    · refine ⟨?_, ?_⟩
      · intro text htext
        rw [hrun] at htext
        simp only [writesOf_append, RunUpdateCluster.bootstrap_writes, writesOf, hl,
          List.append_nil, List.mem_append] at htext
        left
        split at htext
        · simp at htext
        · simpa using htext
      · intro conf hconf hwok
        exfalso
        rw [hrun] at hconf
        simp only [List.mem_append, List.mem_singleton, List.mem_cons] at hconf
        rcases hconf with (((h | h) | h) | h) | h
        · exact hboot conf _ h rfl
        · simp at h
        · simp at h
        · exact hlk conf _ h rfl
        · simp at h
    · refine ⟨?_, ?_⟩
      · intro text htext
        rw [hrun] at htext
        simp only [writesOf_append, RunUpdateCluster.bootstrap_writes, writesOf, hl,
          List.append_nil, List.mem_append] at htext
        left
        split at htext
        · simp at htext
        · simpa using htext
      · intro conf hconf hwok
        exfalso
        rw [hrun] at hconf
        simp only [List.mem_append, List.mem_singleton, List.mem_cons] at hconf
        rcases hconf with (((h | h) | h) | h) | h
        · exact hboot conf _ h rfl
        · simp at h
        · simp at h
        · exact hlk conf _ h rfl
        · simp at h
          subst h
          rw [hwok] at hw'
          simp at hw'
    · have hws : writesOf (RunUpdateCluster env c).trace
          = (if c.SSHPublicKey = "" then [] else [RunUpdateCluster.deprecation cmd.Cluster])
            ++ [String.join (narrative env (RunUpdateCluster.resolved env c)
                (!config.Contexts.any
                  (fun context => context.Name == cmd.Cluster.ObjectMeta.Name))
                cmd.Cluster ran.InstanceGroups)] := by
        rw [hrun, RunUpdateCluster.narrate_apply, hlook]
        simp [writesOf_append, RunUpdateCluster.bootstrap_writes, writesOf, hl, ha]
      refine ⟨?_, fun _ _ _ => by rw [hws]; simp⟩
      intro text htext
      rw [hws] at htext
      simp only [List.mem_append, List.mem_singleton] at htext
      rcases htext with htext | htext
      · left
        split at htext
        · simp at htext
        · simpa using htext
      · exact Or.inr htext
  · intro hk
    obtain ⟨keyStore, secretStore, authorized, hcase⟩ :=
      RunUpdateCluster.apply_run_cases env c cmd ran hcmd hd hok
    rcases hcase with ⟨_, hrun⟩ | ⟨hk', _⟩ | ⟨hk', _⟩ | ⟨hk', _⟩
    · constructor
      · intro hmem
        rw [hrun, RunUpdateCluster.narrate_apply] at hmem
        simp only [Run.after_trace, List.mem_append, List.mem_singleton] at hmem
        rcases hmem with (h | h) | h
        · rcases RunUpdateCluster.bootstrap_mem env c _ _ _ h with ⟨t, ht⟩ | hm
          · simp at ht
          · simp at hm
        · simp at h
        · simp at h
      · rw [hrun, RunUpdateCluster.narrate_apply]
        simp [writesOf_append, RunUpdateCluster.bootstrap_writes, writesOf]
    · rw [hk] at hk'; simp at hk'
    · rw [hk] at hk'; simp at hk'
    · rw [hk] at hk'; simp at hk'

/-- C19 amended, at the confirmed sample request (`CreateKubecfg` true, no
context on the machine): the text written is the narrative of a first run. -/
theorem first_run_detection_witness :
    String.join (narrative Sample.env (RunUpdateCluster.resolved Sample.env Sample.confirmed)
        true Sample.cluster Sample.applied.InstanceGroups)
      ∈ writesOf (RunUpdateCluster Sample.env Sample.confirmed).trace :=
  ((first_run_detection Sample.env Sample.confirmed Sample.applyCmd Sample.applied
      { Contexts := [] } (by decide) rfl rfl rfl).1 rfl).2 ⟨6⟩ (by decide) rfl

/-! ## Narrative of the rendering backends (C20) -/

/-- The replacement leaves no occurrence of the replaced character. -/
theorem strings.Replace_not_mem (s : String) (old new : Char) (h : new ≠ old) :
    old ∉ (strings.Replace s old new).data := by
  unfold strings.Replace
  simp only [List.mem_map, not_exists, not_and]
  intro ch _ heq
  by_cases hc : ch = old
  · simp [hc] at heq
    exact h heq
  · simp [hc] at heq

/-- C20: for target terraform or cloudformation the narrative starts, first run
or not, with an empty line and the line "Terraform (or Cloudformation) output
has been placed into" the resolved output directory. On a first run the apply
commands follow: for terraform "cd" into that directory, "terraform plan" and
"terraform apply"; for cloudformation the create-stack command whose stack name
is "kubernetes-" and the cluster name with every "." replaced by "-", and whose
template path is `filepath.Join` of the directory and "kubernetes.json". When
the run is not a first run the narrative is the placement line and the
rolling-update reminder, and none of these commands is in it. The stack name
holds no ".". Every text an apply-mode run writes, besides the deprecation
notice, is such a narrative. -/
theorem rendered_output_narrative (env : Env) (c : UpdateClusterOptions) :
    (c.Target = "terraform" → ∀ cluster igs,
      narrative env (RunUpdateCluster.resolved env c) false cluster igs
        = ["\n", "Terraform output has been placed into " ++ resolveOutDir c ++ "\n",
           "\n", "Changes may require instances to restart: kops rolling-update cluster\n",
           "\n"]
      ∧ (narrative env (RunUpdateCluster.resolved env c) true cluster igs).take 7
        = ["\n", "Terraform output has been placed into " ++ resolveOutDir c ++ "\n",
           "Run these commands to apply the configuration:\n",
           "   cd " ++ resolveOutDir c ++ "\n",
           "   terraform plan\n",
           "   terraform apply\n",
           "\n"]
      ∧ "   cd " ++ resolveOutDir c ++ "\n"
          ∉ narrative env (RunUpdateCluster.resolved env c) false cluster igs
      ∧ "   terraform plan\n"
          ∉ narrative env (RunUpdateCluster.resolved env c) false cluster igs
      ∧ "   terraform apply\n"
          ∉ narrative env (RunUpdateCluster.resolved env c) false cluster igs)
    ∧ (c.Target = "cloudformation" → ∀ cluster igs,
      narrative env (RunUpdateCluster.resolved env c) false cluster igs
        = ["\n", "Cloudformation output has been placed into " ++ resolveOutDir c ++ "\n",
           "\n", "Changes may require instances to restart: kops rolling-update cluster\n",
           "\n"]
      ∧ (narrative env (RunUpdateCluster.resolved env c) true cluster igs).take 5
        = ["\n", "Cloudformation output has been placed into " ++ resolveOutDir c ++ "\n",
           "Run this command to apply the configuration:\n",
           "   aws cloudformation create-stack --capabilities CAPABILITY_NAMED_IAM --stack-name "
             ++ ("kubernetes-" ++ strings.Replace c.ClusterName '.' '-')
             ++ " --template-body file://" ++ env.Join (resolveOutDir c) "kubernetes.json"
             ++ "\n",
           "\n"]
      ∧ "   aws cloudformation create-stack --capabilities CAPABILITY_NAMED_IAM --stack-name "
            ++ ("kubernetes-" ++ strings.Replace c.ClusterName '.' '-')
            ++ " --template-body file://" ++ env.Join (resolveOutDir c) "kubernetes.json"
            ++ "\n"
          ∉ narrative env (RunUpdateCluster.resolved env c) false cluster igs)
    ∧ '.' ∉ ("kubernetes-" ++ strings.Replace c.ClusterName '.' '-').data
    ∧ ∀ cmd ∈ (RunUpdateCluster env c).engineCalls, cmd.DryRun = false →
        ∀ ran, env.ApplyClusterCmdRun cmd = .ok ran →
          ∀ text ∈ writesOf (RunUpdateCluster env c).trace,
            text = RunUpdateCluster.deprecation cmd.Cluster
            ∨ ∃ firstRun, text = String.join (narrative env (RunUpdateCluster.resolved env c)
                firstRun cmd.Cluster ran.InstanceGroups) := by
  refine ⟨?_, ?_, ?_, ?_⟩
  · intro ht cluster igs
    have ht' : (RunUpdateCluster.resolved env c).Target = cloudup.TargetTerraform := ht
    have hdir : (RunUpdateCluster.resolved env c).OutDir = resolveOutDir c := rfl
    have hfalse : narrative env (RunUpdateCluster.resolved env c) false cluster igs
        = ["\n", "Terraform output has been placed into " ++ resolveOutDir c ++ "\n",
           "\n", "Changes may require instances to restart: kops rolling-update cluster\n",
           "\n"] := by
      simp [narrative, ht', hdir]
    refine ⟨hfalse, ?_, ?_, ?_, ?_⟩
    · simp [narrative, ht', hdir]
    · rw [hfalse]
      intro hmem
      simp only [List.mem_cons, List.mem_singleton, List.not_mem_nil, or_false] at hmem
      rcases hmem with h | h | h | h | h <;>
        exact absurd h (strings.ne_of_take 1 _ _ (by simp))
    · rw [hfalse]
      intro hmem
      simp only [List.mem_cons, List.mem_singleton, List.not_mem_nil, or_false] at hmem
      rcases hmem with h | h | h | h | h <;>
        exact absurd h (strings.ne_of_take 1 _ _ (by simp))
    · rw [hfalse]
      intro hmem
      simp only [List.mem_cons, List.mem_singleton, List.not_mem_nil, or_false] at hmem
      rcases hmem with h | h | h | h | h <;>
        exact absurd h (strings.ne_of_take 1 _ _ (by simp))
  · intro ht cluster igs
    have ht' : (RunUpdateCluster.resolved env c).Target = cloudup.TargetCloudformation := ht
    have hne : cloudup.TargetCloudformation ≠ cloudup.TargetTerraform := by decide
    have hdir : (RunUpdateCluster.resolved env c).OutDir = resolveOutDir c := rfl
    have hname : (RunUpdateCluster.resolved env c).ClusterName = c.ClusterName := rfl
    have hfalse : narrative env (RunUpdateCluster.resolved env c) false cluster igs
        = ["\n", "Cloudformation output has been placed into " ++ resolveOutDir c ++ "\n",
           "\n", "Changes may require instances to restart: kops rolling-update cluster\n",
           "\n"] := by
      simp [narrative, ht', hne, hdir]
    refine ⟨hfalse, ?_, ?_⟩
    · simp [narrative, ht', hne, hdir, hname]
    · rw [hfalse]
      intro hmem
      simp only [List.mem_cons, List.mem_singleton, List.not_mem_nil, or_false] at hmem
      rcases hmem with h | h | h | h | h <;>
        exact absurd h (strings.ne_of_take 1 _ _ (by simp))
  · have hd : ("kubernetes-" ++ strings.Replace c.ClusterName '.' '-').data
        = "kubernetes-".data ++ (strings.Replace c.ClusterName '.' '-').data := rfl
    rw [hd, List.mem_append]
    rintro (h | h)
    · revert h
      decide
    · exact strings.Replace_not_mem c.ClusterName '.' '-' (by decide) h
  · intro cmd hcmd hd ran hok text htext
    rcases RunUpdateCluster.apply_run_writes env c cmd ran hcmd hd hok with
      ⟨hw, _⟩ | ⟨hw, _⟩
    · rw [hw] at htext
      simp only [List.mem_append, List.mem_singleton] at htext
      rcases htext with htext | htext
      · left
        split at htext
        · simp at htext
        · simpa using htext
      · exact Or.inr ⟨_, htext⟩
    · rw [hw] at htext
      left
      split at htext
      · simp at htext
      · simpa using htext

/-- C20 at the sample requests with target terraform and cloudformation: the
commands of a first run name the default directories, and the stack name of
k8s.example.com is kubernetes-k8s-example-com. -/
theorem rendered_output_narrative_witness :
    (narrative Sample.env (RunUpdateCluster.resolved Sample.env Sample.terraform) true
        Sample.cluster []).take 7
      = ["\n", "Terraform output has been placed into out/terraform\n",
         "Run these commands to apply the configuration:\n",
         "   cd out/terraform\n",
         "   terraform plan\n",
         "   terraform apply\n",
         "\n"]
    ∧ (narrative Sample.env (RunUpdateCluster.resolved Sample.env Sample.cloudformation) true
        Sample.cluster []).take 5
      = ["\n", "Cloudformation output has been placed into out/cloudformation\n",
         "Run this command to apply the configuration:\n",
         "   aws cloudformation create-stack --capabilities CAPABILITY_NAMED_IAM --stack-name kubernetes-k8s-example-com --template-body file://out/cloudformation/kubernetes.json\n",
         "\n"] :=
  ⟨((rendered_output_narrative Sample.env Sample.terraform).1 rfl Sample.cluster []).2.1,
   ((rendered_output_narrative Sample.env Sample.cloudformation).2.1 rfl Sample.cluster []).2.1⟩

/-! ## Name filter of `listSecrets` (C21) -/

/-- When every requested name is the name of some item, the loop over the names
returns, after the matches it started with, the items of each name in turn. -/
theorem listSecrets.collect_ok (env : SecretsEnv) (items : List fi.KeystoreItem)
    (names : List String) :
    ∀ (matched : List fi.KeystoreItem), (∀ n ∈ names, ∃ i ∈ items, i.Name = n) →
      listSecrets.collect env items names matched
        = .ok (matched ++ names.flatMap (fun n => items.filter (fun i => i.Name == n))) := by
  induction names with
  | nil => intro matched _; simp [listSecrets.collect]
  | cons arg rest ih =>
    intro matched h
    obtain ⟨i, hi, hname⟩ := h arg (List.mem_cons_self _ _)
    have hfound : (items.filter (fun i => i.Name == arg)).length ≠ 0 := by
      intro hlen
      have hnil := List.length_eq_zero.mp hlen
      have hmem : i ∈ items.filter (fun i => i.Name == arg) := by
        simp [List.mem_filter, hi, hname]
      rw [hnil] at hmem
      simp at hmem
    unfold listSecrets.collect
    simp only [hfound, if_false]
    rw [ih _ (fun n hn => h n (List.mem_cons_of_mem _ hn))]
    simp [List.append_assoc]

/-- The loop over the names stops at the first name that no item has, with the
error that quotes it. -/
theorem listSecrets.collect_missing (env : SecretsEnv) (items : List fi.KeystoreItem)
    (before : List String) (missing : String) (after : List String)
    (hmissing : ∀ i ∈ items, i.Name ≠ missing) :
    ∀ (matched : List fi.KeystoreItem), (∀ n ∈ before, ∃ i ∈ items, i.Name = n) →
      listSecrets.collect env items (before ++ missing :: after) matched
        = .error ("Secret not found: " ++ env.Quote missing) := by
  induction before with
  | nil =>
    intro matched _
    have hnil : items.filter (fun i => i.Name == missing) = [] := by
      simp only [List.filter_eq_nil_iff, beq_iff_eq]
      exact hmissing
    simp [listSecrets.collect, hnil]
  | cons arg rest ih =>
    intro matched h
    obtain ⟨i, hi, hname⟩ := h arg (List.mem_cons_self _ _)
    have hfound : (items.filter (fun i => i.Name == arg)).length ≠ 0 := by
      intro hlen
      have hnil := List.length_eq_zero.mp hlen
      have hmem : i ∈ items.filter (fun i => i.Name == arg) := by
        simp [List.mem_filter, hi, hname]
      rw [hnil] at hmem
      simp at hmem
    rw [List.cons_append]
    unfold listSecrets.collect
    simp only [hfound, if_false]
    exact ih _ (fun n hn => h n (List.mem_cons_of_mem _ hn))

/-- Among names of which one is the name of no item there is a first such name. -/
theorem listSecrets.first_missing (items : List fi.KeystoreItem) (names : List String)
    (h : ∃ n ∈ names, ∀ i ∈ items, i.Name ≠ n) :
    ∃ before missing after, names = before ++ missing :: after
      ∧ (∀ n ∈ before, ∃ i ∈ items, i.Name = n)
      ∧ ∀ i ∈ items, i.Name ≠ missing := by
  induction names with
  | nil =>
    obtain ⟨n, hn, _⟩ := h
    simp at hn
  | cons arg rest ih =>
    by_cases harg : ∃ i ∈ items, i.Name = arg
    · obtain ⟨n, hn, hnone⟩ := h
      have hrest : ∃ n ∈ rest, ∀ i ∈ items, i.Name ≠ n := by
        rcases List.mem_cons.mp hn with rfl | hn'
        · obtain ⟨i, hi, hname⟩ := harg
          exact absurd hname (hnone i hi)
        · exact ⟨n, hn', hnone⟩
      obtain ⟨before, missing, after, heq, hbefore, hmissing⟩ := ih hrest
      refine ⟨arg :: before, missing, after, by simp [heq], ?_, hmissing⟩
      intro n hn
      rcases List.mem_cons.mp hn with rfl | hn'
      · exact harg
      · exact hbefore n hn'
    · refine ⟨[], arg, rest, rfl, by simp, ?_⟩
      intro i hi hname
      exact harg ⟨i, hi, hname⟩

/-- What a listing of the secret store that succeeds holds. -/
theorem listSecrets.secrets_ok (env : SecretsEnv) (secretStore : fi.SecretStore)
    (findType : String) (items : List fi.KeystoreItem)
    (h : listSecrets.secrets env secretStore findType = .ok items) :
    (∀ i ∈ items, i.KeysetType = env.SecretTypeSecret)
      ∧ (findType ≠ "" → ∀ i ∈ items, env.ToLower i.KeysetType = findType)
      ∧ ∀ secretNames, env.ListSecrets secretStore = .ok secretNames →
          items = (secretNames.map (fun name =>
              ({ Name := name, ID := "", KeysetType := env.SecretTypeSecret,
                 Data := none } : fi.KeystoreItem))).filter
            (fun i => findType == "" || findType == env.ToLower i.KeysetType) := by
  unfold listSecrets.secrets at h
  split at h
  · next hty =>
    split at h
    · simp at h
    · next secretNames hs =>
      simp only [Except.ok.injEq] at h
      subst h
      refine ⟨?_, ?_, ?_⟩
      · intro i hi
        simp only [listSecrets.secretItems, List.mem_filter, List.mem_map] at hi
        obtain ⟨⟨name, _, rfl⟩, _⟩ := hi
        rfl
      · intro hne i hi
        simp only [listSecrets.secretItems, List.mem_filter, List.mem_map] at hi
        obtain ⟨_, hkeep⟩ := hi
        simp [hne] at hkeep
        exact hkeep.symm
      · intro secretNames2 hs2
        rw [hs] at hs2
        simp only [Except.ok.injEq] at hs2
        subst hs2
        simp only [listSecrets.secretItems]
        congr 1
        funext i
        by_cases h1 : findType = "" <;> by_cases h2 : findType = env.ToLower i.KeysetType <;>
          simp [bne, h1, h2]
  · next hty =>
    simp only [Except.ok.injEq] at h
    subst h
    refine ⟨by simp, by simp, ?_⟩
    intro secretNames _
    symm
    simp only [List.filter_eq_nil_iff, List.mem_map]
    rintro i ⟨name, _, rfl⟩
    simp only [not_or] at hty
    simp [hty.1, hty.2]

/-- What a listing of the SSH credential store that succeeds holds. -/
theorem listSecrets.keys_ok (env : SecretsEnv) (sshCredentialStore : fi.SSHCredentialStore)
    (findType : String) (warnings : List String) (items : List fi.KeystoreItem)
    (h : listSecrets.keys env sshCredentialStore findType = .ok (warnings, items)) :
    (∀ i ∈ items, i.KeysetType = SecretTypeSSHPublicKey)
      ∧ (findType ≠ "" → ∀ i ∈ items, env.ToLower i.KeysetType = findType)
      ∧ ∀ l, env.ListSSHCredentials sshCredentialStore = .ok l →
          items = (l.map (listSecrets.keyItem env)).filter
            (fun i => findType == "" || findType == env.ToLower i.KeysetType) := by
  unfold listSecrets.keys at h
  split at h
  · next hty =>
    split at h
    · simp at h
    · next l hs =>
      simp only [Except.ok.injEq, Prod.mk.injEq] at h
      obtain ⟨_, h⟩ := h
      subst h
      refine ⟨?_, ?_, ?_⟩
      · intro i hi
        simp only [listSecrets.keyItems, List.mem_filter, List.mem_map] at hi
        obtain ⟨⟨credential, _, rfl⟩, _⟩ := hi
        rfl
      · intro hne i hi
        simp only [listSecrets.keyItems, List.mem_filter, List.mem_map] at hi
        obtain ⟨_, hkeep⟩ := hi
        simp [hne] at hkeep
        exact hkeep.symm
      · intro l2 hs2
        rw [hs] at hs2
        simp only [Except.ok.injEq] at hs2
        subst hs2
        simp only [listSecrets.keyItems]
        congr 1
        funext i
        by_cases h1 : findType = "" <;> by_cases h2 : findType = env.ToLower i.KeysetType <;>
          simp [bne, h1, h2]
  · next hty =>
    simp only [Except.ok.injEq, Prod.mk.injEq] at h
    obtain ⟨_, h⟩ := h
    subst h
    refine ⟨by simp, by simp, ?_⟩
    intro l _
    symm
    simp only [List.filter_eq_nil_iff, List.mem_map]
    rintro i ⟨credential, _, rfl⟩
    simp only [not_or] at hty
    simp [hty.1, listSecrets.keyItem, hty.2]

/-- A run of `listSecrets` without names that succeeds went through both
blocks, and its items are those of the first followed by those of the second. -/
theorem listSecrets_blocks (env : SecretsEnv) (secretStore : fi.SecretStore)
    (sshCredentialStore : fi.SSHCredentialStore) (secretType : String)
    (warnings : List String) (listed : List fi.KeystoreItem)
    (hlist : listSecrets env secretStore sshCredentialStore secretType []
      = ⟨warnings, .ok listed⟩) :
    (env.ToLower secretType = "" ∨ env.ToLower secretType = "sshpublickey"
        ∨ env.ToLower secretType = "secret")
      ∧ ∃ secrets keys,
          listSecrets.secrets env secretStore (env.ToLower secretType) = .ok secrets
          ∧ listSecrets.keys env sshCredentialStore (env.ToLower secretType)
              = .ok (warnings, keys)
          ∧ listed = secrets ++ keys := by
  unfold listSecrets at hlist
  dsimp only at hlist
  split at hlist
  · next hacc =>
    refine ⟨hacc, ?_⟩
    cases hs : listSecrets.secrets env secretStore (env.ToLower secretType) with
    | error err => rw [hs] at hlist; simp at hlist
    | ok secrets =>
      cases hk : listSecrets.keys env sshCredentialStore (env.ToLower secretType) with
      | error err => rw [hs, hk] at hlist; simp at hlist
      | ok answer =>
        obtain ⟨w, keys⟩ := answer
        rw [hs, hk] at hlist
        simp at hlist
        obtain ⟨hw, hl⟩ := hlist
        subst hw
        subst hl
        exact ⟨secrets, keys, rfl, rfl, rfl⟩
  · split at hlist <;> simp at hlist

/-- With requested names, `listSecrets` logs what the listing without names
logs and returns the answer of the loop over the names on the items listed. -/
theorem listSecrets_of_listing (env : SecretsEnv) (secretStore : fi.SecretStore)
    (sshCredentialStore : fi.SSHCredentialStore) (secretType : String) (names : List String)
    (warnings : List String) (listed : List fi.KeystoreItem)
    (hlist : listSecrets env secretStore sshCredentialStore secretType []
      = ⟨warnings, .ok listed⟩)
    (hne : names ≠ []) :
    listSecrets env secretStore sshCredentialStore secretType names
      = ⟨warnings, listSecrets.collect env listed names []⟩ := by
  have hlen : names.length ≠ 0 := fun h => hne (List.length_eq_zero.mp h)
  obtain ⟨hacc, secrets, keys, hs, hk, hl⟩ :=
    listSecrets_blocks env secretStore sshCredentialStore secretType warnings listed hlist
  unfold listSecrets
  dsimp only
  rw [if_pos hacc, hs, hk]
  simp [hlen, hl]

/-- C21: name filter of `listSecrets`. Take a listing without names that succeeds
with the items `listed`. Then the type is an accepted one (lower-cased it is
empty, `sshpublickey` or `secret`); `listed` is the secrets followed by the SSH
public keys, each of the requested type when one is given, and it is what the
two stores list, filtered by that type. For every non-empty list of names: if
some name is the name of no listed item, the names split at the first such name
and `listSecrets` returns the error `Secret not found: ` with that name quoted,
and no items; if every name is the name of a listed item, `listSecrets` returns,
for each name in the order given, the listed items of that name in listing
order, so that a name given twice yields its items twice; every item so
returned is a listed item and its name is a requested name. The warnings logged
are those of the listing without names. -/
theorem listSecrets_name_filter (env : SecretsEnv) (secretStore : fi.SecretStore)
    (sshCredentialStore : fi.SSHCredentialStore) (secretType : String)
    (warnings : List String) (listed : List fi.KeystoreItem)
    (hlist : listSecrets env secretStore sshCredentialStore secretType []
      = ⟨warnings, .ok listed⟩) :
    (env.ToLower secretType = "" ∨ env.ToLower secretType = "sshpublickey"
        ∨ env.ToLower secretType = "secret")
      ∧ (∃ secrets keys, listed = secrets ++ keys
          ∧ (∀ i ∈ secrets, i.KeysetType = env.SecretTypeSecret)
          ∧ (∀ i ∈ keys, i.KeysetType = SecretTypeSSHPublicKey))
      ∧ (env.ToLower secretType ≠ "" →
          ∀ i ∈ listed, env.ToLower i.KeysetType = env.ToLower secretType)
      ∧ (∀ secretNames l, env.ListSecrets secretStore = .ok secretNames →
          env.ListSSHCredentials sshCredentialStore = .ok l →
          listed
            = (secretNames.map (fun name =>
                  ({ Name := name, ID := "", KeysetType := env.SecretTypeSecret,
                     Data := none } : fi.KeystoreItem))
                ++ l.map (listSecrets.keyItem env)).filter
                (fun i => env.ToLower secretType == ""
                  || env.ToLower secretType == env.ToLower i.KeysetType))
      ∧ ∀ names : List String, names ≠ [] →
          ((∃ n ∈ names, ∀ i ∈ listed, i.Name ≠ n) →
            ∃ before missing after, names = before ++ missing :: after
              ∧ (∀ n ∈ before, ∃ i ∈ listed, i.Name = n)
              ∧ (∀ i ∈ listed, i.Name ≠ missing)
              ∧ listSecrets env secretStore sshCredentialStore secretType names
                  = ⟨warnings, .error ("Secret not found: " ++ env.Quote missing)⟩)
          ∧ ((∀ n ∈ names, ∃ i ∈ listed, i.Name = n) →
              listSecrets env secretStore sshCredentialStore secretType names
                = ⟨warnings,
                    .ok (names.flatMap (fun n => listed.filter (fun i => i.Name == n)))⟩)
          ∧ (∀ n, (∃ i ∈ listed, i.Name = n) →
              listSecrets env secretStore sshCredentialStore secretType [n, n]
                = ⟨warnings,
                    .ok (listed.filter (fun i => i.Name == n)
                      ++ listed.filter (fun i => i.Name == n))⟩)
          ∧ ∀ item ∈ names.flatMap (fun n => listed.filter (fun i => i.Name == n)),
              item.Name ∈ names ∧ item ∈ listed := by
  obtain ⟨hacc, secrets, keys, hs, hk, hl⟩ :=
    listSecrets_blocks env secretStore sshCredentialStore secretType warnings listed hlist
  obtain ⟨hs1, hs2, hs3⟩ := listSecrets.secrets_ok env secretStore _ secrets hs
  obtain ⟨hk1, hk2, hk3⟩ := listSecrets.keys_ok env sshCredentialStore _ warnings keys hk
  refine ⟨hacc, ⟨secrets, keys, hl, hs1, hk1⟩, ?_, ?_, ?_⟩
  · intro hne i hi
    rw [hl] at hi
    rcases List.mem_append.mp hi with h | h
    · exact hs2 hne i h
    · exact hk2 hne i h
  · intro secretNames l hsecrets hkeys
    rw [hl, List.filter_append, ← hs3 secretNames hsecrets, ← hk3 l hkeys]
  · intro names hne
    refine ⟨?_, ?_, ?_, ?_⟩
    · intro hsome
      obtain ⟨before, missing, after, heq, hbefore, hmissing⟩ :=
        listSecrets.first_missing listed names hsome
      refine ⟨before, missing, after, heq, hbefore, hmissing, ?_⟩
      rw [listSecrets_of_listing env secretStore sshCredentialStore secretType names warnings
        listed hlist hne, heq,
        listSecrets.collect_missing env listed before missing after hmissing [] hbefore]
    · intro hall
      rw [listSecrets_of_listing env secretStore sshCredentialStore secretType names warnings
        listed hlist hne, listSecrets.collect_ok env listed names [] hall]
      simp
    · intro n hn
      rw [listSecrets_of_listing env secretStore sshCredentialStore secretType [n, n] warnings
        listed hlist (by simp),
        listSecrets.collect_ok env listed [n, n] [] (by simpa using hn)]
      simp
    · intro item hitem
      obtain ⟨n, hn, hmem⟩ := List.mem_flatMap.mp hitem
      obtain ⟨hin, hname⟩ := List.mem_filter.mp hmem
      have hname2 : item.Name = n := by simpa using hname
      exact ⟨hname2 ▸ hn, hin⟩

/-- In `Sample.secrets` the secret `admin` and the SSH public key `admin` come
back twice each when the name is given twice, and of the names `kube`, `nope`,
`nope2` the error quotes `nope`. -/
theorem listSecrets_name_filter_witness :
    listSecrets Sample.secrets ⟨4⟩ ⟨3⟩ "" [] = ⟨[], .ok Sample.listed⟩
      ∧ listSecrets Sample.secrets ⟨4⟩ ⟨3⟩ "" ["admin", "admin"]
          = ⟨[], .ok (["admin", "admin"].flatMap
              (fun n => Sample.listed.filter (fun i => i.Name == n)))⟩
      ∧ ["admin", "admin"].flatMap (fun n => Sample.listed.filter (fun i => i.Name == n))
          = [{ Name := "admin", ID := "", KeysetType := "Secret", Data := none },
             { Name := "admin", ID := "ab:cd", KeysetType := "SSHPublicKey",
               Data := some "ssh-rsa AAAA" },
             { Name := "admin", ID := "", KeysetType := "Secret", Data := none },
             { Name := "admin", ID := "ab:cd", KeysetType := "SSHPublicKey",
               Data := some "ssh-rsa AAAA" }]
      ∧ (∃ before missing after, ["kube", "nope", "nope2"] = before ++ missing :: after
          ∧ (∀ n ∈ before, ∃ i ∈ Sample.listed, i.Name = n)
          ∧ (∀ i ∈ Sample.listed, i.Name ≠ missing)
          ∧ listSecrets Sample.secrets ⟨4⟩ ⟨3⟩ "" ["kube", "nope", "nope2"]
              = ⟨[], .error ("Secret not found: " ++ Sample.secrets.Quote missing)⟩)
      ∧ listSecrets Sample.secrets ⟨4⟩ ⟨3⟩ "" ["kube", "nope", "nope2"]
          = ⟨[], .error "Secret not found: \"nope\""⟩ :=
  ⟨rfl,
   ((listSecrets_name_filter Sample.secrets ⟨4⟩ ⟨3⟩ "" [] Sample.listed rfl).2.2.2.2
      ["admin", "admin"] (by simp)).2.1 (by decide),
   by decide,
   ((listSecrets_name_filter Sample.secrets ⟨4⟩ ⟨3⟩ "" [] Sample.listed rfl).2.2.2.2
      ["kube", "nope", "nope2"] (by simp)).1 ⟨"nope", by simp, by decide⟩,
   rfl⟩

end Kops
